import Mathlib

/-! Configuration database microservice: accessors over a relational store.

A shallow embedding of the accessor layer (`accessors/device.go`,
`accessors/room.go`, `accessors/building.go`, `accessors/devicepowerstates.go`).

* Go functions returning `(value, error)` become functions returning a pair
  `value × Option Error` (`none` is the nil error) together with the connection
  they leave behind.
* `accessorGroup.Database` is an arbitrary SQL engine (`Database σ`): every
  statement the accessors send is a constructor of `Stmt` carrying its bound
  arguments, and the engine answers with rows or a result, or with an error.
  The rows of a query are a cursor (`Rows`): the rows it delivers and the error,
  if any, that ended it before the last row. `Conn` records every statement
  that was sent.
* `sqlEngine` is one engine: the tables as lists of rows, with the joins of each
  statement written out. `lossyEngine` is the same engine on a connection that
  is lost while one cursor is read.
* The handlers (`handlers/room.go`, `handlers/devices.go`,
  `handlers/portconfig.go`) take the accessor calls they make as parameters.
-/

namespace ConfigDB

/-! ## Go-level data -/

/-- The text of a Go `error`; `Option Error` is a possibly nil `error`. -/
abbrev Error := String

/-- Building aggregate (`Building` in `building.go`, with the `Description`
that `GetDevicesByQuery` scans into). -/
structure Building where
  ID : Int
  Name : String
  Shortname : String
  Description : String
  deriving DecidableEq, Repr

/-- Endpoint of a command: name and path. -/
structure Endpoint where
  Name : String
  Path : String
  deriving DecidableEq, Repr

/-- Command of a device, resolved to its endpoint and microservice address. -/
structure Command where
  Name : String
  Endpoint : Endpoint
  Microservice : String
  deriving DecidableEq, Repr

/-- Port of a device: the four columns `GetDevicePortsByBuildingAndRoomAndName` scans. -/
structure Port where
  Source : String
  Name : String
  Destination : String
  Host : String
  deriving DecidableEq, Repr

/-- Room configuration; only the identifier and the evaluator list are used by the accessors. -/
structure RoomConfiguration where
  ID : Int
  Evaluators : List String
  deriving DecidableEq, Repr

/-- Room aggregate (`Room` in `room.go`, with the `RoomDesignation` that
`GetDevicesByQuery` scans into), over the type of its devices. -/
structure RoomOf (D : Type) where
  ID : Int
  Name : String
  Description : String
  Building : Building
  RoomDesignation : String
  CurrentVideoInput : Int
  CurrentAudioInput : Int
  CurrentVideoOutput : Int
  CurrentAudioOutput : Int
  Devices : List D
  ConfigurationID : Int
  Configuration : RoomConfiguration

/-- Device aggregate (`structs.Device`). -/
structure Device where
  ID : Int
  Name : String
  Address : String
  Input : Bool
  Output : Bool
  DisplayName : String
  Building : Building
  Room : RoomOf Device
  Type' : String
  Class : String
  Roles : List String
  PowerStates : List String
  Ports : List Port
  Commands : List Command

/-- Room aggregate. -/
abbrev Room := RoomOf Device

/-- The zero value `Building{}`. -/
def Building.zero : Building := ⟨0, "", "", ""⟩

/-- The zero value `RoomConfiguration{}`. -/
def RoomConfiguration.zero : RoomConfiguration := ⟨0, []⟩

/-- The zero value `Room{}`. -/
def Room.zero : Room :=
  { ID := 0, Name := "", Description := "", Building := Building.zero, RoomDesignation := "",
    CurrentVideoInput := 0, CurrentAudioInput := 0, CurrentVideoOutput := 0,
    CurrentAudioOutput := 0, Devices := [], ConfigurationID := 0,
    Configuration := RoomConfiguration.zero }

/-- The zero value `structs.Device{}`. -/
def Device.zero : Device :=
  { ID := 0, Name := "", Address := "", Input := false, Output := false, DisplayName := "",
    Building := Building.zero, Room := Room.zero, Type' := "", Class := "", Roles := [],
    PowerStates := [], Ports := [], Commands := [] }

/-- Request of `SetDeviceAttribute` (`structs.DeviceAttributeInfo`). -/
structure DeviceAttributeInfo where
  DeviceID : Int
  AttributeName : String
  AttributeValue : String
  deriving DecidableEq, Repr

/-! ## The database handle -/

/-- A cell of a result row, or a bound argument of a statement. -/
inductive Value where
  | null
  | int (i : Int)
  | str (s : String)
  | bool (b : Bool)
  deriving DecidableEq, Repr

/-- A result row. -/
abbrev Row := List Value

/-- The statements the accessors send, each with its bound arguments in the
order of the `?` placeholders. -/
inductive Stmt where
  /-- `UPDATE Devices SET <column> = ? WHERE deviceID = ?` -/
  | updateDevices (column : String) (value : Value) (deviceID : Int)
  /-- The `SELECT DISTINCT` over `Devices JOIN Rooms JOIN Buildings JOIN DeviceClasses
  JOIN DeviceTypes JOIN DeviceRole JOIN DeviceRoleDefinition` of `GetDevicesByQuery`,
  followed by a blank and the caller's fragment `query`. -/
  | selectDevices (query : String) (parameters : List Value)
  /-- `Select DeviceRoleDefinition.name From DeviceRoleDefinition JOIN DeviceRole dr on
  dr.deviceRoleDefinitionID = DeviceRoleDefinition.deviceRoleDefinitionID WHERE dr.deviceID = ?` -/
  | selectRoles (deviceID : Int)
  /-- `SELECT PowerStates.name FROM PowerStates JOIN DevicePowerStates on
  DevicePowerStates.powerStateID = PowerStates.powerStateID Where DevicePowerStates.deviceID = ?` -/
  | selectPowerStates (deviceID : Int)
  /-- The command query of `GetDeviceCommandsByBuildingAndRoomAndName`:
  `... WHERE Rooms.name=? AND Buildings.shortName=? AND Devices.name=?` -/
  | selectCommands (roomName buildingShortname deviceName : String)
  /-- The port query of `GetDevicePortsByBuildingAndRoomAndName`:
  `... WHERE Rooms.name=? AND Buildings.shortName=? AND hostDevice.name=?` -/
  | selectPorts (roomName buildingShortname deviceName : String)
  /-- `SELECT * FROM buildings WHERE shortname=?` -/
  | selectBuildingByShortname (shortname : String)
  /-- `SELECT * FROM Rooms WHERE buildingID=? AND name=?` -/
  | selectRoomByBuildingAndName (buildingID : Int) (name : String)
  /-- `INSERT INTO rooms (name, building, vlan) VALUES (?, ?, ?)` -/
  | insertRoom (name : String) (building : Int) (vlan : Int)
  /-- `Insert into Devices (name, address, input, output, buildingID, roomID, classID,
  typeID, displayName) VALUES (?,?,?,?,?,?,?,?,?)` -/
  | insertDevice (name address : String) (input output : Bool)
      (buildingID roomID classID typeID : Int) (displayName : String)
  /-- `INSERT INTO DevicePowerStates (devicePowerStateID, deviceID, powerStateID) VALUES(?,?,?)` -/
  | insertDevicePowerState (devicePowerStateID deviceID powerStateID : Int)
  /-- Insert of a `DeviceRole` link row (sent by `AddDeviceRole`). -/
  | insertDeviceRole (deviceID deviceRoleDefinitionID : Int)
  /-- Lookup of a device type by name (sent by `GetDeviceTypeByName`). -/
  | selectDeviceTypeByName (name : String)
  /-- Lookup of a device class by name (sent by `GetDeviceClassByName`). -/
  | selectDeviceClassByName (name : String)
  /-- Lookup of a role definition by name (sent by `GetDeviceRoleDefByName`). -/
  | selectDeviceRoleDefByName (name : String)
  /-- Lookup of a power state by name (sent by `GetPowerStateByName`). -/
  | selectPowerStateByName (name : String)
  /-- Lookup of a room configuration by id (sent by `GetConfigurationByConfigurationID`). -/
  | selectConfigurationByID (configurationID : Int)
  deriving DecidableEq, Repr

/-- The `sql.Result` of an executed statement: `LastInsertId()` and `RowsAffected()`. -/
structure Result where
  LastInsertId : Int × Option Error
  RowsAffected : Int × Option Error
  deriving DecidableEq, Repr

/-- The `*sql.Rows` of an answered query, as the code reading it sees it: the
rows `rows.Next()` delivers until it reports false, and `rows.Err()`, the error
that ended the iteration before the last row (none when every row was
delivered). -/
structure Rows where
  delivered : List Row
  Err : Option Error
  deriving DecidableEq, Repr

/-- The SQL engine behind `accessorGroup.Database`, over its storage `σ`. -/
structure Database (σ : Type) where
  Exec : Stmt → σ → Except Error Result × σ
  Query : Stmt → σ → Except Error Rows × σ

/-- A connection: the storage and the statements sent so far, oldest first. -/
structure Conn (σ : Type) where
  store : σ
  issued : List Stmt

/-- `accessorGroup.Database.Exec(...)`: send the statement, record it. -/
def Exec {σ : Type} (db : Database σ) (q : Stmt) (c : Conn σ) : Except Error Result × Conn σ :=
  ((db.Exec q c.store).1, ⟨(db.Exec q c.store).2, c.issued ++ [q]⟩)

/-- `accessorGroup.Database.Query(...)`: send the statement, record it. -/
def QueryRows {σ : Type} (db : Database σ) (q : Stmt) (c : Conn σ) : Except Error Rows × Conn σ :=
  ((db.Query q c.store).1, ⟨(db.Query q c.store).2, c.issued ++ [q]⟩)

/-- `accessorGroup.Database.Query(...)` as read by a `for rows.Next()` loop that
is not followed by `rows.Err()`: the caller sees the rows the cursor delivers,
and not whether the iteration ended at the last row or at an error. Every loop
over rows embedded below is of this kind (`GetDevicesByQuery`,
`GetRolesByDeviceID`, `GetPowerStatesByDeviceID`, the command and port queries,
`ExtractRoomData`). -/
def Query {σ : Type} (db : Database σ) (q : Stmt) (c : Conn σ) : Except Error (List Row) × Conn σ :=
  ((QueryRows db q c).1.map Rows.delivered, (QueryRows db q c).2)

/-- The error of `QueryRow(...).Scan` when the query has no row (`sql.ErrNoRows`). -/
def ErrNoRows : Error := "sql: no rows in result set"

/-- `accessorGroup.Database.QueryRow(...)` up to the row its `Scan` reads: the
error of the query; when `Next` delivers no row, `rows.Err()` if there is one and
`sql.ErrNoRows` otherwise; else the first row. -/
def QueryRow {σ : Type} (db : Database σ) (q : Stmt) (c : Conn σ) : Except Error Row × Conn σ :=
  match QueryRows db q c with
  | (.error e, c1) => (.error e, c1)
  | (.ok ⟨[], some e⟩, c1) => (.error e, c1)
  | (.ok ⟨[], none⟩, c1) => (.error ErrNoRows, c1)
  | (.ok ⟨row :: _, _⟩, c1) => (.ok row, c1)

/-! ## Scanning rows

A cell is scanned into a destination of its own kind; a cell of another kind, a
null cell among them, is a scan error. The conversions `database/sql` makes
between kinds are not modelled. -/

/-- `rows.Scan` into an `int` destination. -/
def scanInt : Value → Except Error Int
  | .int i => .ok i
  | _ => .error "sql: Scan error: unsupported conversion to int"

/-- `rows.Scan` into a `string` destination. -/
def scanString : Value → Except Error String
  | .str s => .ok s
  | _ => .error "sql: Scan error: unsupported conversion to string"

/-- `rows.Scan` into a `bool` destination. -/
def scanBool : Value → Except Error Bool
  | .bool b => .ok b
  | _ => .error "sql: Scan error: unsupported conversion to bool"

/-- The error of `rows.Scan` when the row does not have as many columns as destinations. -/
def scanArity (columns destinations : Nat) : Error :=
  "sql: expected " ++ toString columns ++ " destination arguments in Scan, not " ++
    toString destinations

/-! ## `strconv.Atoi` -/

/-- The value of an ASCII decimal digit. -/
def digitValue (ch : Char) : Option Nat :=
  if '0' ≤ ch ∧ ch ≤ '9' then some (ch.toNat - '0'.toNat) else none

/-- The digit `n` of `0123456789abcdef`. -/
def hexDigit (n : Nat) : Char :=
  if n < 10 then Char.ofNat ('0'.toNat + n) else Char.ofNat ('a'.toNat + (n - 10))

/-- `strconv.IsPrint` up to U+00FF: the graphic ASCII characters and the
characters from U+00A1 on except the soft hyphen. Runes above U+00FF are taken
as printable; the tables of `strconv.IsPrint` for them are not reproduced. -/
def IsPrint (r : Char) : Bool :=
  if r.toNat ≤ 0xFF then
    if 0x20 ≤ r.toNat ∧ r.toNat < 0x7F then true
    else if 0xA1 ≤ r.toNat then r.toNat ≠ 0xAD
    else false
  else true

/-- One rune as `strconv.Quote` writes it: the quote and the backslash are
backslashed, a printable rune stands for itself, and the others are escaped. -/
def quoteRune (r : Char) : String :=
  if r.toNat = 0x22 ∨ r.toNat = 0x5C then "\\" ++ r.toString
  else if IsPrint r then r.toString
  else if r.toNat = 7 then "\\a"
  else if r.toNat = 8 then "\\b"
  else if r.toNat = 12 then "\\f"
  else if r.toNat = 10 then "\\n"
  else if r.toNat = 13 then "\\r"
  else if r.toNat = 9 then "\\t"
  else if r.toNat = 11 then "\\v"
  else if r.toNat < 0x20 ∨ r.toNat = 0x7F then
    "\\x" ++ String.mk [hexDigit (r.toNat / 16), hexDigit (r.toNat % 16)]
  else if r.toNat < 0x10000 then
    "\\u" ++ String.mk [hexDigit (r.toNat / 4096 % 16), hexDigit (r.toNat / 256 % 16),
      hexDigit (r.toNat / 16 % 16), hexDigit (r.toNat % 16)]
  else
    "\\U" ++ String.mk [hexDigit (r.toNat / 268435456 % 16), hexDigit (r.toNat / 16777216 % 16),
      hexDigit (r.toNat / 1048576 % 16), hexDigit (r.toNat / 65536 % 16),
      hexDigit (r.toNat / 4096 % 16), hexDigit (r.toNat / 256 % 16),
      hexDigit (r.toNat / 16 % 16), hexDigit (r.toNat % 16)]

/-- `strconv.Quote`: the string as a double-quoted Go string literal. -/
def Quote (s : String) : String :=
  "\"" ++ String.join (s.data.map quoteRune) ++ "\""

/-- The error of `strconv.Atoi` on malformed input (`strconv.ErrSyntax`). -/
def atoiSyntaxError (s : String) : Error :=
  "strconv.Atoi: parsing " ++ Quote s ++ ": invalid syntax"

/-- The error of `strconv.Atoi` on a value that does not fit a 64-bit `int`
(`strconv.ErrRange`). -/
def atoiRangeError (s : String) : Error :=
  "strconv.Atoi: parsing " ++ Quote s ++ ": value out of range"

/-- The loop of `strconv.ParseUint` in base 10 with 64 bits, continuing from `n`:
the bytes are read from the left; a byte that is no digit is a syntax error, and
a digit that takes the value beyond `2 ^ 64 - 1` is a range error, reported at
that digit whatever follows it. -/
def parseDigits (s : String) : List Char → Nat → Except Error Nat
  | [], n => .ok n
  | ch :: rest, n =>
    match digitValue ch with
    | none => .error (atoiSyntaxError s)
    | some d =>
      if n ≥ (2 ^ 64 - 1) / 10 + 1 then .error (atoiRangeError s)
      else if n * 10 + d > 2 ^ 64 - 1 then .error (atoiRangeError s)
      else parseDigits s rest (n * 10 + d)

/-- Unsigned part of `strconv.Atoi`: at least one digit, nothing but digits. -/
def atoiDigits (s : String) (ds : List Char) : Except Error Nat :=
  match ds with
  | [] => .error (atoiSyntaxError s)
  | _ :: _ => parseDigits s ds 0

/-- `strconv.Atoi`: an optional sign, then decimal digits, within the range of a 64-bit `int`. -/
def Atoi (s : String) : Except Error Int :=
  match s.data with
  | '-' :: ds =>
    match atoiDigits s ds with
    | .error e => .error e
    | .ok n => if n ≤ 2 ^ 63 then .ok (-(n : Int)) else .error (atoiRangeError s)
  | '+' :: ds =>
    match atoiDigits s ds with
    | .error e => .error e
    | .ok n => if n < 2 ^ 63 then .ok (n : Int) else .error (atoiRangeError s)
  | ds =>
    match atoiDigits s ds with
    | .error e => .error e
    | .ok n => if n < 2 ^ 63 then .ok (n : Int) else .error (atoiRangeError s)

/-! ## `accessors/device.go` -/

/-- The loop of `GetRolesByDeviceID` and of `GetPowerStatesByDeviceID`, over the
rows the cursor delivers: scan one string per row and append it; a scan error
returns the empty list with the error. `rows.Err()` is not read after the loop. -/
def scanNames : List Row → List String → List String × Option Error
  | [], toReturn => (toReturn, none)
  | row :: rest, toReturn =>
    match row with
    | [v] =>
      match scanString v with
      | .error e => ([], some e)
      | .ok value => scanNames rest (toReturn ++ [value])
    | _ => ([], some (scanArity row.length 1))

/-- `GetRolesByDeviceID`. -/
def GetRolesByDeviceID {σ : Type} (db : Database σ) (deviceID : Int) (c : Conn σ) :
    (List String × Option Error) × Conn σ :=
  match Query db (.selectRoles deviceID) c with
  | (.error e, c1) => (([], some e), c1)
  | (.ok rows, c1) => (scanNames rows [], c1)

/-- `GetPowerStatesByDeviceID`. -/
def GetPowerStatesByDeviceID {σ : Type} (db : Database σ) (deviceID : Int) (c : Conn σ) :
    (List String × Option Error) × Conn σ :=
  match Query db (.selectPowerStates deviceID) c with
  | (.error e, c1) => (([], some e), c1)
  | (.ok rows, c1) => (scanNames rows [], c1)

/-- Scan of one row of the command query into a `Command`. -/
def scanCommand : Row → Except Error Command
  | [commandName, endpointName, endpointPath, microserviceAddress] =>
    match scanString commandName, scanString endpointName, scanString endpointPath,
      scanString microserviceAddress with
    | .ok n, .ok en, .ok ep, .ok m => .ok ⟨n, ⟨en, ep⟩, m⟩
    | .error e, _, _, _ => .error e
    | _, .error e, _, _ => .error e
    | _, _, .error e, _ => .error e
    | _, _, _, .error e => .error e
  | row => .error (scanArity row.length 4)

/-- The row loop of `ExtractCommand`. -/
def extractCommandLoop : List Row → List Command → List Command × Option Error
  | [], allCommands => (allCommands, none)
  | row :: rest, allCommands =>
    match scanCommand row with
    | .error e => ([], some e)
    | .ok command => extractCommandLoop rest (allCommands ++ [command])

/-- Modelled from the spec: `ExtractCommand` is not in the sources. Each row of
the command query (command name, endpoint name, endpoint path, microservice
address) becomes one command, resolved to its endpoint and microservice
address; a scan error is returned. -/
def ExtractCommand (rows : List Row) : List Command × Option Error :=
  extractCommandLoop rows []

/-- `GetDeviceCommandsByBuildingAndRoomAndName`. -/
def GetDeviceCommandsByBuildingAndRoomAndName {σ : Type} (db : Database σ)
    (buildingShortname roomName deviceName : String) (c : Conn σ) :
    (List Command × Option Error) × Conn σ :=
  match Query db (.selectCommands roomName buildingShortname deviceName) c with
  | (.error e, c1) => (([], some e), c1)
  | (.ok rows, c1) => (ExtractCommand rows, c1)

/-- Scan of one row of the port query into a `Port`. -/
def scanPort : Row → Except Error Port
  | [source, name, destination, host] =>
    match scanString source, scanString name, scanString destination, scanString host with
    | .ok s, .ok n, .ok d, .ok h => .ok ⟨s, n, d, h⟩
    | .error e, _, _, _ => .error e
    | _, .error e, _, _ => .error e
    | _, _, .error e, _ => .error e
    | _, _, _, .error e => .error e
  | row => .error (scanArity row.length 4)

/-- The `for rows.Next()` loop of `GetDevicePortsByBuildingAndRoomAndName`, over
the rows the cursor delivers; `rows.Err()` is not read after it. -/
def portsLoop : List Row → List Port → List Port × Option Error
  | [], allPorts => (allPorts, none)
  | row :: rest, allPorts =>
    match scanPort row with
    | .error e => ([], some e)
    | .ok port => portsLoop rest (allPorts ++ [port])

/-- `GetDevicePortsByBuildingAndRoomAndName`. -/
def GetDevicePortsByBuildingAndRoomAndName {σ : Type} (db : Database σ)
    (buildingShortname roomName deviceName : String) (c : Conn σ) :
    (List Port × Option Error) × Conn σ :=
  match Query db (.selectPorts roomName buildingShortname deviceName) c with
  | (.error e, c1) => (([], some e), c1)
  | (.ok rows, c1) => (portsLoop rows [], c1)

/-- The `rows.Scan` of `GetDevicesByQuery`: sixteen columns into a fresh `structs.Device{}`. -/
def scanDevice : Row → Except Error Device
  | [deviceID, deviceName, deviceAddress, input, output, displayName, roomID, roomName,
      roomDescription, roomDesignation, buildingID, buildingName, buildingShortname,
      buildingDescription, deviceType, deviceClass] => do
    let id ← scanInt deviceID
    let name ← scanString deviceName
    let address ← scanString deviceAddress
    let inp ← scanBool input
    let out ← scanBool output
    let dn ← scanString displayName
    let rid ← scanInt roomID
    let rn ← scanString roomName
    let rd ← scanString roomDescription
    let rdes ← scanString roomDesignation
    let bid ← scanInt buildingID
    let bn ← scanString buildingName
    let bs ← scanString buildingShortname
    let bd ← scanString buildingDescription
    let ty ← scanString deviceType
    let cl ← scanString deviceClass
    pure { Device.zero with
      ID := id, Name := name, Address := address, Input := inp, Output := out,
      DisplayName := dn,
      Room := { Room.zero with ID := rid, Name := rn, Description := rd, RoomDesignation := rdes },
      Building := ⟨bid, bn, bs, bd⟩,
      Type' := ty, Class := cl }
  | row => .error (scanArity row.length 16)

/-- The body of the `for rows.Next()` loop of `GetDevicesByQuery`: scan the row
into a fresh device, then fetch its commands, ports, power states and roles;
the first error ends the body with that error. -/
def deviceOfRow {σ : Type} (db : Database σ) (row : Row) (c : Conn σ) :
    (Device × Option Error) × Conn σ :=
  match scanDevice row with
  | .error e => ((Device.zero, some e), c)
  | .ok device =>
    match GetDeviceCommandsByBuildingAndRoomAndName db device.Building.Shortname
      device.Room.Name device.Name c with
    | ((_, some e), c1) => ((Device.zero, some e), c1)
    | ((commands, none), c1) =>
      match GetDevicePortsByBuildingAndRoomAndName db device.Building.Shortname
        device.Room.Name device.Name c1 with
      | ((_, some e), c2) => ((Device.zero, some e), c2)
      | ((ports, none), c2) =>
        match GetPowerStatesByDeviceID db device.ID c2 with
        | ((_, some e), c3) => ((Device.zero, some e), c3)
        | ((powerStates, none), c3) =>
          match GetRolesByDeviceID db device.ID c3 with
          | ((_, some e), c4) => ((Device.zero, some e), c4)
          | ((roles, none), c4) =>
            (({ device with
                Commands := commands, Ports := ports, PowerStates := powerStates,
                Roles := roles }, none), c4)

/-- The `for rows.Next()` loop of `GetDevicesByQuery`, over the rows the cursor
delivers: each row becomes a device appended to `allDevices`; an error in the
body returns `[]structs.Device{}` with that error. When `Next` reports false,
at the last row or at an error of the cursor, the devices so far are returned
with a nil error: `rows.Err()` is not read. -/
def devicesLoop {σ : Type} (db : Database σ) :
    List Row → List Device → Conn σ → (List Device × Option Error) × Conn σ
  | [], allDevices, c => ((allDevices, none), c)
  | row :: rest, allDevices, c =>
    match deviceOfRow db row c with
    | ((_, some e), c1) => (([], some e), c1)
    | ((device, none), c1) => devicesLoop db rest (allDevices ++ [device]) c1

/-- `GetDevicesByQuery`: the fixed join, then the caller's fragment. -/
def GetDevicesByQuery {σ : Type} (db : Database σ) (query : String) (parameters : List Value)
    (c : Conn σ) : (List Device × Option Error) × Conn σ :=
  match Query db (.selectDevices query parameters) c with
  | (.error e, c1) => (([], some e), c1)
  | (.ok rows, c1) => devicesLoop db rows [] c1

/-- `GetDeviceById`. -/
def GetDeviceById {σ : Type} (db : Database σ) (deviceID : Int) (c : Conn σ) :
    (Device × Option Error) × Conn σ :=
  match GetDevicesByQuery db " WHERE Devices.DeviceID = ?" [.int deviceID] c with
  | ((_, some e), c1) => ((Device.zero, some e), c1)
  | ((devices, none), c1) =>
    match devices with
    | [] => ((Device.zero, some ("No devices found for ID " ++ toString deviceID)), c1)
    | d :: _ => ((d, none), c1)

/-- `GetDevicesByRoomIdAndRoleId`. -/
def GetDevicesByRoomIdAndRoleId {σ : Type} (db : Database σ) (roomId roleId : Int)
    (c : Conn σ) : (List Device × Option Error) × Conn σ :=
  match GetDevicesByQuery db
    "WHERE Rooms.roomID = ? AND DeviceRoleDefinition.deviceRoleDefinitionID = ?"
    [.int roomId, .int roleId] c with
  | ((_, some e), c1) => (([], some e), c1)
  | ((devices, none), c1) => ((devices, none), c1)

/-- `GetDevicesByRoomId`. -/
def GetDevicesByRoomId {σ : Type} (db : Database σ) (roomId : Int) (c : Conn σ) :
    (List Device × Option Error) × Conn σ :=
  match GetDevicesByQuery db "WHERE Rooms.roomID = ?" [.int roomId] c with
  | ((_, some e), c1) => (([], some e), c1)
  | ((devices, none), c1) => ((devices, none), c1)

/-- `GetDevicesByBuildingAndRoomAndRole`; the `switch` on the role name has no case. -/
def GetDevicesByBuildingAndRoomAndRole {σ : Type} (db : Database σ)
    (buildingShortname roomName roleName : String) (c : Conn σ) :
    (List Device × Option Error) × Conn σ :=
  match GetDevicesByQuery db
    "WHERE Rooms.name LIKE ? AND Buildings.shortname LIKE ? AND DeviceRoleDefinition.name LIKE ?"
    [.str roomName, .str buildingShortname, .str roleName] c with
  | ((_, some e), c1) => (([], some e), c1)
  | ((devices, none), c1) => ((devices, none), c1)

/-- `GetDevicesByRoleAndType`. -/
def GetDevicesByRoleAndType {σ : Type} (db : Database σ)
    (deviceRole deviceType production : String) (c : Conn σ) :
    (List Device × Option Error) × Conn σ :=
  GetDevicesByQuery db
    "WHERE DeviceRoleDefinition.name LIKE ? AND DeviceClasses.name LIKE ? AND Rooms.roomDesignation = ?"
    [.str deviceRole, .str deviceType, .str production] c

/-- `GetDevicesByBuildingAndRoom`. -/
def GetDevicesByBuildingAndRoom {σ : Type} (db : Database σ)
    (buildingShortname roomName : String) (c : Conn σ) :
    (List Device × Option Error) × Conn σ :=
  match GetDevicesByQuery db "WHERE Rooms.name=? AND Buildings.shortName=?"
    [.str roomName, .str buildingShortname] c with
  | ((_, some e), c1) => (([], some e), c1)
  | ((devices, none), c1) => ((devices, none), c1)

/-- `GetDeviceByBuildingAndRoomAndName`: on an error, or when nothing is found,
the zero device with the error of the query (nil when nothing is found). -/
def GetDeviceByBuildingAndRoomAndName {σ : Type} (db : Database σ)
    (buildingShortname roomName deviceName : String) (c : Conn σ) :
    (Device × Option Error) × Conn σ :=
  match GetDevicesByQuery db "WHERE Buildings.shortName = ? AND Rooms.name = ? AND Devices.name = ?"
    [.str buildingShortname, .str roomName, .str deviceName] c with
  | ((_, some e), c1) => ((Device.zero, some e), c1)
  | (([], none), c1) => ((Device.zero, none), c1)
  | ((d :: _, none), c1) => ((d, none), c1)

/-- The scalar kind of an updatable column. -/
inductive Kind where
  | string
  | int
  | bool
  deriving DecidableEq, Repr

/-- The map `acceptableColumnNames` of `SetDeviceAttribute`. -/
def acceptableColumnNames : List (String × Kind) :=
  [("address", .string), ("input", .bool), ("output", .bool), ("buildingID", .int),
   ("roomID", .int), ("classID", .int), ("displayName", .string), ("typeID", .int)]

/-- The error of `SetDeviceAttribute` on more than one affected row. -/
def rowsAffectedError (num : Int) : Error :=
  "There was a problem updating the device type: incorrect number of rows affected: " ++
    toString num ++ ". "

/-- The part of `SetDeviceAttribute` after `Database.Exec`: the error of the
statement, the check of `res.RowsAffected()`, and the re-fetch by id. -/
def afterUpdate {σ : Type} (db : Database σ) (info : DeviceAttributeInfo) :
    Except Error Result × Conn σ → (Device × Option Error) × Conn σ
  | (.error e, c1) => ((Device.zero, some e), c1)
  | (.ok res, c1) =>
    if res.RowsAffected.1 > 1 ∨ res.RowsAffected.2 ≠ none then
      match res.RowsAffected.2 with
      | some e => ((Device.zero, some e), c1)
      | none => ((Device.zero, some (rowsAffectedError res.RowsAffected.1)), c1)
    else GetDeviceById db info.DeviceID c1

/-- `SetDeviceAttribute`: set one allow-listed column of a device row. -/
def SetDeviceAttribute {σ : Type} (db : Database σ) (info : DeviceAttributeInfo) (c : Conn σ) :
    (Device × Option Error) × Conn σ :=
  match acceptableColumnNames.lookup info.AttributeName with
  | none => ((Device.zero, some "invalid column name"), c)
  | some .string =>
    afterUpdate db info
      (Exec db (.updateDevices info.AttributeName (.str info.AttributeValue) info.DeviceID) c)
  | some .int =>
    match Atoi info.AttributeValue with
    | .error e => ((Device.zero, some e), c)
    | .ok value =>
      afterUpdate db info
        (Exec db (.updateDevices info.AttributeName (.int value) info.DeviceID) c)
  | some .bool =>
    if info.AttributeValue = "false" then
      afterUpdate db info
        (Exec db (.updateDevices info.AttributeName (.bool false) info.DeviceID) c)
    else if info.AttributeValue = "true" then
      afterUpdate db info
        (Exec db (.updateDevices info.AttributeName (.bool true) info.DeviceID) c)
    else ((Device.zero, some "Invalid value for a boolean column"), c)

/-! ## `accessors/building.go`, `accessors/room.go` -/

/-- The `Scan` of `GetBuildingByShortname`: id, name, shortname. -/
def scanBuilding : Row → Except Error Building
  | [id, name, shortname] => do
    let i ← scanInt id
    let n ← scanString name
    let s ← scanString shortname
    pure { Building.zero with ID := i, Name := n, Shortname := s }
  | row => .error (scanArity row.length 3)

/-- `GetBuildingByShortname`: `QueryRow` and `Scan` of the first row. -/
def GetBuildingByShortname {σ : Type} (db : Database σ) (shortname : String) (c : Conn σ) :
    (Building × Option Error) × Conn σ :=
  match QueryRow db (.selectBuildingByShortname shortname) c with
  | (.error e, c1) => ((Building.zero, some e), c1)
  | (.ok row, c1) =>
    match scanBuilding row with
    | .error e => ((Building.zero, some e), c1)
    | .ok building => ((building, none), c1)

/-- The `Scan` of `ExtractRoomData`: nine columns into a fresh `Room{}`. -/
def scanRoom : Row → Except Error Room
  | [id, name, buildingID, description, currentVideoOutput, currentAudioOutput,
      currentVideoInput, currentAudioInput, configurationID] => do
    let i ← scanInt id
    let n ← scanString name
    let b ← scanInt buildingID
    let d ← scanString description
    let vo ← scanInt currentVideoOutput
    let ao ← scanInt currentAudioOutput
    let vi ← scanInt currentVideoInput
    let ai ← scanInt currentAudioInput
    let cfg ← scanInt configurationID
    pure { Room.zero with
      ID := i, Name := n, Building := { Building.zero with ID := b }, Description := d,
      CurrentVideoOutput := vo, CurrentAudioOutput := ao, CurrentVideoInput := vi,
      CurrentAudioInput := ai, ConfigurationID := cfg }
  | row => .error (scanArity row.length 9)

/-- `ExtractRoomData`: the rooms scanned so far are returned with the error of a failed scan. -/
def ExtractRoomData : List Row → List Room → List Room × Option Error
  | [], rooms => (rooms, none)
  | row :: rest, rooms =>
    match scanRoom row with
    | .error e => (rooms, some e)
    | .ok room => ExtractRoomData rest (rooms ++ [room])

/-- Lookup result of `GetConfigurationByConfigurationID`. -/
def scanConfiguration : Row → Except Error RoomConfiguration
  | [id] => do
    let i ← scanInt id
    pure { RoomConfiguration.zero with ID := i }
  | row => .error (scanArity row.length 1)

/-- Modelled from the spec: `GetConfigurationByConfigurationID` is not in the
sources. The configuration of a room is looked up by its id; a missing row is
an error. The evaluators of the configuration are left empty. -/
def GetConfigurationByConfigurationID {σ : Type} (db : Database σ) (configurationID : Int)
    (c : Conn σ) : (RoomConfiguration × Option Error) × Conn σ :=
  match Query db (.selectConfigurationByID configurationID) c with
  | (.error e, c1) => ((RoomConfiguration.zero, some e), c1)
  | (.ok [], c1) => ((RoomConfiguration.zero, some ErrNoRows), c1)
  | (.ok (row :: _), c1) =>
    match scanConfiguration row with
    | .error e => ((RoomConfiguration.zero, some e), c1)
    | .ok configuration => ((configuration, none), c1)

/-- How a call ends: it returns its value and error, or it panics. -/
inductive Outcome (α : Type) where
  | returned (value : α) (err : Option Error)
  | panicked (message : String)

/-- `GetRoomByBuildingAndName`. The assignment `room.Building = building` is
overwritten by `room = rooms[0]`, and `rooms[0]` panics on an empty list. -/
def GetRoomByBuildingAndName {σ : Type} (db : Database σ) (buildingShortname name : String)
    (c : Conn σ) : Outcome Room × Conn σ :=
  match GetBuildingByShortname db buildingShortname c with
  | ((_, some e), c1) => (.returned Room.zero (some e), c1)
  | ((building, none), c1) =>
    match Query db (.selectRoomByBuildingAndName building.ID name) c1 with
    | (.error e, c2) => (.returned Room.zero (some e), c2)
    | (.ok row, c2) =>
      match ExtractRoomData row [] with
      | (_, some e) => (.returned Room.zero (some e), c2)
      | ([], none) => (.panicked "runtime error: index out of range [0] with length 0", c2)
      | (room :: _, none) =>
        match GetDevicesByBuildingAndRoom db buildingShortname name c2 with
        | ((devices, some e), c3) => (.returned { room with Devices := devices } (some e), c3)
        | ((devices, none), c3) =>
          match GetConfigurationByConfigurationID db room.ConfigurationID c3 with
          | ((configuration, some e), c4) =>
            (.returned { room with Devices := devices, Configuration := configuration } (some e),
              c4)
          | ((configuration, none), c4) =>
            (.returned { room with Devices := devices, Configuration := configuration } none, c4)

/-- The error of `MakeRoom` when the building lookup fails. -/
def buildingNotFound (buildingShortname : String) : Error :=
  "Could not find a building with the \"" ++ buildingShortname ++ "\" shortname"

/-- `MakeRoom`. -/
def MakeRoom {σ : Type} (db : Database σ) (name buildingShortname : String) (vlan : Int)
    (c : Conn σ) : Outcome Room × Conn σ :=
  match GetBuildingByShortname db buildingShortname c with
  | ((_, some _), c1) => (.returned Room.zero (some (buildingNotFound buildingShortname)), c1)
  | ((building, none), c1) =>
    match Exec db (.insertRoom name building.ID vlan) c1 with
    | (.error e, c2) => (.returned Room.zero (some e), c2)
    | (.ok _, c2) =>
      match GetRoomByBuildingAndName db building.Shortname name c2 with
      | (.panicked m, c3) => (.panicked m, c3)
      | (.returned _ (some e), c3) => (.returned Room.zero (some e), c3)
      | (.returned room none, c3) => (.returned room none, c3)

/-! ## `AddDevice` and what it calls -/

/-- Device type: id and name. -/
structure DeviceType where
  ID : Int
  Name : String
  deriving DecidableEq, Repr

/-- Device class: id, name and display name. -/
structure DeviceClass where
  ID : Int
  Name : String
  DisplayName : String
  deriving DecidableEq, Repr

/-- Role definition: id and name. -/
structure DeviceRoleDef where
  ID : Int
  Name : String
  deriving DecidableEq, Repr

/-- Power state: id and name. -/
structure PowerState where
  ID : Int
  Name : String
  deriving DecidableEq, Repr

/-- Link of a device to a role definition (`structs.DeviceRole`). -/
structure DeviceRole where
  ID : Int
  DeviceID : Int
  DeviceRoleDefinitionID : Int
  deriving DecidableEq, Repr

/-- Link of a device to a power state, as `AddDevice` fills it. -/
structure DevicePowerState where
  ID : Int
  DeviceID : Int
  PowerStateID : Int
  deriving DecidableEq, Repr

/-- Scan of an (id, name) row. -/
def scanIdName : Row → Except Error (Int × String)
  | [id, name] => do
    let i ← scanInt id
    let n ← scanString name
    pure (i, n)
  | row => .error (scanArity row.length 2)

/-- Scan of an (id, name, display name) row. -/
def scanDeviceClass : Row → Except Error DeviceClass
  | [id, name, displayName] => do
    let i ← scanInt id
    let n ← scanString name
    let dn ← scanString displayName
    pure ⟨i, n, dn⟩
  | row => .error (scanArity row.length 3)

/-- Lookup of one (id, name) row: the error of the query, `ErrNoRows` without a
row, the error of the scan, or the scanned pair. -/
def lookupIdName {σ : Type} (db : Database σ) (q : Stmt) (c : Conn σ) :
    ((Int × String) × Option Error) × Conn σ :=
  match Query db q c with
  | (.error e, c1) => (((0, ""), some e), c1)
  | (.ok [], c1) => (((0, ""), some ErrNoRows), c1)
  | (.ok (row :: _), c1) =>
    match scanIdName row with
    | .error e => (((0, ""), some e), c1)
    | .ok p => ((p, none), c1)

/-- Modelled from the spec: `GetDeviceTypeByName` is not in the sources. The
type name is resolved to its row of `DeviceTypes`; a name without a row is an error. -/
def GetDeviceTypeByName {σ : Type} (db : Database σ) (name : String) (c : Conn σ) :
    (DeviceType × Option Error) × Conn σ :=
  match lookupIdName db (.selectDeviceTypeByName name) c with
  | ((p, err), c1) => ((⟨p.1, p.2⟩, err), c1)

/-- Modelled from the spec: `GetDeviceClassByName` is not in the sources. The
class name is resolved to its row of `DeviceClasses`; a name without a row is an error. -/
def GetDeviceClassByName {σ : Type} (db : Database σ) (name : String) (c : Conn σ) :
    (DeviceClass × Option Error) × Conn σ :=
  match Query db (.selectDeviceClassByName name) c with
  | (.error e, c1) => ((⟨0, "", ""⟩, some e), c1)
  | (.ok [], c1) => ((⟨0, "", ""⟩, some ErrNoRows), c1)
  | (.ok (row :: _), c1) =>
    match scanDeviceClass row with
    | .error e => ((⟨0, "", ""⟩, some e), c1)
    | .ok dc => ((dc, none), c1)

/-- Modelled from the spec: `GetDeviceRoleDefByName` is not in the sources. The
role name is resolved to its row of `DeviceRoleDefinition`; a name without a row
is an error, and no row is created. -/
def GetDeviceRoleDefByName {σ : Type} (db : Database σ) (name : String) (c : Conn σ) :
    (DeviceRoleDef × Option Error) × Conn σ :=
  match lookupIdName db (.selectDeviceRoleDefByName name) c with
  | ((p, err), c1) => ((⟨p.1, p.2⟩, err), c1)

/-- Modelled from the spec: `GetPowerStateByName` is not in the sources. The
power-state name is resolved to its row of `PowerStates`; a name without a row
is an error, and no row is created. -/
def GetPowerStateByName {σ : Type} (db : Database σ) (name : String) (c : Conn σ) :
    (PowerState × Option Error) × Conn σ :=
  match lookupIdName db (.selectPowerStateByName name) c with
  | ((p, err), c1) => ((⟨p.1, p.2⟩, err), c1)

/-- Modelled from the spec: `AddDeviceRole` is not in the sources. It inserts the
link row, as `AddDevicePowerState` does for power states. -/
def AddDeviceRole {σ : Type} (db : Database σ) (dr : DeviceRole) (c : Conn σ) :
    (DeviceRole × Option Error) × Conn σ :=
  match Exec db (.insertDeviceRole dr.DeviceID dr.DeviceRoleDefinitionID) c with
  | (.error e, c1) => ((⟨0, 0, 0⟩, some e), c1)
  | (.ok response, c1) => (({ dr with ID := response.LastInsertId.1 }, none), c1)

/-- `AddDevicePowerState`: the error of `LastInsertId` is dropped. -/
def AddDevicePowerState {σ : Type} (db : Database σ) (dps : DevicePowerState) (c : Conn σ) :
    (DevicePowerState × Option Error) × Conn σ :=
  match Exec db (.insertDevicePowerState dps.ID dps.DeviceID dps.PowerStateID) c with
  | (.error e, c1) => ((⟨0, 0, 0⟩, some e), c1)
  | (.ok response, c1) => (({ dps with ID := response.LastInsertId.1 }, none), c1)

/-- First loop of `AddDevice`: resolve every role name, collect the link rows. -/
def resolveRoles {σ : Type} (db : Database σ) (deviceID : Int) :
    List String → List DeviceRole → Conn σ → (List DeviceRole × Option Error) × Conn σ
  | [], deviceroles, c => ((deviceroles, none), c)
  | role :: rest, deviceroles, c =>
    match GetDeviceRoleDefByName db role c with
    | ((_, some _), c1) =>
      (([], some ("device role definition: " ++ role ++ " does not exist")), c1)
    | ((r, none), c1) => resolveRoles db deviceID rest (deviceroles ++ [⟨0, deviceID, r.ID⟩]) c1

/-- Second loop of `AddDevice`: resolve every power-state name, collect the link rows. -/
def resolvePowerStates {σ : Type} (db : Database σ) (deviceID : Int) :
    List String → List DevicePowerState → Conn σ →
      (List DevicePowerState × Option Error) × Conn σ
  | [], devicepowerstates, c => ((devicepowerstates, none), c)
  | ps :: rest, devicepowerstates, c =>
    match GetPowerStateByName db ps c with
    | ((_, some _), c1) => (([], some ("powerstate: " ++ ps ++ " does not exist")), c1)
    | ((p, none), c1) =>
      resolvePowerStates db deviceID rest (devicepowerstates ++ [⟨0, deviceID, p.ID⟩]) c1

/-- Third loop of `AddDevice`: insert the role links. -/
def insertDeviceRoles {σ : Type} (db : Database σ) :
    List DeviceRole → Conn σ → Option Error × Conn σ
  | [], c => (none, c)
  | dr :: rest, c =>
    match AddDeviceRole db dr c with
    | ((_, some e), c1) => (some e, c1)
    | ((_, none), c1) => insertDeviceRoles db rest c1

/-- Fourth loop of `AddDevice`: insert the power-state links. -/
def insertDevicePowerStates {σ : Type} (db : Database σ) :
    List DevicePowerState → Conn σ → Option Error × Conn σ
  | [], c => (none, c)
  | ps :: rest, c =>
    match AddDevicePowerState db ps c with
    | ((_, some e), c1) => (some e, c1)
    | ((_, none), c1) => insertDevicePowerStates db rest c1

/-- The error of `AddDevice` when the existence check does not come back empty. -/
def deviceExists : Error := "device already exists in room, please choose a different name"

/-- The part of `AddDevice` after the device row has its id: resolve the role
and power-state names, insert the links, clean up the returned device. -/
def addDeviceLinks {σ : Type} (db : Database σ) (d : Device) (c : Conn σ) :
    (Device × Option Error) × Conn σ :=
  match resolveRoles db d.ID d.Roles [] c with
  | ((_, some e), c1) => ((Device.zero, some e), c1)
  | ((deviceroles, none), c1) =>
    match resolvePowerStates db d.ID d.PowerStates [] c1 with
    | ((_, some e), c2) => ((Device.zero, some e), c2)
    | ((devicepowerstates, none), c2) =>
      match insertDeviceRoles db deviceroles c2 with
      | (some e, c3) => ((Device.zero, some e), c3)
      | (none, c3) =>
        match insertDevicePowerStates db devicepowerstates c3 with
        | (some e, c4) => ((Device.zero, some e), c4)
        | (none, c4) =>
          (({ d with
              Room := { d.Room with
                Devices := [],
                Configuration := { d.Room.Configuration with Evaluators := [] } } }, none), c4)

/-- `AddDevice`. The insert binds `dt.ID`, `dc.ID` and `dc.DisplayName` to the
columns `classID`, `typeID` and `displayName`, in that order. -/
def AddDevice {σ : Type} (db : Database σ) (d : Device) (c : Conn σ) :
    (Device × Option Error) × Conn σ :=
  match GetDeviceTypeByName db d.Type' c with
  | ((_, some e), c1) => ((Device.zero, some e), c1)
  | ((dt, none), c1) =>
    match GetDeviceClassByName db d.Class c1 with
    | ((_, some e), c2) => ((Device.zero, some e), c2)
    | ((dc, none), c2) =>
      match GetDeviceByBuildingAndRoomAndName db d.Building.Shortname d.Room.Name d.Name c2 with
      | ((exists', err), c3) =>
        if err ≠ none ∨ exists'.ID ≠ 0 then ((Device.zero, some deviceExists), c3)
        else
          match Exec db (.insertDevice d.Name d.Address d.Input d.Output d.Building.ID d.Room.ID
            dt.ID dc.ID dc.DisplayName) c3 with
          | (.error e, c4) => ((Device.zero, some e), c4)
          | (.ok result, c4) =>
            match result.LastInsertId with
            | (_, some e) => ((Device.zero, some e), c4)
            | (id, none) => addDeviceLinks db { d with ID := id } c4

/-! ## A relational engine

The schema is not part of the sources. The tables below carry the columns the
statements name; every column is non-null, text is compared exactly, a column an
insert does not name takes the zero of its type, and `SELECT *` delivers the
columns the accessor scans, in that order. -/

/-- Row of `Devices`. -/
structure DeviceRow where
  deviceID : Int
  name : String
  address : String
  input : Bool
  output : Bool
  buildingID : Int
  roomID : Int
  classID : Int
  typeID : Int
  displayName : String
  deriving DecidableEq, Repr

/-- Row of `Rooms`. -/
structure RoomRow where
  roomID : Int
  name : String
  buildingID : Int
  description : String
  currentVideoOutput : Int
  currentAudioOutput : Int
  currentVideoInput : Int
  currentAudioInput : Int
  configurationID : Int
  roomDesignation : String
  vlan : Int
  deriving DecidableEq, Repr

/-- Row of `Buildings`. -/
structure BuildingRow where
  buildingID : Int
  name : String
  shortName : String
  description : String
  deriving DecidableEq, Repr

/-- Row of `DeviceClasses`. -/
structure DeviceClassRow where
  deviceClassID : Int
  name : String
  displayName : String
  deriving DecidableEq, Repr

/-- Row of `DeviceTypes`. -/
structure DeviceTypeRow where
  deviceTypeID : Int
  typeName : String
  deriving DecidableEq, Repr

/-- Row of `DeviceRole`. -/
structure DeviceRoleRow where
  deviceRoleID : Int
  deviceID : Int
  deviceRoleDefinitionID : Int
  deriving DecidableEq, Repr

/-- Row of `DeviceRoleDefinition`. -/
structure DeviceRoleDefinitionRow where
  deviceRoleDefinitionID : Int
  name : String
  deriving DecidableEq, Repr

/-- Row of `PowerStates`. -/
structure PowerStateRow where
  powerStateID : Int
  name : String
  deriving DecidableEq, Repr

/-- Row of `DevicePowerStates`. -/
structure DevicePowerStateRow where
  devicePowerStateID : Int
  deviceID : Int
  powerStateID : Int
  deriving DecidableEq, Repr

/-- Row of `Ports`. -/
structure PortRow where
  portID : Int
  name : String
  deriving DecidableEq, Repr

/-- Row of `PortConfiguration`. -/
structure PortConfigurationRow where
  portConfigurationID : Int
  portID : Int
  sourceDeviceID : Int
  destinationDeviceID : Int
  hostDeviceID : Int
  deriving DecidableEq, Repr

/-- Row of `Commands`. -/
structure CommandRow where
  commandID : Int
  name : String
  deriving DecidableEq, Repr

/-- Row of `Endpoints`. -/
structure EndpointRow where
  endpointID : Int
  name : String
  path : String
  deriving DecidableEq, Repr

/-- Row of `Microservices`. -/
structure MicroserviceRow where
  microserviceID : Int
  address : String
  deriving DecidableEq, Repr

/-- Row of `DeviceTypeCommandMapping`. -/
structure DeviceTypeCommandMappingRow where
  deviceTypeID : Int
  commandID : Int
  endpointID : Int
  microserviceID : Int
  deriving DecidableEq, Repr

/-- The stored tables. -/
structure Tables where
  Devices : List DeviceRow
  Rooms : List RoomRow
  Buildings : List BuildingRow
  DeviceClasses : List DeviceClassRow
  DeviceTypes : List DeviceTypeRow
  DeviceRole : List DeviceRoleRow
  DeviceRoleDefinition : List DeviceRoleDefinitionRow
  PowerStates : List PowerStateRow
  DevicePowerStates : List DevicePowerStateRow
  Ports : List PortRow
  PortConfiguration : List PortConfigurationRow
  Commands : List CommandRow
  Endpoints : List EndpointRow
  Microservices : List MicroserviceRow
  DeviceTypeCommandMapping : List DeviceTypeCommandMappingRow
  RoomConfiguration : List Int
  deriving DecidableEq, Repr

/-- The id an auto-increment column gives the next row: one more than the
largest id in use, and at least 1. -/
def nextID (ids : List Int) : Int := ids.foldl max 0 + 1

/-- One row of the fixed join of `GetDevicesByQuery`. -/
structure Joined where
  device : DeviceRow
  room : RoomRow
  building : BuildingRow
  deviceClass : DeviceClassRow
  deviceType : DeviceTypeRow
  deviceRole : DeviceRoleRow
  roleDefinition : DeviceRoleDefinitionRow
  deriving DecidableEq, Repr

/-- The fixed join of `GetDevicesByQuery`: `Devices JOIN Rooms on roomID JOIN
Buildings on Devices.buildingID JOIN DeviceClasses on classID JOIN DeviceTypes on
typeID JOIN DeviceRole on deviceID JOIN DeviceRoleDefinition on the definition id`. -/
def joinDevices (T : Tables) : List Joined :=
  T.Devices.flatMap fun d =>
  (T.Rooms.filter fun r => r.roomID = d.roomID).flatMap fun r =>
  (T.Buildings.filter fun b => b.buildingID = d.buildingID).flatMap fun b =>
  (T.DeviceClasses.filter fun dc => dc.deviceClassID = d.classID).flatMap fun dc =>
  (T.DeviceTypes.filter fun dt => dt.deviceTypeID = d.typeID).flatMap fun dt =>
  (T.DeviceRole.filter fun dr => dr.deviceID = d.deviceID).flatMap fun dr =>
  (T.DeviceRoleDefinition.filter fun rd =>
    rd.deviceRoleDefinitionID = dr.deviceRoleDefinitionID).map fun rd =>
  ⟨d, r, b, dc, dt, dr, rd⟩

/-- The sixteen selected columns of `GetDevicesByQuery`; `DeviceClasses.name`
comes fifteenth and `DeviceTypes.typeName` sixteenth. -/
def Joined.columns (j : Joined) : Row :=
  [.int j.device.deviceID, .str j.device.name, .str j.device.address, .bool j.device.input,
   .bool j.device.output, .str j.device.displayName, .int j.room.roomID, .str j.room.name,
   .str j.room.description, .str j.room.roomDesignation, .int j.building.buildingID,
   .str j.building.name, .str j.building.shortName, .str j.building.description,
   .str j.deviceClass.name, .str j.deviceType.typeName]

/-- The SQL pattern match `s LIKE pattern` on characters: `%` stands for any run
of characters, `_` for any one character, any other character for itself. -/
def likeChars : List Char → List Char → Bool
  | [], s => s.isEmpty
  | ch :: pattern, s =>
    if ch = '%' then s.tails.any (likeChars pattern)
    else
      match s with
      | [] => false
      | a :: rest => (ch = '_' ∨ a = ch) && likeChars pattern rest

/-- The SQL predicate `s LIKE pattern`. -/
def like (s pattern : String) : Bool := likeChars pattern.data s.data

/-- The reading of the fragments the accessors append to the fixed join, with
their bound parameters; `none` for any other text or parameter list. -/
def fragmentFilter (query : String) (parameters : List Value) : Option (Joined → Bool) :=
  if query = "" then
    match parameters with
    | [] => some fun _ => true
    | _ => none
  else if query = " WHERE Devices.DeviceID = ?" then
    match parameters with
    | [.int deviceID] => some fun j => j.device.deviceID = deviceID
    | _ => none
  else if query =
      "WHERE Rooms.roomID = ? AND DeviceRoleDefinition.deviceRoleDefinitionID = ?" then
    match parameters with
    | [.int roomId, .int roleId] =>
      some fun j => j.room.roomID = roomId ∧ j.roleDefinition.deviceRoleDefinitionID = roleId
    | _ => none
  else if query = "WHERE Rooms.roomID = ?" then
    match parameters with
    | [.int roomId] => some fun j => j.room.roomID = roomId
    | _ => none
  else if query = "WHERE Rooms.name=? AND Buildings.shortName=?" then
    match parameters with
    | [.str roomName, .str buildingShortname] =>
      some fun j => j.room.name = roomName ∧ j.building.shortName = buildingShortname
    | _ => none
  else if query = "WHERE Buildings.shortName = ? AND Rooms.name = ? AND Devices.name = ?" then
    match parameters with
    | [.str buildingShortname, .str roomName, .str deviceName] =>
      some fun j => j.building.shortName = buildingShortname ∧ j.room.name = roomName ∧
        j.device.name = deviceName
    | _ => none
  else if query =
      "WHERE Rooms.name LIKE ? AND Buildings.shortname LIKE ? AND DeviceRoleDefinition.name LIKE ?"
      then
    match parameters with
    | [.str roomName, .str buildingShortname, .str roleName] =>
      some fun j => like j.room.name roomName && like j.building.shortName buildingShortname &&
        like j.roleDefinition.name roleName
    | _ => none
  else if query =
      "WHERE DeviceRoleDefinition.name LIKE ? AND DeviceClasses.name LIKE ? AND Rooms.roomDesignation = ?"
      then
    match parameters with
    | [.str deviceRole, .str deviceType, .str production] =>
      some fun j => like j.roleDefinition.name deviceRole && like j.deviceClass.name deviceType &&
        decide (j.room.roomDesignation = production)
    | _ => none
  else none

/-- The error of a statement the engine cannot read. -/
def sqlSyntaxError : Error := "Error 1064: You have an error in your SQL syntax"

/-- Rows of the `SELECT DISTINCT` of `GetDevicesByQuery`. -/
def selectDevices (T : Tables) (query : String) (parameters : List Value) :
    Except Error (List Row) :=
  match fragmentFilter query parameters with
  | none => .error sqlSyntaxError
  | some p => .ok (((joinDevices T).filter p).map Joined.columns).dedup

/-- Rows of the role query: `DeviceRoleDefinition JOIN DeviceRole WHERE dr.deviceID = ?`. -/
def selectRoles (T : Tables) (deviceID : Int) : List Row :=
  T.DeviceRoleDefinition.flatMap fun rd =>
  ((T.DeviceRole.filter fun dr =>
    dr.deviceRoleDefinitionID = rd.deviceRoleDefinitionID).filter fun dr =>
      dr.deviceID = deviceID).map fun _ => [.str rd.name]

/-- Rows of the power-state query: `PowerStates JOIN DevicePowerStates WHERE deviceID = ?`. -/
def selectPowerStates (T : Tables) (deviceID : Int) : List Row :=
  T.PowerStates.flatMap fun ps =>
  ((T.DevicePowerStates.filter fun dps => dps.powerStateID = ps.powerStateID).filter fun dps =>
    dps.deviceID = deviceID).map fun _ => [.str ps.name]

/-- Rows of the command query: `Devices JOIN DeviceTypes JOIN DeviceTypeCommandMapping
JOIN Commands JOIN Endpoints JOIN Microservices JOIN Rooms ON Rooms.roomID=Devices.roomID
JOIN Buildings ON Rooms.buildingID=Buildings.buildingID
WHERE Rooms.name=? AND Buildings.shortName=? AND Devices.name=?`. -/
def selectCommands (T : Tables) (roomName buildingShortname deviceName : String) : List Row :=
  T.Devices.flatMap fun d =>
  (T.DeviceTypes.filter fun dt => dt.deviceTypeID = d.typeID).flatMap fun dt =>
  (T.DeviceTypeCommandMapping.filter fun tc => tc.deviceTypeID = dt.deviceTypeID).flatMap fun tc =>
  (T.Commands.filter fun cmd => tc.commandID = cmd.commandID).flatMap fun cmd =>
  (T.Endpoints.filter fun ep => tc.endpointID = ep.endpointID).flatMap fun ep =>
  (T.Microservices.filter fun ms => tc.microserviceID = ms.microserviceID).flatMap fun ms =>
  (T.Rooms.filter fun r => r.roomID = d.roomID).flatMap fun r =>
  ((T.Buildings.filter fun b => r.buildingID = b.buildingID).filter fun b =>
    r.name = roomName ∧ b.shortName = buildingShortname ∧ d.name = deviceName).map fun _ =>
  [.str cmd.name, .str ep.name, .str ep.path, .str ms.address]

/-- Rows of the port query: `Ports JOIN PortConfiguration JOIN Devices as srcDevice
JOIN Devices as destDevice JOIN Devices as hostDevice JOIN Rooms ON
Rooms.roomID=destDevice.roomID JOIN Buildings ON Rooms.buildingID=Buildings.buildingID
WHERE Rooms.name=? AND Buildings.shortName=? AND hostDevice.name=?`. -/
def selectPorts (T : Tables) (roomName buildingShortname deviceName : String) : List Row :=
  T.Ports.flatMap fun p =>
  (T.PortConfiguration.filter fun pc => p.portID = pc.portID).flatMap fun pc =>
  (T.Devices.filter fun src => src.deviceID = pc.sourceDeviceID).flatMap fun src =>
  (T.Devices.filter fun dest => dest.deviceID = pc.destinationDeviceID).flatMap fun dest =>
  (T.Devices.filter fun host => host.deviceID = pc.hostDeviceID).flatMap fun host =>
  (T.Rooms.filter fun r => r.roomID = dest.roomID).flatMap fun r =>
  ((T.Buildings.filter fun b => r.buildingID = b.buildingID).filter fun b =>
    r.name = roomName ∧ b.shortName = buildingShortname ∧ host.name = deviceName).map fun _ =>
  [.str src.name, .str p.name, .str dest.name, .str host.name]

/-- The column assignment of `UPDATE Devices SET <column> = ?`; `none` when the
column is unknown or the value is not of the kind of the column. -/
def setColumn (column : String) (value : Value) (row : DeviceRow) : Option DeviceRow :=
  match value with
  | .str s =>
    if column = "address" then some { row with address := s }
    else if column = "displayName" then some { row with displayName := s }
    else none
  | .bool b =>
    if column = "input" then some { row with input := b }
    else if column = "output" then some { row with output := b }
    else none
  | .int n =>
    if column = "buildingID" then some { row with buildingID := n }
    else if column = "roomID" then some { row with roomID := n }
    else if column = "classID" then some { row with classID := n }
    else if column = "typeID" then some { row with typeID := n }
    else none
  | .null => none

/-- A device row of zero values, on which the engine tries a column assignment. -/
def DeviceRow.zero : DeviceRow := ⟨0, "", "", false, false, 0, 0, 0, 0, ""⟩

/-- The rows after `UPDATE Devices SET <column> = ? WHERE deviceID = ?`. -/
def updateRows (set : DeviceRow → DeviceRow) (deviceID : Int) (rows : List DeviceRow) :
    List DeviceRow :=
  rows.map fun r => if r.deviceID = deviceID then set r else r

/-- The number of rows the update changed, which is what `RowsAffected` reports. -/
def changedRows (set : DeviceRow → DeviceRow) (deviceID : Int) (rows : List DeviceRow) : Nat :=
  (rows.filter fun r => r.deviceID = deviceID ∧ set r ≠ r).length

/-- The result of a statement that inserts nothing and changes no row. -/
def Result.none : Result := ⟨(0, Option.none), (0, Option.none)⟩

/-- The result of an insert that gave the new row the id `id`. -/
def Result.inserted (id : Int) : Result := ⟨(id, Option.none), (1, Option.none)⟩

/-- One statement against the tables: the rows it delivers, its result, and the
tables it leaves; or its error. An update fails when the column is unknown or
does not take the value; otherwise it sets the column in every row with the
device id and reports the number of rows it changed.

The statements of the sources do not agree on one schema, and the engine reads
them so that each can succeed: `SELECT * FROM buildings` delivers the three
columns `GetBuildingByShortname` scans and `SELECT * FROM Rooms` the nine columns
`ExtractRoomData` scans, although the join of `GetDevicesByQuery` also reads a
description of the building and a designation of the room; `buildings` and
`rooms` are the tables `Buildings` and `Rooms`; and the column `building` of the
insert into `rooms` is the `buildingID` the selects read. -/
def run (q : Stmt) (T : Tables) : Except Error (List Row × Result × Tables) :=
  match q with
  | .updateDevices column value deviceID =>
    match setColumn column value DeviceRow.zero with
    | none => .error "Error 1054: Unknown column or incorrect value"
    | some _ =>
      let set := fun r => (setColumn column value r).getD r
      .ok ([], ⟨(0, none), ((changedRows set deviceID T.Devices : Nat), none)⟩,
        { T with Devices := updateRows set deviceID T.Devices })
  | .selectDevices query parameters =>
    match selectDevices T query parameters with
    | .error e => .error e
    | .ok rows => .ok (rows, Result.none, T)
  | .selectRoles deviceID => .ok (selectRoles T deviceID, Result.none, T)
  | .selectPowerStates deviceID => .ok (selectPowerStates T deviceID, Result.none, T)
  | .selectCommands roomName buildingShortname deviceName =>
    .ok (selectCommands T roomName buildingShortname deviceName, Result.none, T)
  | .selectPorts roomName buildingShortname deviceName =>
    .ok (selectPorts T roomName buildingShortname deviceName, Result.none, T)
  | .selectBuildingByShortname shortname =>
    .ok ((T.Buildings.filter fun b => b.shortName = shortname).map fun b =>
      [.int b.buildingID, .str b.name, .str b.shortName], Result.none, T)
  | .selectRoomByBuildingAndName buildingID name =>
    .ok ((T.Rooms.filter fun r => r.buildingID = buildingID ∧ r.name = name).map fun r =>
      [.int r.roomID, .str r.name, .int r.buildingID, .str r.description,
       .int r.currentVideoOutput, .int r.currentAudioOutput, .int r.currentVideoInput,
       .int r.currentAudioInput, .int r.configurationID], Result.none, T)
  | .insertRoom name building vlan =>
    let id := nextID (T.Rooms.map fun r => r.roomID)
    .ok ([], Result.inserted id,
      { T with Rooms := T.Rooms ++ [⟨id, name, building, "", 0, 0, 0, 0, 0, "", vlan⟩] })
  | .insertDevice name address input output buildingID roomID classID typeID displayName =>
    let id := nextID (T.Devices.map fun d => d.deviceID)
    .ok ([], Result.inserted id,
      { T with Devices := T.Devices ++
          [⟨id, name, address, input, output, buildingID, roomID, classID, typeID,
            displayName⟩] })
  | .insertDevicePowerState devicePowerStateID deviceID powerStateID =>
    let id := if devicePowerStateID = 0
      then nextID (T.DevicePowerStates.map fun r => r.devicePowerStateID)
      else devicePowerStateID
    .ok ([], Result.inserted id,
      { T with DevicePowerStates := T.DevicePowerStates ++ [⟨id, deviceID, powerStateID⟩] })
  | .insertDeviceRole deviceID deviceRoleDefinitionID =>
    let id := nextID (T.DeviceRole.map fun r => r.deviceRoleID)
    .ok ([], Result.inserted id,
      { T with DeviceRole := T.DeviceRole ++ [⟨id, deviceID, deviceRoleDefinitionID⟩] })
  | .selectDeviceTypeByName name =>
    .ok ((T.DeviceTypes.filter fun dt => dt.typeName = name).map fun dt =>
      [.int dt.deviceTypeID, .str dt.typeName], Result.none, T)
  | .selectDeviceClassByName name =>
    .ok ((T.DeviceClasses.filter fun dc => dc.name = name).map fun dc =>
      [.int dc.deviceClassID, .str dc.name, .str dc.displayName], Result.none, T)
  | .selectDeviceRoleDefByName name =>
    .ok ((T.DeviceRoleDefinition.filter fun rd => rd.name = name).map fun rd =>
      [.int rd.deviceRoleDefinitionID, .str rd.name], Result.none, T)
  | .selectPowerStateByName name =>
    .ok ((T.PowerStates.filter fun ps => ps.name = name).map fun ps =>
      [.int ps.powerStateID, .str ps.name], Result.none, T)
  | .selectConfigurationByID configurationID =>
    .ok ((T.RoomConfiguration.filter fun id => id = configurationID).map fun id =>
      [.int id], Result.none, T)

/-- The relational engine as a `Database`: `Exec` keeps the result of the
statement, `Query` its rows, all of which the cursor delivers; a failed statement
leaves the tables as they were. -/
def sqlEngine : Database Tables where
  Exec q T :=
    match run q T with
    | .error e => (.error e, T)
    | .ok (_, result, T1) => (.ok result, T1)
  Query q T :=
    match run q T with
    | .error e => (.error e, T)
    | .ok (rows, _, T1) => (.ok ⟨rows, none⟩, T1)

/-! ## `handlers/room.go`, `handlers/devices.go`, `handlers/portconfig.go`

The handlers reach storage only through the accessor group of the handler group
and through the package `couch`; both are taken as they come, as records of
calls over the state `σ` they work on. -/

/-- What a handler hands to the framework: a response it wrote, or the error it
returned without writing one. -/
inductive Answer (α : Type) where
  /-- `context.JSON(code, value)` -/
  | json (code : Nat) (value : α)
  /-- `context.JSON(code, text)` with a string -/
  | jsonText (code : Nat) (text : String)
  /-- `context.JSON(code, err)` with the error value itself -/
  | jsonError (code : Nat) (err : Error)
  /-- `context.String(code, text)` -/
  | string (code : Nat) (text : String)
  /-- `return err`: no response is written by the handler -/
  | returned (err : Error)
  /-- `return nil` without a response -/
  | nothing

/-- The status code of the response the handler wrote, if it wrote one. -/
def Answer.status {α : Type} : Answer α → Option Nat
  | .json code _ => some code
  | .jsonText code _ => some code
  | .jsonError code _ => some code
  | .string code _ => some code
  | .returned _ => none
  | .nothing => none

/-- `http.StatusOK` -/
def StatusOK : Nat := 200

/-- `http.StatusBadRequest` -/
def StatusBadRequest : Nat := 400

/-- `http.StatusInternalServerError` -/
def StatusInternalServerError : Nat := 500

/-- The request as the handler sees it (`echo.Context`): the path parameters
(`context.Param`, the empty string for a missing one) and the outcome of
`context.Bind` into the body the handler expects. -/
structure Context (β : Type) where
  Param : String → String
  Bind : Except Error β

/-- Body of the port-configuration endpoint (`structs.PortConfiguration`). -/
structure PortConfiguration where
  ID : Int
  PortID : Int
  SourceDeviceID : Int
  DestinationDeviceID : Int
  HostDeviceID : Int
  deriving DecidableEq, Repr

/-- Body of the room creation endpoint: name, building and vlan. -/
structure RoomBody where
  Name : String
  Building : String
  VLAN : Int
  deriving DecidableEq, Repr

/-- The accessor calls of the handlers (`handlerGroup.Accessors`). -/
structure Accessors (σ : Type) where
  GetAllRooms : σ → (List Room × Option Error) × σ
  GetRoomByID : Int → σ → (Room × Option Error) × σ
  GetRoomByName : String → σ → (Room × Option Error) × σ
  GetRoomsByBuilding : Int → σ → (List Room × Option Error) × σ
  MakeRoom : String → String → Int → σ → (Room × Option Error) × σ
  AddPortConfiguration : PortConfiguration → σ → (PortConfiguration × Option Error) × σ

/-- The calls into the package `couch` of `handlers/devices.go`. -/
structure Couch (σ : Type) where
  GetDevicesByRoom : String → σ → (List Device × Option Error) × σ
  GetDeviceByID : String → σ → (Device × Option Error) × σ
  GetDevicesByRoomAndRole : String → String → σ → (List Device × Option Error) × σ

/-- `strconv.Itoa`. -/
def Itoa (n : Int) : String := toString n

/-- The length `len(s)` of a string, in bytes. -/
def len (s : String) : Nat := s.utf8ByteSize

namespace handlers

/-- Handler `GetAllRooms`. -/
def GetAllRooms {σ : Type} (A : Accessors σ) (_context : Context Unit) (s : σ) :
    Answer (List Room) × σ :=
  match A.GetAllRooms s with
  | ((_, some err), s1) => (.string StatusBadRequest err, s1)
  | ((response, none), s1) => (.json StatusOK response, s1)

/-- Handler `GetRoomByID`. -/
def GetRoomByID {σ : Type} (A : Accessors σ) (context : Context Unit) (s : σ) :
    Answer Room × σ :=
  match Atoi (context.Param "id") with
  | .error err => (.returned err, s)
  | .ok id =>
    match A.GetRoomByID id s with
    | ((_, some err), s1) => (.string StatusBadRequest err, s1)
    | ((response, none), s1) => (.json StatusOK response, s1)

/-- Handler `GetRoomByName`. -/
def GetRoomByName {σ : Type} (A : Accessors σ) (context : Context Unit) (s : σ) :
    Answer Room × σ :=
  match A.GetRoomByName (context.Param "name") s with
  | ((_, some err), s1) => (.string StatusBadRequest err, s1)
  | ((response, none), s1) => (.json StatusOK response, s1)

/-- Handler `GetRoomsByBuilding`. -/
def GetRoomsByBuilding {σ : Type} (A : Accessors σ) (context : Context Unit) (s : σ) :
    Answer (List Room) × σ :=
  match Atoi (context.Param "room") with
  | .error err => (.returned err, s)
  | .ok room =>
    match A.GetRoomsByBuilding room s with
    | ((_, some err), s1) => (.string StatusBadRequest err, s1)
    | ((response, none), s1) => (.json StatusOK response, s1)

/-- Handler `MakeRoom`. -/
def MakeRoom {σ : Type} (A : Accessors σ) (context : Context RoomBody) (s : σ) :
    Answer Room × σ :=
  match context.Bind with
  | .error err => (.returned err, s)
  | .ok room =>
    match A.MakeRoom room.Name room.Building room.VLAN s with
    | ((_, some err), s1) => (.string StatusBadRequest err, s1)
    | ((response, none), s1) => (.json StatusOK response, s1)

/-- Handler `AddPortConfiguration`: the path id is compared, as a string, with
`strconv.Itoa(pc.ID)`. -/
def AddPortConfiguration {σ : Type} (A : Accessors σ) (context : Context PortConfiguration)
    (s : σ) : Answer PortConfiguration × σ :=
  match context.Bind with
  | .error err => (.jsonText StatusBadRequest err, s)
  | .ok pc =>
    if context.Param "id" ≠ Itoa pc.ID then
      (.jsonText StatusBadRequest "Endpoint parameter and json id must match!", s)
    else
      match A.AddPortConfiguration pc s with
      | ((_, some err), s1) => (.jsonText StatusInternalServerError err, s1)
      | ((response, none), s1) => (.json StatusOK response, s1)

/-- Handler `GetDevicesByRoom`. -/
def GetDevicesByRoom {σ : Type} (couch : Couch σ) (context : Context Unit) (s : σ) :
    Answer (List Device) × σ :=
  if len (context.Param "roomid") < 1 ∨ len (context.Param "buildingid") < 1 then
    (.jsonText StatusBadRequest "Need a roomid and buildingid", s)
  else
    match couch.GetDevicesByRoom (context.Param "buildingid" ++ "-" ++ context.Param "roomid")
      s with
    | ((_, some err), s1) => (.jsonText StatusInternalServerError err, s1)
    | ((devs, none), s1) => (.json StatusOK devs, s1)

/-- Handler `GetDeviceByID`. -/
def GetDeviceByID {σ : Type} (couch : Couch σ) (context : Context Unit) (s : σ) :
    Answer Device × σ :=
  if len (context.Param "roomid") < 1 ∨ len (context.Param "buildingid") < 1 ∨
      len (context.Param "deviceid") < 1 then
    (.jsonText StatusBadRequest "Need a roomid and buildingid", s)
  else
    match couch.GetDeviceByID (context.Param "buildingid" ++ "-" ++ context.Param "roomid" ++
      "-" ++ context.Param "deviceid") s with
    | ((_, some err), s1) => (.jsonText StatusInternalServerError err, s1)
    | ((device, none), s1) => (.json StatusOK device, s1)

/-- Handler `CreateDevice`: `return nil`. -/
def CreateDevice {σ : Type} (_context : Context Unit) (s : σ) : Answer Unit × σ :=
  (.nothing, s)

/-- Handler `CreateDeviceType`: `return nil`. -/
def CreateDeviceType {σ : Type} (_context : Context Unit) (s : σ) : Answer Unit × σ :=
  (.nothing, s)

/-- Handler `GetDevicesByBuildingAndRoomAndRole`: parameters shorter than two
bytes are answered with `http.StatusInternalServerError`; an error of the call is
answered with the error value as body. -/
def GetDevicesByBuildingAndRoomAndRole {σ : Type} (couch : Couch σ) (context : Context Unit)
    (s : σ) : Answer (List Device) × σ :=
  if len (context.Param "room") < 2 ∨ len (context.Param "building") < 2 ∨
      len (context.Param "role") < 2 then
    (.jsonText StatusInternalServerError
      "Invalid parameters. Must include a valid buliding, room and role", s)
  else
    match couch.GetDevicesByRoomAndRole (context.Param "building" ++ "-" ++ context.Param "room")
      (context.Param "role") s with
    | ((_, some err), s1) => (.jsonError StatusInternalServerError err, s1)
    | ((devs, none), s1) => (.json StatusOK devs, s1)

end handlers

/-- The relational engine on a connection that is lost while the rows of the
statement `q0` are read: when `q0` has more than `n` rows, its cursor delivers
the first `n`, then `rows.Next()` reports false and `rows.Err()` reports the
loss. Every other statement is answered as by `sqlEngine`. -/
def lossyEngine (q0 : Stmt) (n : Nat) : Database Tables where
  Exec := sqlEngine.Exec
  Query q T :=
    match sqlEngine.Query q T with
    | (.error e, T1) => (.error e, T1)
    | (.ok rows, T1) =>
      if q = q0 ∧ n < rows.delivered.length then
        (.ok ⟨rows.delivered.take n, some "driver: bad connection"⟩, T1)
      else (.ok rows, T1)

/-! ## Sample storage -/

/-- A small store: building JKB with room 101; device D1 of that room has one
role, one power state and one command; device D2 of that room has no role link;
the room configuration 0 exists. -/
def sampleTables : Tables :=
  { Devices := [⟨1, "D1", "10.0.0.1", true, false, 1, 1, 1, 1, "Display 1"⟩,
                ⟨2, "D2", "10.0.0.2", true, false, 1, 1, 1, 1, "Display 2"⟩],
    Rooms := [⟨1, "101", 1, "", 0, 0, 0, 0, 0, "production", 0⟩],
    Buildings := [⟨1, "Knight Building", "JKB", ""⟩],
    DeviceClasses := [⟨1, "tv", "TV"⟩],
    DeviceTypes := [⟨1, "flatpanel"⟩],
    DeviceRole := [⟨1, 1, 1⟩],
    DeviceRoleDefinition := [⟨1, "VideoOut"⟩],
    PowerStates := [⟨1, "on"⟩],
    DevicePowerStates := [⟨1, 1, 1⟩],
    Ports := [],
    PortConfiguration := [],
    Commands := [⟨1, "PowerOn"⟩],
    Endpoints := [⟨1, "power", "/power/on"⟩],
    Microservices := [⟨1, "http://localhost:8005"⟩],
    DeviceTypeCommandMapping := [⟨1, 1, 1, 1⟩],
    RoomConfiguration := [0] }

/-- The sample store with a signal path across rooms: device D1 of room 101 is
source and host of a port whose destination device D3 is in room 102. -/
def crossRoomTables : Tables :=
  { sampleTables with
    Devices := [⟨1, "D1", "10.0.0.1", true, false, 1, 1, 1, 1, "Display 1"⟩,
                ⟨3, "D3", "10.0.0.3", true, false, 1, 2, 1, 1, "Display 3"⟩],
    Rooms := [⟨1, "101", 1, "", 0, 0, 0, 0, 0, "production", 0⟩,
              ⟨2, "102", 1, "", 0, 0, 0, 0, 0, "production", 0⟩],
    DeviceRole := [⟨1, 1, 1⟩, ⟨2, 3, 1⟩],
    Ports := [⟨1, "hdmi1"⟩],
    PortConfiguration := [⟨1, 1, 1, 3, 1⟩] }

/-- The sample store before any room or device is added: building JKB, the
definition tables and the room configuration 0. -/
def buildingOnlyTables : Tables :=
  { sampleTables with Devices := [], Rooms := [], DeviceRole := [], DevicePowerStates := [] }

/-- The sample store with two classes and two types whose ids do not go
together: class "projector" has id 1 and class "tv" id 2, type "flatpanel" has
id 1 and type "sony" id 2; room 101 holds no device. -/
def twoClassTables : Tables :=
  { sampleTables with
    Devices := [], DeviceRole := [], DevicePowerStates := [],
    DeviceClasses := [⟨1, "projector", "Projector"⟩, ⟨2, "tv", "TV"⟩],
    DeviceTypes := [⟨1, "flatpanel"⟩, ⟨2, "sony"⟩] }

/-- A device to add to room 101 of building JKB under the name of the stored
device D2, with a known role and a known power state. -/
def secondD2 : Device :=
  { Device.zero with
    Name := "D2", Address := "10.0.0.22", Input := true,
    Building := ⟨1, "Knight Building", "JKB", ""⟩,
    Room := { Room.zero with ID := 1, Name := "101" },
    Type' := "flatpanel", Class := "tv", Roles := ["VideoOut"], PowerStates := ["on"] }

/-- A device to add to room 101 of building JKB under a name not in use. -/
def deviceD9 : Device :=
  { secondD2 with Name := "D9", Address := "10.0.0.9" }

/-- The device `deviceD9` as a caller may send it: its room lists a device and
its room configuration lists an evaluator. -/
def deviceD9InRoom : Device :=
  { deviceD9 with
    Room := { deviceD9.Room with
      Devices := [secondD2], Configuration := ⟨0, ["DefaultEvaluator"]⟩ } }

/-- An accessor group over the list of stored port configurations:
`AddPortConfiguration` stores the configuration and returns it, and every room
call fails because the database is closed. -/
def sampleAccessors : Accessors (List PortConfiguration) where
  GetAllRooms s := (([], some "sql: database is closed"), s)
  GetRoomByID _ s := ((Room.zero, some "sql: database is closed"), s)
  GetRoomByName _ s := ((Room.zero, some "sql: database is closed"), s)
  GetRoomsByBuilding _ s := (([], some "sql: database is closed"), s)
  MakeRoom _ _ _ s := ((Room.zero, some "sql: database is closed"), s)
  AddPortConfiguration pc s := ((pc, none), s ++ [pc])

/-- Calls into `couch` that all fail because the server is not reachable. -/
def sampleCouch : Couch Unit where
  GetDevicesByRoom _ s := (([], some "couch: connection refused"), s)
  GetDeviceByID _ s := ((Device.zero, some "couch: connection refused"), s)
  GetDevicesByRoomAndRole _ _ s := (([], some "couch: connection refused"), s)

/-- A fresh connection to the sample store. -/
def sampleConn : Conn Tables := ⟨sampleTables, []⟩

/-! # Theorems -/

/-! ## Statements sent: every accessor only appends to the record -/

theorem Query_issued {σ : Type} (db : Database σ) (q : Stmt) (c : Conn σ) :
    (Query db q c).2.issued = c.issued ++ [q] := rfl

theorem Exec_issued {σ : Type} (db : Database σ) (q : Stmt) (c : Conn σ) :
    (Exec db q c).2.issued = c.issued ++ [q] := rfl

theorem GetRolesByDeviceID_issued {σ : Type} (db : Database σ) (deviceID : Int) (c : Conn σ) :
    (GetRolesByDeviceID db deviceID c).2.issued = c.issued ++ [.selectRoles deviceID] := by
  have h := Query_issued db (.selectRoles deviceID) c
  unfold GetRolesByDeviceID
  generalize Query db (.selectRoles deviceID) c = r at h ⊢
  rcases r with ⟨_ | _, c1⟩ <;> exact h

theorem GetPowerStatesByDeviceID_issued {σ : Type} (db : Database σ) (deviceID : Int)
    (c : Conn σ) :
    (GetPowerStatesByDeviceID db deviceID c).2.issued =
      c.issued ++ [.selectPowerStates deviceID] := by
  have h := Query_issued db (.selectPowerStates deviceID) c
  unfold GetPowerStatesByDeviceID
  generalize Query db (.selectPowerStates deviceID) c = r at h ⊢
  rcases r with ⟨_ | _, c1⟩ <;> exact h

theorem GetDeviceCommands_issued {σ : Type} (db : Database σ) (b r d : String) (c : Conn σ) :
    (GetDeviceCommandsByBuildingAndRoomAndName db b r d c).2.issued =
      c.issued ++ [.selectCommands r b d] := by
  have h := Query_issued db (.selectCommands r b d) c
  unfold GetDeviceCommandsByBuildingAndRoomAndName
  generalize Query db (.selectCommands r b d) c = x at h ⊢
  rcases x with ⟨_ | _, c1⟩ <;> exact h

theorem GetDevicePorts_issued {σ : Type} (db : Database σ) (b r d : String) (c : Conn σ) :
    (GetDevicePortsByBuildingAndRoomAndName db b r d c).2.issued =
      c.issued ++ [.selectPorts r b d] := by
  have h := Query_issued db (.selectPorts r b d) c
  unfold GetDevicePortsByBuildingAndRoomAndName
  generalize Query db (.selectPorts r b d) c = x at h ⊢
  rcases x with ⟨_ | _, c1⟩ <;> exact h

theorem deviceOfRow_issued {σ : Type} (db : Database σ) (row : Row) (c : Conn σ) :
    ∃ rest, (deviceOfRow db row c).2.issued = c.issued ++ rest := by
  unfold deviceOfRow
  rcases scanDevice row with e | device
  · exact ⟨[], by simp⟩
  · dsimp only
    have h1 := GetDeviceCommands_issued db device.Building.Shortname device.Room.Name
      device.Name c
    generalize GetDeviceCommandsByBuildingAndRoomAndName db device.Building.Shortname
      device.Room.Name device.Name c = x1 at h1 ⊢
    rcases x1 with ⟨⟨commands, _ | e⟩, c1⟩
    swap
    · exact ⟨_, h1⟩
    dsimp only
    have h2 := GetDevicePorts_issued db device.Building.Shortname device.Room.Name
      device.Name c1
    generalize GetDevicePortsByBuildingAndRoomAndName db device.Building.Shortname
      device.Room.Name device.Name c1 = x2 at h2 ⊢
    rcases x2 with ⟨⟨ports, _ | e⟩, c2⟩
    swap
    · exact ⟨_, by simp only at h1 h2 ⊢; rw [h2, h1, List.append_assoc]⟩
    dsimp only
    have h3 := GetPowerStatesByDeviceID_issued db device.ID c2
    generalize GetPowerStatesByDeviceID db device.ID c2 = x3 at h3 ⊢
    rcases x3 with ⟨⟨ps, _ | e⟩, c3⟩
    swap
    · exact ⟨_, by
        simp only at h1 h2 h3 ⊢; rw [h3, h2, h1]; simp only [List.append_assoc]; rfl⟩
    dsimp only
    have h4 := GetRolesByDeviceID_issued db device.ID c3
    generalize GetRolesByDeviceID db device.ID c3 = x4 at h4 ⊢
    rcases x4 with ⟨⟨roles, _ | e⟩, c4⟩ <;>
      exact ⟨_, by
        simp only at h1 h2 h3 h4 ⊢; rw [h4, h3, h2, h1]; simp only [List.append_assoc]; rfl⟩

theorem devicesLoop_issued {σ : Type} (db : Database σ) (rows : List Row) :
    ∀ (acc : List Device) (c : Conn σ),
      ∃ rest, (devicesLoop db rows acc c).2.issued = c.issued ++ rest := by
  induction rows with
  | nil => intro acc c; exact ⟨[], by simp [devicesLoop]⟩
  | cons row rest ih =>
    intro acc c
    unfold devicesLoop
    obtain ⟨r1, h1⟩ := deviceOfRow_issued db row c
    generalize deviceOfRow db row c = x at h1 ⊢
    rcases x with ⟨⟨device, _ | e⟩, c1⟩
    · obtain ⟨r2, h2⟩ := ih (acc ++ [device]) c1
      exact ⟨r1 ++ r2, by simp only at h1 h2 ⊢; rw [h2, h1, List.append_assoc]⟩
    · exact ⟨r1, h1⟩

theorem GetDevicesByQuery_issued {σ : Type} (db : Database σ) (query : String)
    (parameters : List Value) (c : Conn σ) :
    ∃ rest, (GetDevicesByQuery db query parameters c).2.issued =
      c.issued ++ .selectDevices query parameters :: rest := by
  unfold GetDevicesByQuery
  have h := Query_issued db (.selectDevices query parameters) c
  generalize Query db (.selectDevices query parameters) c = x at h ⊢
  rcases x with ⟨e | rows, c1⟩
  · exact ⟨[], h⟩
  · obtain ⟨r, hr⟩ := devicesLoop_issued db rows [] c1
    exact ⟨r, by simp only at h hr ⊢; rw [hr, h, List.append_assoc]; rfl⟩

theorem GetDeviceById_issued {σ : Type} (db : Database σ) (deviceID : Int) (c : Conn σ) :
    ∃ rest, (GetDeviceById db deviceID c).2.issued = c.issued ++ rest := by
  unfold GetDeviceById
  obtain ⟨r, hr⟩ := GetDevicesByQuery_issued db " WHERE Devices.DeviceID = ?" [.int deviceID] c
  generalize GetDevicesByQuery db " WHERE Devices.DeviceID = ?" [.int deviceID] c = x at hr ⊢
  rcases x with ⟨⟨_ | ⟨d, ds⟩, _ | e⟩, c1⟩ <;> exact ⟨_, hr⟩

theorem afterUpdate_issued {σ : Type} (db : Database σ) (info : DeviceAttributeInfo)
    (q : Stmt) (c : Conn σ) :
    ∃ rest, (afterUpdate db info (Exec db q c)).2.issued = c.issued ++ q :: rest := by
  have h := Exec_issued db q c
  generalize Exec db q c = x at h ⊢
  rcases x with ⟨e | res, c1⟩
  · exact ⟨[], h⟩
  · unfold afterUpdate
    simp only
    split
    · split <;> exact ⟨[], h⟩
    · obtain ⟨r, hr⟩ := GetDeviceById_issued db info.DeviceID c1
      exact ⟨r, by simp only at h; rw [hr, h, List.append_assoc]; rfl⟩

/-! ## `SetDeviceAttribute`: validation before any statement -/

theorem lookup_of_not_mem (name : String)
    (h : name ∉ ["address", "input", "output", "buildingID", "roomID", "classID",
      "displayName", "typeID"]) :
    acceptableColumnNames.lookup name = none := by
  simp only [List.mem_cons, List.mem_singleton, not_or, List.not_mem_nil, or_false] at h
  obtain ⟨h1, h2, h3, h4, h5, h6, h7, h8⟩ := h
  simp [acceptableColumnNames, List.lookup, beq_eq_false_iff_ne.mpr h1,
    beq_eq_false_iff_ne.mpr h2, beq_eq_false_iff_ne.mpr h3, beq_eq_false_iff_ne.mpr h4,
    beq_eq_false_iff_ne.mpr h5, beq_eq_false_iff_ne.mpr h6, beq_eq_false_iff_ne.mpr h7,
    beq_eq_false_iff_ne.mpr h8]

theorem lookup_bool (name : String) (h : name = "input" ∨ name = "output") :
    acceptableColumnNames.lookup name = some .bool := by
  rcases h with h | h <;> subst h <;> rfl

theorem lookup_int (name : String)
    (h : name = "buildingID" ∨ name = "roomID" ∨ name = "classID" ∨ name = "typeID") :
    acceptableColumnNames.lookup name = some .int := by
  rcases h with h | h | h | h <;> subst h <;> rfl

/-- C1. A field name outside the allow-list (address, input, output, buildingID,
roomID, classID, displayName, typeID) makes `SetDeviceAttribute` return the zero
device with the error "invalid column name", whatever the value and the device
id, and the connection is left as it was: no statement is sent, the storage is
untouched. -/
theorem SetDeviceAttribute_invalid_column {σ : Type} (db : Database σ)
    (info : DeviceAttributeInfo) (c : Conn σ)
    (h : info.AttributeName ∉ ["address", "input", "output", "buildingID", "roomID", "classID",
      "displayName", "typeID"]) :
    SetDeviceAttribute db info c = ((Device.zero, some "invalid column name"), c) := by
  unfold SetDeviceAttribute
  rw [lookup_of_not_mem _ h]

/-- Instance of `SetDeviceAttribute_invalid_column` on the sample store. -/
theorem SetDeviceAttribute_invalid_column_witness :
    SetDeviceAttribute sqlEngine ⟨1, "muted", "true"⟩ sampleConn =
      ((Device.zero, some "invalid column name"), sampleConn) :=
  SetDeviceAttribute_invalid_column sqlEngine ⟨1, "muted", "true"⟩ sampleConn (by decide)

/-- C2. For the boolean fields `input` and `output`: when the value is exactly
"true" or exactly "false" the update is the next statement sent, bound to that
boolean; for any other string `SetDeviceAttribute` returns the zero device with
the error "Invalid value for a boolean column" and the connection is left as it
was, so that the update is sent iff the value is one of the two literals. -/
theorem SetDeviceAttribute_bool {σ : Type} (db : Database σ) (info : DeviceAttributeInfo)
    (c : Conn σ) (hname : info.AttributeName = "input" ∨ info.AttributeName = "output") :
    ((info.AttributeValue = "true" ∨ info.AttributeValue = "false") ↔
      ∃ b rest, (SetDeviceAttribute db info c).2.issued =
        c.issued ++ .updateDevices info.AttributeName (.bool b) info.DeviceID :: rest) ∧
    ((info.AttributeValue = "true" ∨ info.AttributeValue = "false") →
      ∃ rest, (SetDeviceAttribute db info c).2.issued =
        c.issued ++ .updateDevices info.AttributeName
          (.bool (decide (info.AttributeValue = "true"))) info.DeviceID :: rest) ∧
    (¬ (info.AttributeValue = "true" ∨ info.AttributeValue = "false") →
      SetDeviceAttribute db info c =
        ((Device.zero, some "Invalid value for a boolean column"), c)) := by
  have hk := lookup_bool _ hname
  have hpos : (info.AttributeValue = "true" ∨ info.AttributeValue = "false") →
      ∃ rest, (SetDeviceAttribute db info c).2.issued =
        c.issued ++ .updateDevices info.AttributeName
          (.bool (decide (info.AttributeValue = "true"))) info.DeviceID :: rest := by
    intro hv
    unfold SetDeviceAttribute
    rw [hk]
    rcases hv with hv | hv
    · simp only [hv, decide_True]
      exact afterUpdate_issued db info _ c
    · simp only [hv, decide_False, if_true]
      have : ("false" = "true") = False := by simp
      simp only [this, decide_False]
      exact afterUpdate_issued db info _ c
  have hneg : ¬ (info.AttributeValue = "true" ∨ info.AttributeValue = "false") →
      SetDeviceAttribute db info c =
        ((Device.zero, some "Invalid value for a boolean column"), c) := by
    intro hv
    rw [not_or] at hv
    unfold SetDeviceAttribute
    rw [hk]
    simp only [hv.1, hv.2, if_false]
  refine ⟨⟨fun hv => ?_, fun hex => ?_⟩, hpos, hneg⟩
  · obtain ⟨rest, hr⟩ := hpos hv
    exact ⟨_, rest, hr⟩
  · by_contra hv
    obtain ⟨b, rest, hr⟩ := hex
    rw [hneg hv] at hr
    have := congrArg List.length hr
    simp at this

/-- Instance of `SetDeviceAttribute_bool` on the sample store. -/
theorem SetDeviceAttribute_bool_witness :
    (("True" = "true" ∨ "True" = "false") ↔
      ∃ b rest, (SetDeviceAttribute sqlEngine ⟨1, "input", "True"⟩ sampleConn).2.issued =
        sampleConn.issued ++ .updateDevices "input" (.bool b) 1 :: rest) ∧
    (("True" = "true" ∨ "True" = "false") →
      ∃ rest, (SetDeviceAttribute sqlEngine ⟨1, "input", "True"⟩ sampleConn).2.issued =
        sampleConn.issued ++ .updateDevices "input"
          (.bool (decide ("True" = "true"))) 1 :: rest) ∧
    (¬ ("True" = "true" ∨ "True" = "false") →
      SetDeviceAttribute sqlEngine ⟨1, "input", "True"⟩ sampleConn =
        ((Device.zero, some "Invalid value for a boolean column"), sampleConn)) :=
  SetDeviceAttribute_bool sqlEngine ⟨1, "input", "True"⟩ sampleConn (Or.inl rfl)

/-- C4. For the integer fields `buildingID`, `roomID`, `classID` and `typeID`:
when `strconv.Atoi` rejects the value, `SetDeviceAttribute` returns the zero
device with that error and the connection is left as it was (no statement is
sent); when the value parses to `n`, the update is the next statement sent, with
the integer `n` as its bound value. -/
theorem SetDeviceAttribute_int {σ : Type} (db : Database σ) (info : DeviceAttributeInfo)
    (c : Conn σ)
    (hname : info.AttributeName = "buildingID" ∨ info.AttributeName = "roomID" ∨
      info.AttributeName = "classID" ∨ info.AttributeName = "typeID") :
    (∀ e, Atoi info.AttributeValue = .error e →
      SetDeviceAttribute db info c = ((Device.zero, some e), c)) ∧
    (∀ n, Atoi info.AttributeValue = .ok n →
      ∃ rest, (SetDeviceAttribute db info c).2.issued =
        c.issued ++ .updateDevices info.AttributeName (.int n) info.DeviceID :: rest) := by
  have hk := lookup_int _ hname
  constructor
  · intro e he
    unfold SetDeviceAttribute
    rw [hk]
    simp only [he]
  · intro n hn
    unfold SetDeviceAttribute
    rw [hk]
    simp only [hn]
    exact afterUpdate_issued db info _ c

/-- Instance of `SetDeviceAttribute_int` on the sample store. -/
theorem SetDeviceAttribute_int_witness :
    (∀ e, Atoi "12a" = .error e →
      SetDeviceAttribute sqlEngine ⟨1, "roomID", "12a"⟩ sampleConn =
        ((Device.zero, some e), sampleConn)) ∧
    (∀ n, Atoi "12a" = .ok n →
      ∃ rest, (SetDeviceAttribute sqlEngine ⟨1, "roomID", "12a"⟩ sampleConn).2.issued =
        sampleConn.issued ++ .updateDevices "roomID" (.int n) 1 :: rest) :=
  SetDeviceAttribute_int sqlEngine ⟨1, "roomID", "12a"⟩ sampleConn (Or.inr (Or.inl rfl))

/-! ## `SetDeviceAttribute`: the affected-row check -/

/-- C3, as stated, fails on the code: setting the address of device 1 of the
sample store to the address it already has changes no row, so the update
reports 0 affected rows, and `SetDeviceAttribute` returns device 1 without an
error. -/
theorem SetDeviceAttribute_zero_rows_succeeds :
    (sqlEngine.Exec (.updateDevices "address" (.str "10.0.0.1") 1) sampleTables).1 =
      .ok ⟨(0, none), (0, none)⟩ ∧
    (SetDeviceAttribute sqlEngine ⟨1, "address", "10.0.0.1"⟩ sampleConn).1.2 = none ∧
    (SetDeviceAttribute sqlEngine ⟨1, "address", "10.0.0.1"⟩ sampleConn).1.1.ID = 1 ∧
    (SetDeviceAttribute sqlEngine ⟨1, "address", "10.0.0.1"⟩ sampleConn).1.1.Address =
      "10.0.0.1" := by
  refine ⟨rfl, rfl, rfl, rfl⟩

/-- C3, amended. When the update statement of `SetDeviceAttribute` executes
without a storage error: an error of `RowsAffected` is returned with the zero
device; a count above 1 is returned as the "incorrect number of rows affected"
error with the zero device; with a count of at most 1 (0 included) the call is
whatever the re-fetch `GetDeviceById` returns. -/
theorem SetDeviceAttribute_rows_affected {σ : Type} (db : Database σ)
    (info : DeviceAttributeInfo) (c c1 : Conn σ) (v : Value) (n : Int) (res : Result)
    (hsent :
      (acceptableColumnNames.lookup info.AttributeName = some .string ∧
        v = .str info.AttributeValue) ∨
      (acceptableColumnNames.lookup info.AttributeName = some .int ∧
        Atoi info.AttributeValue = .ok n ∧ v = .int n) ∨
      (acceptableColumnNames.lookup info.AttributeName = some .bool ∧
        ((info.AttributeValue = "false" ∧ v = .bool false) ∨
          (info.AttributeValue = "true" ∧ v = .bool true))))
    (hexec : Exec db (.updateDevices info.AttributeName v info.DeviceID) c = (.ok res, c1)) :
    (∀ e, res.RowsAffected.2 = some e →
      SetDeviceAttribute db info c = ((Device.zero, some e), c1)) ∧
    (res.RowsAffected.2 = none → 1 < res.RowsAffected.1 →
      SetDeviceAttribute db info c =
        ((Device.zero, some (rowsAffectedError res.RowsAffected.1)), c1)) ∧
    (res.RowsAffected.2 = none → res.RowsAffected.1 ≤ 1 →
      SetDeviceAttribute db info c = GetDeviceById db info.DeviceID c1) := by
  have key : SetDeviceAttribute db info c = afterUpdate db info (.ok res, c1) := by
    unfold SetDeviceAttribute
    rcases hsent with ⟨hk, hv⟩ | ⟨hk, ha, hv⟩ | ⟨hk, ⟨hf, hv⟩ | ⟨ht, hv⟩⟩
    · rw [hk]; subst hv; simp only [hexec]
    · rw [hk]; subst hv; simp only [ha, hexec]
    · rw [hk]; subst hv; simp only [hf, if_true, ← hexec]
    · rw [hk]; subst hv
      have : ("true" = "false") = False := by simp
      simp only [ht, this, if_false, if_true, ← hexec]
  rw [key]
  unfold afterUpdate
  refine ⟨fun e he => ?_, fun he hn => ?_, fun he hn => ?_⟩
  · simp [he]
  · simp [he, hn]
  · simp [he, not_lt.mpr hn]

/-- Instance of `SetDeviceAttribute_rows_affected` on the sample store. -/
theorem SetDeviceAttribute_rows_affected_witness :
    (∀ e, (Result.mk (0, none) (0, none)).RowsAffected.2 = some e →
      SetDeviceAttribute sqlEngine ⟨1, "address", "10.0.0.1"⟩ sampleConn =
        ((Device.zero, some e),
          ⟨sampleTables, [.updateDevices "address" (.str "10.0.0.1") 1]⟩)) ∧
    ((Result.mk (0, none) (0, none)).RowsAffected.2 = none →
      1 < (Result.mk (0, none) (0, none)).RowsAffected.1 →
      SetDeviceAttribute sqlEngine ⟨1, "address", "10.0.0.1"⟩ sampleConn =
        ((Device.zero, some (rowsAffectedError (Result.mk (0, none) (0, none)).RowsAffected.1)),
          ⟨sampleTables, [.updateDevices "address" (.str "10.0.0.1") 1]⟩)) ∧
    ((Result.mk (0, none) (0, none)).RowsAffected.2 = none →
      (Result.mk (0, none) (0, none)).RowsAffected.1 ≤ 1 →
      SetDeviceAttribute sqlEngine ⟨1, "address", "10.0.0.1"⟩ sampleConn =
        GetDeviceById sqlEngine 1
          ⟨sampleTables, [.updateDevices "address" (.str "10.0.0.1") 1]⟩) :=
  SetDeviceAttribute_rows_affected sqlEngine ⟨1, "address", "10.0.0.1"⟩ sampleConn
    ⟨sampleTables, [.updateDevices "address" (.str "10.0.0.1") 1]⟩ (.str "10.0.0.1") 0
    ⟨(0, none), (0, none)⟩ (Or.inl ⟨rfl, rfl⟩) rfl

/-! ## `GetDevicesByQuery`: all or nothing -/

theorem devicesLoop_error_empty {σ : Type} (db : Database σ) (rows : List Row) :
    ∀ (acc : List Device) (c : Conn σ),
      (devicesLoop db rows acc c).1.2 ≠ none → (devicesLoop db rows acc c).1.1 = [] := by
  induction rows with
  | nil => intro acc c h; simp [devicesLoop] at h
  | cons row rest ih =>
    intro acc c
    unfold devicesLoop
    generalize deviceOfRow db row c = x
    rcases x with ⟨⟨device, _ | e⟩, c1⟩
    · exact ih _ _
    · intro _; rfl

theorem devicesLoop_append {σ : Type} (db : Database σ) (pre rest : List Row) :
    ∀ (acc devs : List Device) (c ck : Conn σ),
      devicesLoop db pre acc c = ((devs, none), ck) →
      devicesLoop db (pre ++ rest) acc c = devicesLoop db rest devs ck := by
  induction pre with
  | nil =>
    intro acc devs c ck h
    simp only [devicesLoop, Prod.mk.injEq, and_true] at h
    rw [List.nil_append, h.1, h.2]
  | cons row pre ih =>
    intro acc devs c ck h
    rw [List.cons_append]
    simp only [devicesLoop] at h ⊢
    generalize deviceOfRow db row c = x at h ⊢
    rcases x with ⟨⟨device, _ | e⟩, c1⟩
    · exact ih _ _ _ _ h
    · simp at h

theorem devicesLoop_ok {σ : Type} (db : Database σ) (rows : List Row) :
    ∀ (acc devs : List Device) (c c' : Conn σ),
      devicesLoop db rows acc c = ((devs, none), c') →
      ∃ ds, devs = acc ++ ds ∧
        List.Forall₂ (fun row d => ∃ ck ck', deviceOfRow db row ck = ((d, none), ck')) rows ds := by
  induction rows with
  | nil =>
    intro acc devs c c' h
    simp only [devicesLoop, Prod.mk.injEq, and_true] at h
    exact ⟨[], by simp [h.1], List.Forall₂.nil⟩
  | cons row rest ih =>
    intro acc devs c c' h
    unfold devicesLoop at h
    generalize hx : deviceOfRow db row c = x at h
    rcases x with ⟨⟨device, _ | e⟩, c1⟩
    · obtain ⟨ds, hds, hall⟩ := ih _ _ _ _ h
      exact ⟨device :: ds, by simp [hds], List.Forall₂.cons ⟨c, c1, hx⟩ hall⟩
    · simp at h

/-- The error of the loop body is the error of the scan or of the first failing
sub-fetch, and nothing else. -/
theorem deviceOfRow_error_iff {σ : Type} (db : Database σ) (row : Row) (ck : Conn σ)
    (e : Error) :
    (deviceOfRow db row ck).1.2 = some e ↔
      (scanDevice row = .error e ∨ ∃ device, scanDevice row = .ok device ∧
        let cmd := GetDeviceCommandsByBuildingAndRoomAndName db device.Building.Shortname
          device.Room.Name device.Name ck
        let ports := GetDevicePortsByBuildingAndRoomAndName db device.Building.Shortname
          device.Room.Name device.Name cmd.2
        let ps := GetPowerStatesByDeviceID db device.ID ports.2
        let roles := GetRolesByDeviceID db device.ID ps.2
        (cmd.1.2 = some e ∨ (cmd.1.2 = none ∧ (ports.1.2 = some e ∨ (ports.1.2 = none ∧
          (ps.1.2 = some e ∨ (ps.1.2 = none ∧ roles.1.2 = some e))))))) := by
  unfold deviceOfRow
  rcases scanDevice row with e0 | device
  · simp
  · simp only [reduceCtorEq, Except.ok.injEq, exists_eq_left', false_or]
    generalize GetDeviceCommandsByBuildingAndRoomAndName db device.Building.Shortname
      device.Room.Name device.Name ck = x1
    rcases x1 with ⟨⟨commands, _ | e1⟩, c1⟩
    swap
    · simp
    simp only [reduceCtorEq, true_and, false_or]
    generalize GetDevicePortsByBuildingAndRoomAndName db device.Building.Shortname
      device.Room.Name device.Name c1 = x2
    rcases x2 with ⟨⟨ports, _ | e2⟩, c2⟩
    swap
    · simp
    simp only [reduceCtorEq, true_and, false_or]
    generalize GetPowerStatesByDeviceID db device.ID c2 = x3
    rcases x3 with ⟨⟨ps, _ | e3⟩, c3⟩
    swap
    · simp
    simp only [reduceCtorEq, true_and, false_or]
    generalize GetRolesByDeviceID db device.ID c3 = x4
    rcases x4 with ⟨⟨roles, _ | e4⟩, c4⟩ <;> simp

/-- A device the loop body returns without error carries the scanned columns
and the results of its four sub-fetches, none of which reported an error. -/
theorem deviceOfRow_ok {σ : Type} (db : Database σ) (row : Row) (ck ck' : Conn σ) (d : Device)
    (h : deviceOfRow db row ck = ((d, none), ck')) :
    ∃ device c1 c2 c3, scanDevice row = .ok device ∧
      GetDeviceCommandsByBuildingAndRoomAndName db device.Building.Shortname device.Room.Name
        device.Name ck = ((d.Commands, none), c1) ∧
      GetDevicePortsByBuildingAndRoomAndName db device.Building.Shortname device.Room.Name
        device.Name c1 = ((d.Ports, none), c2) ∧
      GetPowerStatesByDeviceID db device.ID c2 = ((d.PowerStates, none), c3) ∧
      GetRolesByDeviceID db device.ID c3 = ((d.Roles, none), ck') ∧
      d = { device with
        Commands := d.Commands, Ports := d.Ports, PowerStates := d.PowerStates,
        Roles := d.Roles } := by
  unfold deviceOfRow at h
  rcases hs : scanDevice row with e0 | device
  · rw [hs] at h; simp at h
  · rw [hs] at h
    simp only at h
    rcases hx1 : GetDeviceCommandsByBuildingAndRoomAndName db device.Building.Shortname
      device.Room.Name device.Name ck with ⟨⟨commands, _ | e1⟩, c1⟩
    swap
    · rw [hx1] at h; simp at h
    rw [hx1] at h
    simp only at h
    rcases hx2 : GetDevicePortsByBuildingAndRoomAndName db device.Building.Shortname
      device.Room.Name device.Name c1 with ⟨⟨ports, _ | e2⟩, c2⟩
    swap
    · rw [hx2] at h; simp at h
    rw [hx2] at h
    simp only at h
    rcases hx3 : GetPowerStatesByDeviceID db device.ID c2 with ⟨⟨ps, _ | e3⟩, c3⟩
    swap
    · rw [hx3] at h; simp at h
    rw [hx3] at h
    simp only at h
    rcases hx4 : GetRolesByDeviceID db device.ID c3 with ⟨⟨roles, _ | e4⟩, c4⟩
    swap
    · rw [hx4] at h; simp at h
    rw [hx4] at h
    simp only [Prod.mk.injEq, and_true] at h
    obtain ⟨hd, hc⟩ := h
    subst hd hc
    exact ⟨device, c1, c2, c3, rfl, hx1, hx2, hx3, hx4, rfl⟩

/-- With respect to the rows the cursors deliver, `GetDevicesByQuery` is
all-or-nothing. (1) Whenever it returns an error, the device list it returns is
empty. (2) An error of `Query` itself is returned as such. (3) When the rows
before a row were assembled without error and that row fails in its scan or in
one of its sub-fetches (commands, ports, power states, roles, in that order),
that error is returned with the empty list. (4) When it returns without error,
every delivered row became one device, whose four sub-fetches all returned
without error and whose collections are their results. An error that ends a
cursor before its last row (`rows.Err()`) is not an error of the delivered rows
and is outside this statement. -/
theorem GetDevicesByQuery_all_or_nothing {σ : Type} (db : Database σ) (query : String)
    (parameters : List Value) (c : Conn σ) :
    ((GetDevicesByQuery db query parameters c).1.2 ≠ none →
      (GetDevicesByQuery db query parameters c).1.1 = []) ∧
    (∀ e c1, Query db (.selectDevices query parameters) c = (.error e, c1) →
      GetDevicesByQuery db query parameters c = (([], some e), c1)) ∧
    (∀ rows c1 pre row post devs ck e,
      Query db (.selectDevices query parameters) c = (.ok rows, c1) →
      rows = pre ++ row :: post →
      devicesLoop db pre [] c1 = ((devs, none), ck) →
      (scanDevice row = .error e ∨ ∃ device, scanDevice row = .ok device ∧
        let cmd := GetDeviceCommandsByBuildingAndRoomAndName db device.Building.Shortname
          device.Room.Name device.Name ck
        let ports := GetDevicePortsByBuildingAndRoomAndName db device.Building.Shortname
          device.Room.Name device.Name cmd.2
        let ps := GetPowerStatesByDeviceID db device.ID ports.2
        let roles := GetRolesByDeviceID db device.ID ps.2
        (cmd.1.2 = some e ∨ (cmd.1.2 = none ∧ (ports.1.2 = some e ∨ (ports.1.2 = none ∧
          (ps.1.2 = some e ∨ (ps.1.2 = none ∧ roles.1.2 = some e))))))) →
      (GetDevicesByQuery db query parameters c).1 = ([], some e)) ∧
    (∀ devs c', GetDevicesByQuery db query parameters c = ((devs, none), c') →
      ∃ rows c1, Query db (.selectDevices query parameters) c = (.ok rows, c1) ∧
        List.Forall₂ (fun row d => ∃ device ck c1 c2 c3 ck', scanDevice row = .ok device ∧
          GetDeviceCommandsByBuildingAndRoomAndName db device.Building.Shortname
            device.Room.Name device.Name ck = ((d.Commands, none), c1) ∧
          GetDevicePortsByBuildingAndRoomAndName db device.Building.Shortname
            device.Room.Name device.Name c1 = ((d.Ports, none), c2) ∧
          GetPowerStatesByDeviceID db device.ID c2 = ((d.PowerStates, none), c3) ∧
          GetRolesByDeviceID db device.ID c3 = ((d.Roles, none), ck') ∧
          d = { device with
            Commands := d.Commands, Ports := d.Ports, PowerStates := d.PowerStates,
            Roles := d.Roles }) rows devs) := by
  refine ⟨?_, ?_, ?_, ?_⟩
  · unfold GetDevicesByQuery
    generalize Query db (.selectDevices query parameters) c = x
    rcases x with ⟨e | rows, c1⟩
    · intro _; rfl
    · exact devicesLoop_error_empty db rows [] c1
  · intro e c1 h
    unfold GetDevicesByQuery
    rw [h]
  · intro rows c1 pre row post devs ck e hq hrows hpre hrow
    have herr := (deviceOfRow_error_iff db row ck e).mpr hrow
    unfold GetDevicesByQuery
    rw [hq, hrows]
    simp only
    rw [devicesLoop_append db pre (row :: post) [] devs c1 ck hpre]
    simp only [devicesLoop]
    generalize deviceOfRow db row ck = x at herr
    rcases x with ⟨⟨device, _ | e1⟩, ck'⟩
    · simp at herr
    · simp only [Option.some.injEq] at herr
      rw [herr]
  · intro devs c' h
    unfold GetDevicesByQuery at h
    rcases hq : Query db (.selectDevices query parameters) c with ⟨e | rows, c1⟩
    · rw [hq] at h; simp at h
    · rw [hq] at h
      obtain ⟨ds, hds, hall⟩ := devicesLoop_ok db rows [] devs c1 c' h
      rw [List.nil_append] at hds
      subst hds
      refine ⟨rows, c1, rfl, hall.imp ?_⟩
      rintro row d ⟨ck, ck', hd⟩
      obtain ⟨device, c1, c2, c3, h0, h1, h2, h3, h4, h5⟩ := deviceOfRow_ok db row ck ck' d hd
      exact ⟨device, ck, c1, c2, c3, ck', h0, h1, h2, h3, h4, h5⟩

/-- Instance of `GetDevicesByQuery_all_or_nothing` on the sample store. -/
theorem GetDevicesByQuery_all_or_nothing_witness :
    GetDevicesByQuery sqlEngine "WHERE Devices.colour = ?" [.str "red"] sampleConn =
      (([], some sqlSyntaxError),
        ⟨sampleTables, [.selectDevices "WHERE Devices.colour = ?" [.str "red"]]⟩) ∧
    ∃ rows c1, Query sqlEngine (.selectDevices "WHERE Rooms.roomID = ?" [.int 1]) sampleConn =
        (.ok rows, c1) ∧ rows.length = 1 :=
  ⟨(GetDevicesByQuery_all_or_nothing sqlEngine "WHERE Devices.colour = ?" [.str "red"]
      sampleConn).2.1 sqlSyntaxError _ rfl,
   by
    obtain ⟨rows, c1, h, hall⟩ :=
      (GetDevicesByQuery_all_or_nothing sqlEngine "WHERE Rooms.roomID = ?" [.int 1]
        sampleConn).2.2.2
        (GetDevicesByQuery sqlEngine "WHERE Rooms.roomID = ?" [.int 1] sampleConn).1.1
        (GetDevicesByQuery sqlEngine "WHERE Rooms.roomID = ?" [.int 1] sampleConn).2 rfl
    refine ⟨rows, c1, h, ?_⟩
    rw [hall.length_eq]
    rfl⟩

/-! ## `GetDevicesByQuery`: a cursor that ends before its last row -/

/-- The error of the cursor does not reach the caller of `GetDevicesByQuery`:
whatever `rows.Err()` reports, the outcome is that of the loop over the rows
delivered. -/
theorem GetDevicesByQuery_rows_err {σ : Type} (db : Database σ) (query : String)
    (parameters : List Value) (c c1 : Conn σ) (rows : List Row) (err : Option Error)
    (h : QueryRows db (.selectDevices query parameters) c = (.ok ⟨rows, err⟩, c1)) :
    GetDevicesByQuery db query parameters c = devicesLoop db rows [] c1 := by
  have hq : Query db (.selectDevices query parameters) c = (.ok rows, c1) := by
    unfold Query
    rw [h]
    rfl
  unfold GetDevicesByQuery
  rw [hq]

/-- C6, on the code. The loops of `GetDevicesByQuery` and of its sub-fetches end
when `rows.Next()` reports false and never read `rows.Err()`. On a connection
that is lost after the first row of the base query, in a store where the empty
filter has the two devices 1 and 3, the base query reports the error
"driver: bad connection" through its cursor and `GetDevicesByQuery` returns the
one device assembled so far with a nil error. On a connection that is lost
while the roles of device 1 are read, the sub-fetch `GetRolesByDeviceID`
returns the empty list with a nil error where the device has the role
"VideoOut", and `GetDevicesByQuery` returns device 1 without roles and without
error. -/
theorem GetDevicesByQuery_truncated :
    ((GetDevicesByQuery sqlEngine "" [] ⟨crossRoomTables, []⟩).1.2 = none ∧
      (GetDevicesByQuery sqlEngine "" [] ⟨crossRoomTables, []⟩).1.1.map (fun d => d.ID) =
        [1, 3] ∧
      ((QueryRows (lossyEngine (.selectDevices "" []) 1) (.selectDevices "" [])
        ⟨crossRoomTables, []⟩).1.map fun r => (r.delivered.length, r.Err)) =
        .ok (1, some "driver: bad connection") ∧
      (GetDevicesByQuery (lossyEngine (.selectDevices "" []) 1) "" []
        ⟨crossRoomTables, []⟩).1.2 = none ∧
      (GetDevicesByQuery (lossyEngine (.selectDevices "" []) 1) "" []
        ⟨crossRoomTables, []⟩).1.1.map (fun d => d.ID) = [1]) ∧
    ((GetRolesByDeviceID sqlEngine 1 sampleConn).1 = (["VideoOut"], none) ∧
      ((QueryRows (lossyEngine (.selectRoles 1) 0) (.selectRoles 1) sampleConn).1.map
        fun r => (r.delivered.length, r.Err)) = .ok (0, some "driver: bad connection") ∧
      (GetRolesByDeviceID (lossyEngine (.selectRoles 1) 0) 1 sampleConn).1 = ([], none) ∧
      (GetDevicesByQuery (lossyEngine (.selectRoles 1) 0) "" [] sampleConn).1.2 = none ∧
      (GetDevicesByQuery (lossyEngine (.selectRoles 1) 0) "" [] sampleConn).1.1.map
        (fun d => (d.ID, d.Roles)) = [(1, [])]) := by
  refine ⟨⟨rfl, rfl, rfl, rfl, rfl⟩, rfl, rfl, rfl, rfl, rfl⟩

/-! ## `MakeRoom`: the building must exist -/

theorem QueryRow_conn {σ : Type} (db : Database σ) (q : Stmt) (c : Conn σ) :
    (QueryRow db q c).2 = (Query db q c).2 := by
  unfold QueryRow Query
  generalize QueryRows db q c = x
  rcases x with ⟨e | ⟨_ | ⟨row, rows⟩, _ | e⟩, c1⟩ <;> rfl

theorem GetBuildingByShortname_issued {σ : Type} (db : Database σ) (s : String) (c : Conn σ) :
    (GetBuildingByShortname db s c).2 = (Query db (.selectBuildingByShortname s) c).2 := by
  unfold GetBuildingByShortname
  rw [← QueryRow_conn]
  generalize QueryRow db (.selectBuildingByShortname s) c = x
  rcases x with ⟨e | row, c1⟩
  · rfl
  · simp only
    rcases scanBuilding row with e | b <;> rfl

theorem GetBuildingByShortname_absent (T : Tables) (log : List Stmt) (s : String)
    (h : ∀ b ∈ T.Buildings, b.shortName ≠ s) :
    GetBuildingByShortname sqlEngine s ⟨T, log⟩ =
      ((Building.zero, some ErrNoRows), ⟨T, log ++ [.selectBuildingByShortname s]⟩) := by
  have hf : (T.Buildings.filter fun b => b.shortName = s) = [] := by
    rw [List.filter_eq_nil_iff]
    intro b hb
    simpa using h b hb
  simp [GetBuildingByShortname, QueryRow, QueryRows, sqlEngine, run, hf]

/-- C9. When the building lookup by shortname fails, `MakeRoom` returns the zero
room with the error "Could not find a building with the "s" shortname", and the
lookup is the only statement it sends: no insert is executed. On the relational
engine the lookup fails when no building has the shortname, and then the stored
tables, the room rows among them, are what they were. -/
theorem MakeRoom_building_not_found :
    (∀ (σ : Type) (db : Database σ) (name s : String) (vlan : Int) (c : Conn σ),
      (GetBuildingByShortname db s c).1.2 ≠ none →
      MakeRoom db name s vlan c =
        (.returned Room.zero (some (buildingNotFound s)),
          (Query db (.selectBuildingByShortname s) c).2) ∧
      (MakeRoom db name s vlan c).2.issued = c.issued ++ [.selectBuildingByShortname s]) ∧
    (∀ (T : Tables) (log : List Stmt) (name s : String) (vlan : Int),
      (∀ b ∈ T.Buildings, b.shortName ≠ s) →
      MakeRoom sqlEngine name s vlan ⟨T, log⟩ =
        (.returned Room.zero (some (buildingNotFound s)),
          ⟨T, log ++ [.selectBuildingByShortname s]⟩)) := by
  constructor
  · intro σ db name s vlan c h
    have hc := GetBuildingByShortname_issued db s c
    have key : MakeRoom db name s vlan c =
        (.returned Room.zero (some (buildingNotFound s)),
          (Query db (.selectBuildingByShortname s) c).2) := by
      unfold MakeRoom
      generalize GetBuildingByShortname db s c = x at h hc
      rcases x with ⟨⟨b, _ | e⟩, c1⟩
      · exact absurd rfl h
      · simp only at hc ⊢
        rw [hc]
    exact ⟨key, by rw [key]; rfl⟩
  · intro T log name s vlan h
    unfold MakeRoom
    rw [GetBuildingByShortname_absent T log s h]

/-- Instance of `MakeRoom_building_not_found` on the sample store. -/
theorem MakeRoom_building_not_found_witness :
    MakeRoom sqlEngine "101" "ZZZ" 210 sampleConn =
      (.returned Room.zero (some (buildingNotFound "ZZZ")),
        ⟨sampleTables, [] ++ [.selectBuildingByShortname "ZZZ"]⟩) :=
  MakeRoom_building_not_found.2 sampleTables [] "101" "ZZZ" 210 (by decide)

/-! ## The relational engine: what the sub-fetches deliver -/

theorem scanNames_str {rows : List Row} (h : ∀ row ∈ rows, ∃ n, row = [Value.str n]) :
    ∀ acc : List String, (scanNames rows acc).2 = none ∧
      ∀ n, n ∈ (scanNames rows acc).1 ↔ n ∈ acc ∨ [Value.str n] ∈ rows := by
  induction rows with
  | nil => intro acc; simp [scanNames]
  | cons row rest ih =>
    intro acc
    obtain ⟨m, rfl⟩ := h row (List.mem_cons_self _ _)
    have ih' := ih (fun r hr => h r (List.mem_cons_of_mem _ hr)) (acc ++ [m])
    simp only [scanNames, scanString]
    refine ⟨ih'.1, fun n => ?_⟩
    rw [ih'.2 n]
    simp only [List.mem_append, List.mem_singleton, List.mem_cons, List.cons.injEq,
      Value.str.injEq, and_true]
    tauto

theorem extractCommandLoop_str {rows : List Row}
    (h : ∀ row ∈ rows, ∃ a b c d, row = [Value.str a, Value.str b, Value.str c, Value.str d]) :
    ∀ acc : List Command, (extractCommandLoop rows acc).2 = none ∧
      ∀ cmd, cmd ∈ (extractCommandLoop rows acc).1 ↔ cmd ∈ acc ∨
        [Value.str cmd.Name, Value.str cmd.Endpoint.Name, Value.str cmd.Endpoint.Path,
          Value.str cmd.Microservice] ∈ rows := by
  induction rows with
  | nil => intro acc; simp [extractCommandLoop]
  | cons row rest ih =>
    intro acc
    obtain ⟨a, b, c, d, rfl⟩ := h row (List.mem_cons_self _ _)
    have ih' := ih (fun r hr => h r (List.mem_cons_of_mem _ hr)) (acc ++ [⟨a, ⟨b, c⟩, d⟩])
    simp only [extractCommandLoop, scanCommand, scanString]
    refine ⟨ih'.1, fun cmd => ?_⟩
    rw [ih'.2 cmd]
    simp only [List.mem_append, List.mem_singleton, List.mem_cons, List.cons.injEq,
      Value.str.injEq, and_true]
    rcases cmd with ⟨n, ⟨en, ep⟩, m⟩
    simp only [Command.mk.injEq, Endpoint.mk.injEq]
    tauto

theorem portsLoop_str {rows : List Row}
    (h : ∀ row ∈ rows, ∃ a b c d, row = [Value.str a, Value.str b, Value.str c, Value.str d]) :
    ∀ acc : List Port, (portsLoop rows acc).2 = none ∧
      ∀ port, port ∈ (portsLoop rows acc).1 ↔ port ∈ acc ∨
        [Value.str port.Source, Value.str port.Name, Value.str port.Destination,
          Value.str port.Host] ∈ rows := by
  induction rows with
  | nil => intro acc; simp [portsLoop]
  | cons row rest ih =>
    intro acc
    obtain ⟨a, b, c, d, rfl⟩ := h row (List.mem_cons_self _ _)
    have ih' := ih (fun r hr => h r (List.mem_cons_of_mem _ hr)) (acc ++ [⟨a, b, c, d⟩])
    simp only [portsLoop, scanPort, scanString]
    refine ⟨ih'.1, fun port => ?_⟩
    rw [ih'.2 port]
    simp only [List.mem_append, List.mem_singleton, List.mem_cons, List.cons.injEq,
      Value.str.injEq, and_true]
    rcases port with ⟨s, n, d', h'⟩
    simp only [Port.mk.injEq]
    tauto

theorem selectRoles_str (T : Tables) (deviceID : Int) :
    ∀ row ∈ selectRoles T deviceID, ∃ n, row = [Value.str n] := by
  intro row h
  simp only [selectRoles, List.mem_flatMap, List.mem_map] at h
  obtain ⟨rd, _, _, _, rfl⟩ := h
  exact ⟨_, rfl⟩

theorem selectPowerStates_str (T : Tables) (deviceID : Int) :
    ∀ row ∈ selectPowerStates T deviceID, ∃ n, row = [Value.str n] := by
  intro row h
  simp only [selectPowerStates, List.mem_flatMap, List.mem_map] at h
  obtain ⟨ps, _, _, _, rfl⟩ := h
  exact ⟨_, rfl⟩

theorem selectCommands_str (T : Tables) (r b d : String) :
    ∀ row ∈ selectCommands T r b d,
      ∃ a b c d, row = [Value.str a, Value.str b, Value.str c, Value.str d] := by
  intro row h
  simp only [selectCommands, List.mem_flatMap, List.mem_map] at h
  obtain ⟨_, _, _, _, _, _, _, _, _, _, _, _, _, _, _, _, rfl⟩ := h
  exact ⟨_, _, _, _, rfl⟩

theorem selectPorts_str (T : Tables) (r b d : String) :
    ∀ row ∈ selectPorts T r b d,
      ∃ a b c d, row = [Value.str a, Value.str b, Value.str c, Value.str d] := by
  intro row h
  simp only [selectPorts, List.mem_flatMap, List.mem_map] at h
  obtain ⟨_, _, _, _, _, _, _, _, _, _, _, _, _, _, _, _, rfl⟩ := h
  exact ⟨_, _, _, _, rfl⟩

theorem GetRolesByDeviceID_sql (T : Tables) (l : List Stmt) (deviceID : Int) :
    GetRolesByDeviceID sqlEngine deviceID ⟨T, l⟩ =
      (((scanNames (selectRoles T deviceID) []).1, none), ⟨T, l ++ [.selectRoles deviceID]⟩) := by
  have h := (scanNames_str (selectRoles_str T deviceID) []).1
  simp only [GetRolesByDeviceID, Query, QueryRows, Except.map, sqlEngine, run]
  rw [Prod.ext_iff]
  exact ⟨Prod.ext rfl h, rfl⟩

theorem GetPowerStatesByDeviceID_sql (T : Tables) (l : List Stmt) (deviceID : Int) :
    GetPowerStatesByDeviceID sqlEngine deviceID ⟨T, l⟩ =
      (((scanNames (selectPowerStates T deviceID) []).1, none),
        ⟨T, l ++ [.selectPowerStates deviceID]⟩) := by
  have h := (scanNames_str (selectPowerStates_str T deviceID) []).1
  simp only [GetPowerStatesByDeviceID, Query, QueryRows, Except.map, sqlEngine, run]
  rw [Prod.ext_iff]
  exact ⟨Prod.ext rfl h, rfl⟩

theorem GetDeviceCommands_sql (T : Tables) (l : List Stmt) (b r d : String) :
    GetDeviceCommandsByBuildingAndRoomAndName sqlEngine b r d ⟨T, l⟩ =
      (((ExtractCommand (selectCommands T r b d)).1, none),
        ⟨T, l ++ [.selectCommands r b d]⟩) := by
  have h := (extractCommandLoop_str (selectCommands_str T r b d) []).1
  simp only [GetDeviceCommandsByBuildingAndRoomAndName, Query, QueryRows, Except.map, sqlEngine, run]
  rw [Prod.ext_iff]
  exact ⟨Prod.ext rfl h, rfl⟩

theorem GetDevicePorts_sql (T : Tables) (l : List Stmt) (b r d : String) :
    GetDevicePortsByBuildingAndRoomAndName sqlEngine b r d ⟨T, l⟩ =
      (((portsLoop (selectPorts T r b d) []).1, none), ⟨T, l ++ [.selectPorts r b d]⟩) := by
  have h := (portsLoop_str (selectPorts_str T r b d) []).1
  simp only [GetDevicePortsByBuildingAndRoomAndName, Query, QueryRows, Except.map, sqlEngine, run]
  rw [Prod.ext_iff]
  exact ⟨Prod.ext rfl h, rfl⟩

/-! ## The relational engine: what `GetDevicesByQuery` delivers -/

theorem scanDevice_columns (j : Joined) :
    scanDevice j.columns = .ok
      { Device.zero with
        ID := j.device.deviceID, Name := j.device.name, Address := j.device.address,
        Input := j.device.input, Output := j.device.output,
        DisplayName := j.device.displayName,
        Room := { Room.zero with
          ID := j.room.roomID, Name := j.room.name, Description := j.room.description,
          RoomDesignation := j.room.roomDesignation },
        Building := ⟨j.building.buildingID, j.building.name, j.building.shortName,
          j.building.description⟩,
        Type' := j.deviceClass.name, Class := j.deviceType.typeName } := rfl

/-- On the relational engine the loop body never fails on a row of the fixed
join: the device carries the joined columns and what the four queries deliver. -/
theorem deviceOfRow_sql (T : Tables) (l : List Stmt) (j : Joined) :
    deviceOfRow sqlEngine j.columns ⟨T, l⟩ =
      (({ Device.zero with
          ID := j.device.deviceID, Name := j.device.name, Address := j.device.address,
          Input := j.device.input, Output := j.device.output,
          DisplayName := j.device.displayName,
          Room := { Room.zero with
            ID := j.room.roomID, Name := j.room.name, Description := j.room.description,
            RoomDesignation := j.room.roomDesignation },
          Building := ⟨j.building.buildingID, j.building.name, j.building.shortName,
            j.building.description⟩,
          Type' := j.deviceClass.name, Class := j.deviceType.typeName,
          Commands := (ExtractCommand
            (selectCommands T j.room.name j.building.shortName j.device.name)).1,
          Ports := (portsLoop
            (selectPorts T j.room.name j.building.shortName j.device.name) []).1,
          PowerStates := (scanNames (selectPowerStates T j.device.deviceID) []).1,
          Roles := (scanNames (selectRoles T j.device.deviceID) []).1 }, none),
        ⟨T, l ++ [.selectCommands j.room.name j.building.shortName j.device.name,
          .selectPorts j.room.name j.building.shortName j.device.name,
          .selectPowerStates j.device.deviceID, .selectRoles j.device.deviceID]⟩) := by
  unfold deviceOfRow
  rw [scanDevice_columns]
  simp only [GetDeviceCommands_sql, GetDevicePorts_sql, GetPowerStatesByDeviceID_sql,
    GetRolesByDeviceID_sql, List.append_assoc, List.singleton_append, List.cons_append,
    List.nil_append]

/-- The device the engine assembles for a row does not depend on the record of
sent statements, and the tables stay as they are. -/
theorem deviceOfRow_sql_eq (T : Tables) (l : List Stmt) (j : Joined) :
    ∃ l', deviceOfRow sqlEngine j.columns ⟨T, l⟩ =
      (((deviceOfRow sqlEngine j.columns ⟨T, []⟩).1.1, none), ⟨T, l'⟩) := by
  rw [deviceOfRow_sql T l j, deviceOfRow_sql T [] j]
  exact ⟨_, rfl⟩

theorem devicesLoop_sql (T : Tables) (rows : List Row) (h : ∀ row ∈ rows, ∃ j : Joined, row = j.columns) :
    ∀ (acc : List Device) (l : List Stmt), ∃ l',
      devicesLoop sqlEngine rows acc ⟨T, l⟩ =
        ((acc ++ rows.map fun row => (deviceOfRow sqlEngine row ⟨T, []⟩).1.1, none),
          ⟨T, l'⟩) := by
  induction rows with
  | nil => intro acc l; exact ⟨l, by simp [devicesLoop]⟩
  | cons row rest ih =>
    intro acc l
    obtain ⟨j, rfl⟩ := h _ (List.mem_cons_self _ _)
    obtain ⟨l1, h1⟩ := deviceOfRow_sql_eq T l j
    obtain ⟨l2, h2⟩ := ih (fun r hr => h r (List.mem_cons_of_mem _ hr))
      (acc ++ [(deviceOfRow sqlEngine j.columns ⟨T, []⟩).1.1]) l1
    refine ⟨l2, ?_⟩
    simp only [devicesLoop, h1, h2, List.map_cons, List.append_assoc, List.singleton_append]

/-- On the relational engine, with a fragment it reads, `GetDevicesByQuery`
returns without error one device for each distinct selected row of the filtered
join, and the tables stay as they are. -/
theorem GetDevicesByQuery_sql (T : Tables) (l : List Stmt) (query : String)
    (parameters : List Value) (p : Joined → Bool)
    (hp : fragmentFilter query parameters = some p) :
    ∃ l', GetDevicesByQuery sqlEngine query parameters ⟨T, l⟩ =
      (((((joinDevices T).filter p).map Joined.columns).dedup.map fun row =>
          (deviceOfRow sqlEngine row ⟨T, []⟩).1.1, none), ⟨T, l'⟩) := by
  have hrows : ∀ row ∈ (((joinDevices T).filter p).map Joined.columns).dedup,
      ∃ j : Joined, row = j.columns := by
    intro row hrow
    rw [List.mem_dedup, List.mem_map] at hrow
    obtain ⟨j, _, rfl⟩ := hrow
    exact ⟨j, rfl⟩
  obtain ⟨l', h⟩ := devicesLoop_sql T _ hrows [] (l ++ [.selectDevices query parameters])
  refine ⟨l', ?_⟩
  have hq : Query sqlEngine (.selectDevices query parameters) ⟨T, l⟩ =
      (.ok (((joinDevices T).filter p).map Joined.columns).dedup,
        ⟨T, l ++ [.selectDevices query parameters]⟩) := by
    simp only [Query, QueryRows, Except.map, sqlEngine, run, selectDevices, hp]
  unfold GetDevicesByQuery
  rw [hq]
  simp only
  rw [h, List.nil_append]

theorem GetDevicesByQuery_sql_mem (T : Tables) (l : List Stmt) (query : String)
    (parameters : List Value) (p : Joined → Bool)
    (hp : fragmentFilter query parameters = some p) (d : Device) :
    d ∈ (GetDevicesByQuery sqlEngine query parameters ⟨T, l⟩).1.1 ↔
      ∃ j ∈ joinDevices T, p j = true ∧ d = (deviceOfRow sqlEngine j.columns ⟨T, []⟩).1.1 := by
  obtain ⟨l', h⟩ := GetDevicesByQuery_sql T l query parameters p hp
  rw [h]
  simp only [List.mem_map, List.mem_dedup, List.mem_filter]
  constructor
  · rintro ⟨row, ⟨j, ⟨hj, hpj⟩, rfl⟩, rfl⟩
    exact ⟨j, hj, hpj, rfl⟩
  · rintro ⟨j, hj, hpj, rfl⟩
    exact ⟨_, ⟨j, ⟨hj, hpj⟩, rfl⟩, rfl⟩

theorem mem_joinDevices (T : Tables) (j : Joined) :
    j ∈ joinDevices T ↔
      j.device ∈ T.Devices ∧
      (j.room ∈ T.Rooms ∧ j.room.roomID = j.device.roomID) ∧
      (j.building ∈ T.Buildings ∧ j.building.buildingID = j.device.buildingID) ∧
      (j.deviceClass ∈ T.DeviceClasses ∧ j.deviceClass.deviceClassID = j.device.classID) ∧
      (j.deviceType ∈ T.DeviceTypes ∧ j.deviceType.deviceTypeID = j.device.typeID) ∧
      (j.deviceRole ∈ T.DeviceRole ∧ j.deviceRole.deviceID = j.device.deviceID) ∧
      (j.roleDefinition ∈ T.DeviceRoleDefinition ∧
        j.roleDefinition.deviceRoleDefinitionID = j.deviceRole.deviceRoleDefinitionID) := by
  rcases j with ⟨d, r, b, dc, dt, dr, rd⟩
  simp only [joinDevices, List.mem_flatMap, List.mem_filter, List.mem_map, decide_eq_true_eq,
    Joined.mk.injEq]
  constructor
  · rintro ⟨d', hd, r', hr, b', hb, dc', hdc, dt', hdt, dr', hdr, rd', hrd, rfl, rfl, rfl, rfl,
      rfl, rfl, rfl⟩
    exact ⟨hd, hr, hb, hdc, hdt, hdr, hrd⟩
  · rintro ⟨hd, hr, hb, hdc, hdt, hdr, hrd⟩
    exact ⟨d, hd, r, hr, b, hb, dc, hdc, dt, hdt, dr, hdr, rd, hrd, rfl, rfl, rfl, rfl, rfl,
      rfl, rfl⟩

theorem lookup_eq_some (name : String) (k : Kind)
    (h : acceptableColumnNames.lookup name = some k) :
    (k = .string ∧ (name = "address" ∨ name = "displayName")) ∨
    (k = .bool ∧ (name = "input" ∨ name = "output")) ∨
    (k = .int ∧ (name = "buildingID" ∨ name = "roomID" ∨ name = "classID" ∨
      name = "typeID")) := by
  simp only [acceptableColumnNames, List.lookup] at h
  repeat' split at h
  all_goals simp_all

/-! ## `SetDeviceAttribute`: the re-fetch after the write -/

theorem fragmentFilter_deviceID (deviceID : Int) :
    fragmentFilter " WHERE Devices.DeviceID = ?" [.int deviceID] =
      some fun j => decide (j.device.deviceID = deviceID) := rfl

theorem GetDeviceById_sql_log (T : Tables) (l l2 : List Stmt) (deviceID : Int) :
    (GetDeviceById sqlEngine deviceID ⟨T, l⟩).1 = (GetDeviceById sqlEngine deviceID ⟨T, l2⟩).1 ∧
      (GetDeviceById sqlEngine deviceID ⟨T, l⟩).2.store = T := by
  obtain ⟨l', h⟩ := GetDevicesByQuery_sql T l _ _ _ (fragmentFilter_deviceID deviceID)
  obtain ⟨l2', h2⟩ := GetDevicesByQuery_sql T l2 _ _ _ (fragmentFilter_deviceID deviceID)
  unfold GetDeviceById
  rw [h, h2]
  simp only
  split <;> exact ⟨rfl, rfl⟩

theorem GetDeviceById_sql_ok (T : Tables) (l : List Stmt) (deviceID : Int) (d : Device)
    (c' : Conn Tables) (h : GetDeviceById sqlEngine deviceID ⟨T, l⟩ = ((d, none), c')) :
    c'.store = T ∧ ∃ j ∈ joinDevices T, j.device.deviceID = deviceID ∧
      d = (deviceOfRow sqlEngine j.columns ⟨T, []⟩).1.1 := by
  have hs := (GetDeviceById_sql_log T l l deviceID).2
  rw [h] at hs
  refine ⟨hs, ?_⟩
  have hm := GetDevicesByQuery_sql_mem T l _ _ _ (fragmentFilter_deviceID deviceID) d
  unfold GetDeviceById at h
  generalize GetDevicesByQuery sqlEngine " WHERE Devices.DeviceID = ?" [.int deviceID] ⟨T, l⟩ = x
    at h hm
  rcases x with ⟨⟨_ | ⟨d0, ds⟩, _ | e⟩, c1⟩
  · simp at h
  · simp at h
  · simp only [Prod.mk.injEq, and_true] at h
    obtain ⟨rfl, _⟩ := h
    obtain ⟨j, hj, hp, hd⟩ := hm.mp (List.mem_cons_self _ _)
    exact ⟨j, hj, by simpa using hp, hd⟩
  · simp at h

theorem setColumn_deviceID (column : String) (value : Value) (r : DeviceRow) :
    ((setColumn column value r).getD r).deviceID = r.deviceID := by
  unfold setColumn
  cases value <;> simp only [Option.getD_none] <;> (repeat' split) <;> rfl

theorem mem_updateRows (set : DeviceRow → DeviceRow) (deviceID : Int) (rows : List DeviceRow)
    (row : DeviceRow) (h : row ∈ updateRows set deviceID rows) (hid : row.deviceID = deviceID) :
    ∃ r ∈ rows, row = set r := by
  simp only [updateRows, List.mem_map] at h
  obtain ⟨r, hr, rfl⟩ := h
  by_cases hrid : r.deviceID = deviceID
  · exact ⟨r, hr, by simp [hrid]⟩
  · simp only [hrid, if_false] at hid

/-- What a successful `SetDeviceAttribute` sent, generically: one update with the
validated value, followed by the common tail. -/
theorem SetDeviceAttribute_ok_sent {σ : Type} (db : Database σ) (info : DeviceAttributeInfo)
    (c c' : Conn σ) (d : Device) (h : SetDeviceAttribute db info c = ((d, none), c')) :
    ∃ v, afterUpdate db info (Exec db (.updateDevices info.AttributeName v info.DeviceID) c) =
        ((d, none), c') ∧
      (((info.AttributeName = "address" ∨ info.AttributeName = "displayName") ∧
          v = .str info.AttributeValue) ∨
        ((info.AttributeName = "input" ∨ info.AttributeName = "output") ∧
          v = .bool (decide (info.AttributeValue = "true"))) ∨
        ((info.AttributeName = "buildingID" ∨ info.AttributeName = "roomID" ∨
            info.AttributeName = "classID" ∨ info.AttributeName = "typeID") ∧
          ∃ n, Atoi info.AttributeValue = .ok n ∧ v = .int n)) := by
  unfold SetDeviceAttribute at h
  rcases hk : acceptableColumnNames.lookup info.AttributeName with _ | k
  · rw [hk] at h; simp at h
  · rw [hk] at h
    rcases lookup_eq_some _ _ hk with ⟨rfl, hn⟩ | ⟨rfl, hn⟩ | ⟨rfl, hn⟩
    · exact ⟨_, h, Or.inl ⟨hn, rfl⟩⟩
    · simp only at h
      by_cases hf : info.AttributeValue = "false"
      · simp only [hf, if_true] at h
        refine ⟨.bool false, h, Or.inr (Or.inl ⟨hn, ?_⟩)⟩
        simp [hf]
      · by_cases ht : info.AttributeValue = "true"
        · simp only [hf, ht, if_false, if_true] at h
          have h' := h
          simp only [show ("true" = "false") = False by simp, if_false] at h'
          exact ⟨.bool true, h', Or.inr (Or.inl ⟨hn, by simp [ht]⟩)⟩
        · simp only [hf, ht, if_false] at h
          simp at h
    · simp only at h
      rcases ha : Atoi info.AttributeValue with e | n
      · rw [ha] at h; simp at h
      · rw [ha] at h
        exact ⟨.int n, h, Or.inr (Or.inr ⟨hn, n, rfl, rfl⟩)⟩

theorem Exec_sql_update (T : Tables) (l : List Stmt) (column : String) (v : Value)
    (deviceID : Int)
    (hs : ∃ r', setColumn column v DeviceRow.zero = some r') :
    Exec sqlEngine (.updateDevices column v deviceID) ⟨T, l⟩ =
      (.ok ⟨(0, none),
          ((changedRows (fun r => (setColumn column v r).getD r) deviceID T.Devices : Nat),
            none)⟩,
        ⟨{ T with
            Devices := updateRows (fun r => (setColumn column v r).getD r) deviceID T.Devices },
          l ++ [.updateDevices column v deviceID]⟩) := by
  obtain ⟨r', hr⟩ := hs
  simp only [Exec, sqlEngine, run, hr]

theorem setColumn_some (column value : String) (v : Value)
    (h : ((column = "address" ∨ column = "displayName") ∧ v = .str value) ∨
      ((column = "input" ∨ column = "output") ∧ v = .bool (decide (value = "true"))) ∨
      ((column = "buildingID" ∨ column = "roomID" ∨ column = "classID" ∨ column = "typeID") ∧
        ∃ n, Atoi value = .ok n ∧ v = .int n)) (r : DeviceRow) :
    ∃ r', setColumn column v r = some r' := by
  rcases h with ⟨h | h, rfl⟩ | ⟨h | h, rfl⟩ | ⟨h | h | h | h, n, _, rfl⟩ <;> subst h <;>
    simp [setColumn]

/-- A successful `SetDeviceAttribute` on the relational engine: the tables it
leaves are the tables after the update, and the device it returns is assembled
from a joined row of those tables whose device row has the wanted id and is an
updated row. -/
theorem SetDeviceAttribute_sql_ok (T : Tables) (log : List Stmt) (info : DeviceAttributeInfo)
    (d : Device) (c' : Conn Tables)
    (h : SetDeviceAttribute sqlEngine info ⟨T, log⟩ = ((d, none), c')) :
    ∃ v,
      (((info.AttributeName = "address" ∨ info.AttributeName = "displayName") ∧
          v = .str info.AttributeValue) ∨
        ((info.AttributeName = "input" ∨ info.AttributeName = "output") ∧
          v = .bool (decide (info.AttributeValue = "true"))) ∨
        ((info.AttributeName = "buildingID" ∨ info.AttributeName = "roomID" ∨
            info.AttributeName = "classID" ∨ info.AttributeName = "typeID") ∧
          ∃ n, Atoi info.AttributeValue = .ok n ∧ v = .int n)) ∧
      c'.store = { T with
        Devices := updateRows (fun r => (setColumn info.AttributeName v r).getD r)
          info.DeviceID T.Devices } ∧
      (∀ l, (GetDeviceById sqlEngine info.DeviceID ⟨c'.store, l⟩).1 = (d, none)) ∧
      ∃ j ∈ joinDevices c'.store, j.device.deviceID = info.DeviceID ∧
        d = (deviceOfRow sqlEngine j.columns ⟨c'.store, []⟩).1.1 ∧
        ∃ r ∈ T.Devices, j.device = (setColumn info.AttributeName v r).getD r := by
  obtain ⟨v, hafter, hv⟩ := SetDeviceAttribute_ok_sent sqlEngine info _ _ d h
  refine ⟨v, hv, ?_⟩
  rw [Exec_sql_update T log _ v _ (setColumn_some _ _ v hv _)] at hafter
  unfold afterUpdate at hafter
  simp only at hafter
  split at hafter
  · simp at hafter
  · obtain ⟨hstore, j, hj, hid, hd⟩ := GetDeviceById_sql_ok _ _ _ _ _ hafter
    rw [hstore]
    refine ⟨rfl, fun l => ?_, j, hj, hid, hd, ?_⟩
    · rw [(GetDeviceById_sql_log _ l _ info.DeviceID).1, hafter]
    · have hmem := ((mem_joinDevices _ j).mp hj).1
      simp only at hmem
      exact mem_updateRows _ _ _ _ hmem hid

/-- C5. Re-fetch after write, on the relational engine. When `SetDeviceAttribute`
succeeds: the tables it leaves are those the update statement left; the device
it returns is what `GetDeviceById(info.DeviceID)` returns on those tables; its id
is the requested id; and the mutated field shows the new value: `Address` and
`DisplayName` are the given string, `Input` and `Output` the parsed boolean,
`Building.ID` and `Room.ID` the parsed integer, and for `classID` and `typeID`
the name shown is that of the class, or type, with the parsed id. -/
theorem SetDeviceAttribute_refetch (T : Tables) (log : List Stmt) (info : DeviceAttributeInfo)
    (d : Device) (c' : Conn Tables)
    (h : SetDeviceAttribute sqlEngine info ⟨T, log⟩ = ((d, none), c')) :
    (∃ v res, sqlEngine.Exec (.updateDevices info.AttributeName v info.DeviceID) T =
      (.ok res, c'.store)) ∧
    (∀ l, (GetDeviceById sqlEngine info.DeviceID ⟨c'.store, l⟩).1 = (d, none)) ∧
    d.ID = info.DeviceID ∧
    (info.AttributeName = "address" → d.Address = info.AttributeValue) ∧
    (info.AttributeName = "displayName" → d.DisplayName = info.AttributeValue) ∧
    (info.AttributeName = "input" → d.Input = decide (info.AttributeValue = "true")) ∧
    (info.AttributeName = "output" → d.Output = decide (info.AttributeValue = "true")) ∧
    (info.AttributeName = "buildingID" → Atoi info.AttributeValue = .ok d.Building.ID) ∧
    (info.AttributeName = "roomID" → Atoi info.AttributeValue = .ok d.Room.ID) ∧
    (info.AttributeName = "classID" → ∃ dc ∈ c'.store.DeviceClasses,
      Atoi info.AttributeValue = .ok dc.deviceClassID ∧ d.Type' = dc.name) ∧
    (info.AttributeName = "typeID" → ∃ dt ∈ c'.store.DeviceTypes,
      Atoi info.AttributeValue = .ok dt.deviceTypeID ∧ d.Class = dt.typeName) := by
  obtain ⟨v, hv, hstore, hget, j, hj, hid, hd, r, hr, hjr⟩ :=
    SetDeviceAttribute_sql_ok T log info d c' h
  obtain ⟨deviceID, name, value⟩ := info
  simp only at hv hstore hget hid hjr h ⊢
  have hex : ∃ v res, sqlEngine.Exec (.updateDevices name v deviceID) T =
      (.ok res, c'.store) := by
    obtain ⟨r', hr'⟩ := setColumn_some name value v hv DeviceRow.zero
    exact ⟨v, _, by simp only [sqlEngine, run, hr', hstore]; rfl⟩
  rw [deviceOfRow_sql] at hd
  obtain ⟨-, ⟨-, hroom⟩, ⟨-, hbuilding⟩, ⟨hdc, hclass⟩, ⟨hdt, htype⟩, -, -⟩ :=
    (mem_joinDevices _ j).mp hj
  have hID : d.ID = deviceID := by rw [hd]; exact hid
  refine ⟨hex, hget, hID, ?_⟩
  rcases hv with ⟨hn | hn, rfl⟩ | ⟨hn | hn, rfl⟩ | ⟨hn | hn | hn | hn, n, ha, rfl⟩ <;>
    subst hn <;> simp only [setColumn, if_true, Option.getD_some,
      show ("displayName" = "address") = False by simp,
      show ("output" = "input") = False by simp,
      show ("roomID" = "buildingID") = False by simp,
      show ("classID" = "buildingID") = False by simp,
      show ("classID" = "roomID") = False by simp,
      show ("typeID" = "buildingID") = False by simp,
      show ("typeID" = "roomID") = False by simp,
      show ("typeID" = "classID") = False by simp, if_false] at hjr
  · have f : d.Address = value := by rw [hd, hjr]
    refine ⟨?_, ?_, ?_, ?_, ?_, ?_, ?_, ?_⟩ <;> intro hx <;>
      first | exact absurd hx (by decide) | exact f
  · have f : d.DisplayName = value := by rw [hd, hjr]
    refine ⟨?_, ?_, ?_, ?_, ?_, ?_, ?_, ?_⟩ <;> intro hx <;>
      first | exact absurd hx (by decide) | exact f
  · have f : d.Input = decide (value = "true") := by rw [hd, hjr]
    refine ⟨?_, ?_, ?_, ?_, ?_, ?_, ?_, ?_⟩ <;> intro hx <;>
      first | exact absurd hx (by decide) | exact f
  · have f : d.Output = decide (value = "true") := by rw [hd, hjr]
    refine ⟨?_, ?_, ?_, ?_, ?_, ?_, ?_, ?_⟩ <;> intro hx <;>
      first | exact absurd hx (by decide) | exact f
  · have f : Atoi value = .ok d.Building.ID := by
      rw [ha, hd]; simp only [hbuilding, hjr]
    refine ⟨?_, ?_, ?_, ?_, ?_, ?_, ?_, ?_⟩ <;> intro hx <;>
      first | exact absurd hx (by decide) | exact f
  · have f : Atoi value = .ok d.Room.ID := by
      rw [ha, hd]; simp only [hroom, hjr]
    refine ⟨?_, ?_, ?_, ?_, ?_, ?_, ?_, ?_⟩ <;> intro hx <;>
      first | exact absurd hx (by decide) | exact f
  · have f : ∃ dc ∈ c'.store.DeviceClasses,
        Atoi value = .ok dc.deviceClassID ∧ d.Type' = dc.name :=
      ⟨j.deviceClass, hdc, by rw [ha, hclass, hjr], by rw [hd]⟩
    refine ⟨?_, ?_, ?_, ?_, ?_, ?_, ?_, ?_⟩ <;> intro hx <;>
      first | exact absurd hx (by decide) | exact f
  · have f : ∃ dt ∈ c'.store.DeviceTypes,
        Atoi value = .ok dt.deviceTypeID ∧ d.Class = dt.typeName :=
      ⟨j.deviceType, hdt, by rw [ha, htype, hjr], by rw [hd]⟩
    refine ⟨?_, ?_, ?_, ?_, ?_, ?_, ?_, ?_⟩ <;> intro hx <;>
      first | exact absurd hx (by decide) | exact f

/-- Instance of `SetDeviceAttribute_refetch` on the sample store. -/
theorem SetDeviceAttribute_refetch_witness :
    (SetDeviceAttribute sqlEngine ⟨1, "address", "10.0.0.9"⟩ sampleConn).1.1.Address =
      "10.0.0.9" :=
  (SetDeviceAttribute_refetch sampleTables [] ⟨1, "address", "10.0.0.9"⟩
    (SetDeviceAttribute sqlEngine ⟨1, "address", "10.0.0.9"⟩ sampleConn).1.1
    (SetDeviceAttribute sqlEngine ⟨1, "address", "10.0.0.9"⟩ sampleConn).2 rfl).2.2.2.1 rfl

/-! ## `GetDevicesByQuery`: what the aggregates hold -/

theorem mem_roles_sql (T : Tables) (deviceID : Int) (n : String) :
    n ∈ (scanNames (selectRoles T deviceID) []).1 ↔
      ∃ dr ∈ T.DeviceRole, dr.deviceID = deviceID ∧ ∃ rd ∈ T.DeviceRoleDefinition,
        rd.deviceRoleDefinitionID = dr.deviceRoleDefinitionID ∧ rd.name = n := by
  rw [(scanNames_str (selectRoles_str T deviceID) []).2 n]
  simp only [List.not_mem_nil, false_or, selectRoles, List.mem_flatMap, List.mem_map,
    List.mem_filter, decide_eq_true_eq, List.cons.injEq, Value.str.injEq, and_true]
  constructor
  · rintro ⟨rd, hrd, dr, ⟨⟨hdr, h1⟩, h2⟩, h3⟩
    exact ⟨dr, hdr, h2, rd, hrd, h1.symm, h3⟩
  · rintro ⟨dr, hdr, h2, rd, hrd, h1, h3⟩
    exact ⟨rd, hrd, dr, ⟨⟨hdr, h1.symm⟩, h2⟩, h3⟩

theorem mem_powerStates_sql (T : Tables) (deviceID : Int) (n : String) :
    n ∈ (scanNames (selectPowerStates T deviceID) []).1 ↔
      ∃ dps ∈ T.DevicePowerStates, dps.deviceID = deviceID ∧ ∃ ps ∈ T.PowerStates,
        ps.powerStateID = dps.powerStateID ∧ ps.name = n := by
  rw [(scanNames_str (selectPowerStates_str T deviceID) []).2 n]
  simp only [List.not_mem_nil, false_or, selectPowerStates, List.mem_flatMap, List.mem_map,
    List.mem_filter, decide_eq_true_eq, List.cons.injEq, Value.str.injEq, and_true]
  constructor
  · rintro ⟨ps, hps, dps, ⟨⟨hdps, h1⟩, h2⟩, h3⟩
    exact ⟨dps, hdps, h2, ps, hps, h1.symm, h3⟩
  · rintro ⟨dps, hdps, h2, ps, hps, h1, h3⟩
    exact ⟨ps, hps, dps, ⟨⟨hdps, h1.symm⟩, h2⟩, h3⟩

theorem mem_ports_sql (T : Tables) (roomName buildingShortname deviceName : String)
    (port : Port) :
    port ∈ (portsLoop (selectPorts T roomName buildingShortname deviceName) []).1 ↔
      ∃ pc ∈ T.PortConfiguration, ∃ p ∈ T.Ports, p.portID = pc.portID ∧
        ∃ src ∈ T.Devices, src.deviceID = pc.sourceDeviceID ∧
        ∃ dest ∈ T.Devices, dest.deviceID = pc.destinationDeviceID ∧
        ∃ host ∈ T.Devices, host.deviceID = pc.hostDeviceID ∧ host.name = deviceName ∧
        ∃ r ∈ T.Rooms, r.roomID = dest.roomID ∧ r.name = roomName ∧
        ∃ b ∈ T.Buildings, b.buildingID = r.buildingID ∧ b.shortName = buildingShortname ∧
        port = ⟨src.name, p.name, dest.name, host.name⟩ := by
  rw [(portsLoop_str (selectPorts_str T roomName buildingShortname deviceName) []).2 port]
  rcases port with ⟨s, n, d, h⟩
  simp only [List.not_mem_nil, false_or, selectPorts, List.mem_flatMap, List.mem_map,
    List.mem_filter, decide_eq_true_eq, List.cons.injEq, Value.str.injEq, and_true,
    Port.mk.injEq]
  constructor
  · rintro ⟨p, hp, pc, ⟨hpc, h1⟩, src, ⟨hsrc, h2⟩, dest, ⟨hdest, h3⟩, host, ⟨hhost, h4⟩, r,
      ⟨hr, h5⟩, b, ⟨⟨hb, h6⟩, h7, h8, h9⟩, e1, e2, e3, e4⟩
    exact ⟨pc, hpc, p, hp, h1, src, hsrc, h2, dest, hdest, h3, host, hhost, h4, h9, r, hr, h5,
      h7, b, hb, h6.symm, h8, e1.symm, e2.symm, e3.symm, e4.symm⟩
  · rintro ⟨pc, hpc, p, hp, h1, src, hsrc, h2, dest, hdest, h3, host, hhost, h4, h9, r, hr, h5,
      h7, b, hb, h6, h8, e1, e2, e3, e4⟩
    exact ⟨p, hp, pc, ⟨hpc, h1⟩, src, ⟨hsrc, h2⟩, dest, ⟨hdest, h3⟩, host, ⟨hhost, h4⟩, r,
      ⟨hr, h5⟩, b, ⟨⟨hb, h6.symm⟩, h7, h8, h9⟩, e1.symm, e2.symm, e3.symm, e4.symm⟩

theorem mem_commands_sql (T : Tables) (roomName buildingShortname deviceName : String)
    (cmd : Command) :
    cmd ∈ (ExtractCommand (selectCommands T roomName buildingShortname deviceName)).1 ↔
      ∃ dev ∈ T.Devices, dev.name = deviceName ∧
        ∃ r ∈ T.Rooms, r.roomID = dev.roomID ∧ r.name = roomName ∧
        ∃ b ∈ T.Buildings, b.buildingID = r.buildingID ∧ b.shortName = buildingShortname ∧
        ∃ dt ∈ T.DeviceTypes, dt.deviceTypeID = dev.typeID ∧
        ∃ tc ∈ T.DeviceTypeCommandMapping, tc.deviceTypeID = dt.deviceTypeID ∧
        ∃ c ∈ T.Commands, c.commandID = tc.commandID ∧
        ∃ ep ∈ T.Endpoints, ep.endpointID = tc.endpointID ∧
        ∃ ms ∈ T.Microservices, ms.microserviceID = tc.microserviceID ∧
        cmd = ⟨c.name, ⟨ep.name, ep.path⟩, ms.address⟩ := by
  unfold ExtractCommand
  rw [(extractCommandLoop_str (selectCommands_str T roomName buildingShortname deviceName)
    []).2 cmd]
  rcases cmd with ⟨n, ⟨en, epath⟩, m⟩
  simp only [List.not_mem_nil, false_or, selectCommands, List.mem_flatMap, List.mem_map,
    List.mem_filter, decide_eq_true_eq, List.cons.injEq, Value.str.injEq, and_true,
    Command.mk.injEq, Endpoint.mk.injEq]
  constructor
  · rintro ⟨dev, hdev, dt, ⟨hdt, h1⟩, tc, ⟨htc, h2⟩, c, ⟨hc, h3⟩, ep, ⟨hep, h4⟩, ms,
      ⟨hms, h5⟩, r, ⟨hr, h6⟩, b, ⟨⟨hb, h7⟩, h8, h9, h10⟩, e1, e2, e3, e4⟩
    exact ⟨dev, hdev, h10, r, hr, h6, h8, b, hb, h7.symm, h9, dt, hdt, h1, tc, htc, h2, c, hc,
      h3.symm, ep, hep, h4.symm, ms, hms, h5.symm, e1.symm, ⟨e2.symm, e3.symm⟩, e4.symm⟩
  · rintro ⟨dev, hdev, h10, r, hr, h6, h8, b, hb, h7, h9, dt, hdt, h1, tc, htc, h2, c, hc,
      h3, ep, hep, h4, ms, hms, h5, e1, ⟨e2, e3⟩, e4⟩
    exact ⟨dev, hdev, dt, ⟨hdt, h1⟩, tc, ⟨htc, h2⟩, c, ⟨hc, h3.symm⟩, ep, ⟨hep, h4.symm⟩, ms,
      ⟨hms, h5.symm⟩, r, ⟨hr, h6⟩, b, ⟨⟨hb, h7.symm⟩, h8, h9, h10⟩, e1.symm, e2.symm, e3.symm,
      e4.symm⟩

/-- C7, on the code. The base query of `GetDevicesByQuery` inner-joins
`DeviceRole`, so a device row without a role link is not returned, whatever the
filter: in the sample store, which holds the devices 1 and 2, the empty filter
returns device 1 only, and the filter "device id = 2" returns no device although
the row of device 2 satisfies it. The port query ties the room to the
destination device: in the store with a signal path across rooms, device 1 is
host of a port configuration whose destination device is in another room, and
the aggregate of device 1 has no port. -/
theorem GetDevicesByQuery_not_exact :
    (sampleTables.Devices.map (fun r => r.deviceID) = [1, 2] ∧
      (GetDevicesByQuery sqlEngine "" [] sampleConn).1.2 = none ∧
      (GetDevicesByQuery sqlEngine "" [] sampleConn).1.1.map (fun d => d.ID) = [1]) ∧
    ((⟨2, "D2", "10.0.0.2", true, false, 1, 1, 1, 1, "Display 2"⟩ : DeviceRow) ∈
        sampleTables.Devices ∧
      (GetDevicesByQuery sqlEngine " WHERE Devices.DeviceID = ?" [.int 2] sampleConn).1 =
        ([], none)) ∧
    ((⟨1, 1, 1, 3, 1⟩ : PortConfigurationRow) ∈ crossRoomTables.PortConfiguration ∧
      (GetDevicesByQuery sqlEngine " WHERE Devices.DeviceID = ?" [.int 1]
        ⟨crossRoomTables, []⟩).1.2 = none ∧
      (GetDevicesByQuery sqlEngine " WHERE Devices.DeviceID = ?" [.int 1]
        ⟨crossRoomTables, []⟩).1.1.map (fun d => (d.ID, d.Ports)) = [(1, [])]) := by
  refine ⟨⟨rfl, rfl, rfl⟩, ⟨by decide, rfl⟩, by decide, rfl, rfl⟩

/-- What `GetDevicesByQuery` returns on the relational engine for a fragment the
engine reads. It returns without error and leaves the tables as they are.
Every device row that satisfies the filter in the fixed join (with its room,
building, class, type and a role link with its definition) appears in the
result, and every returned aggregate shows the columns of such a row. For every
returned aggregate: its roles and power states are exactly the names linked to
its device id; its ports are exactly the port configurations whose host device
has its name and whose destination device is in a room of its room name in a
building of its building shortname; its commands are exactly the command
mappings of the types of the devices of its name in a room of its room name
whose building has its building shortname. -/
theorem GetDevicesByQuery_aggregates (T : Tables) (l : List Stmt) (query : String)
    (parameters : List Value) (p : Joined → Bool)
    (hp : fragmentFilter query parameters = some p) :
    (GetDevicesByQuery sqlEngine query parameters ⟨T, l⟩).1.2 = none ∧
    (GetDevicesByQuery sqlEngine query parameters ⟨T, l⟩).2.store = T ∧
    (∀ j ∈ joinDevices T, p j = true →
      ∃ d ∈ (GetDevicesByQuery sqlEngine query parameters ⟨T, l⟩).1.1,
        d.ID = j.device.deviceID ∧ d.Name = j.device.name ∧ d.Address = j.device.address ∧
        d.Input = j.device.input ∧ d.Output = j.device.output ∧
        d.DisplayName = j.device.displayName) ∧
    (∀ d ∈ (GetDevicesByQuery sqlEngine query parameters ⟨T, l⟩).1.1,
      (∃ j ∈ joinDevices T, p j = true ∧
        d.ID = j.device.deviceID ∧ d.Name = j.device.name ∧ d.Address = j.device.address ∧
        d.Input = j.device.input ∧ d.Output = j.device.output ∧
        d.DisplayName = j.device.displayName ∧
        d.Room.ID = j.room.roomID ∧ d.Room.Name = j.room.name ∧
        d.Room.Description = j.room.description ∧
        d.Room.RoomDesignation = j.room.roomDesignation ∧
        d.Building = ⟨j.building.buildingID, j.building.name, j.building.shortName,
          j.building.description⟩ ∧
        d.Type' = j.deviceClass.name ∧ d.Class = j.deviceType.typeName) ∧
      (∀ n, n ∈ d.Roles ↔
        ∃ dr ∈ T.DeviceRole, dr.deviceID = d.ID ∧ ∃ rd ∈ T.DeviceRoleDefinition,
          rd.deviceRoleDefinitionID = dr.deviceRoleDefinitionID ∧ rd.name = n) ∧
      (∀ n, n ∈ d.PowerStates ↔
        ∃ dps ∈ T.DevicePowerStates, dps.deviceID = d.ID ∧ ∃ ps ∈ T.PowerStates,
          ps.powerStateID = dps.powerStateID ∧ ps.name = n) ∧
      (∀ port, port ∈ d.Ports ↔
        ∃ pc ∈ T.PortConfiguration, ∃ p ∈ T.Ports, p.portID = pc.portID ∧
          ∃ src ∈ T.Devices, src.deviceID = pc.sourceDeviceID ∧
          ∃ dest ∈ T.Devices, dest.deviceID = pc.destinationDeviceID ∧
          ∃ host ∈ T.Devices, host.deviceID = pc.hostDeviceID ∧ host.name = d.Name ∧
          ∃ r ∈ T.Rooms, r.roomID = dest.roomID ∧ r.name = d.Room.Name ∧
          ∃ b ∈ T.Buildings, b.buildingID = r.buildingID ∧
            b.shortName = d.Building.Shortname ∧
          port = ⟨src.name, p.name, dest.name, host.name⟩) ∧
      (∀ cmd, cmd ∈ d.Commands ↔
        ∃ dev ∈ T.Devices, dev.name = d.Name ∧
          ∃ r ∈ T.Rooms, r.roomID = dev.roomID ∧ r.name = d.Room.Name ∧
          ∃ b ∈ T.Buildings, b.buildingID = r.buildingID ∧
            b.shortName = d.Building.Shortname ∧
          ∃ dt ∈ T.DeviceTypes, dt.deviceTypeID = dev.typeID ∧
          ∃ tc ∈ T.DeviceTypeCommandMapping, tc.deviceTypeID = dt.deviceTypeID ∧
          ∃ c ∈ T.Commands, c.commandID = tc.commandID ∧
          ∃ ep ∈ T.Endpoints, ep.endpointID = tc.endpointID ∧
          ∃ ms ∈ T.Microservices, ms.microserviceID = tc.microserviceID ∧
          cmd = ⟨c.name, ⟨ep.name, ep.path⟩, ms.address⟩)) := by
  have hmem := GetDevicesByQuery_sql_mem T l query parameters p hp
  obtain ⟨l', h⟩ := GetDevicesByQuery_sql T l query parameters p hp
  refine ⟨by rw [h], by rw [h], ?_, ?_⟩
  · intro j hj hpj
    refine ⟨_, (hmem _).mpr ⟨j, hj, hpj, rfl⟩, ?_⟩
    rw [deviceOfRow_sql]
    exact ⟨rfl, rfl, rfl, rfl, rfl, rfl⟩
  · intro d hd
    obtain ⟨j, hj, hpj, rfl⟩ := (hmem d).mp hd
    rw [deviceOfRow_sql]
    refine ⟨⟨j, hj, hpj, rfl, rfl, rfl, rfl, rfl, rfl, rfl, rfl, rfl, rfl, rfl, rfl, rfl⟩,
      ?_, ?_, ?_, ?_⟩
    · exact mem_roles_sql T _
    · exact mem_powerStates_sql T _
    · exact mem_ports_sql T _ _ _
    · exact mem_commands_sql T _ _ _

/-- Instance of `GetDevicesByQuery_aggregates` on the sample store. -/
theorem GetDevicesByQuery_aggregates_witness :
    (GetDevicesByQuery sqlEngine "WHERE Rooms.roomID = ?" [.int 1] sampleConn).1.2 = none :=
  (GetDevicesByQuery_aggregates sampleTables [] "WHERE Rooms.roomID = ?" [.int 1] _ rfl).1

/-! ## `MakeRoom`: the returned building -/

theorem Except.bind_ok {ε α β : Type} (x : Except ε α) (f : α → Except ε β) (b : β)
    (h : x >>= f = .ok b) : ∃ a, x = .ok a ∧ f a = .ok b := by
  cases x with
  | error e => simp [bind, Except.bind] at h
  | ok a => exact ⟨a, rfl, h⟩

theorem scanRoom_building (row : Row) (room : Room) (h : scanRoom row = .ok room) :
    room.Building.Name = "" ∧ room.Building.Shortname = "" := by
  unfold scanRoom at h
  split at h
  · obtain ⟨_, -, h⟩ := Except.bind_ok _ _ _ h
    obtain ⟨_, -, h⟩ := Except.bind_ok _ _ _ h
    obtain ⟨_, -, h⟩ := Except.bind_ok _ _ _ h
    obtain ⟨_, -, h⟩ := Except.bind_ok _ _ _ h
    obtain ⟨_, -, h⟩ := Except.bind_ok _ _ _ h
    obtain ⟨_, -, h⟩ := Except.bind_ok _ _ _ h
    obtain ⟨_, -, h⟩ := Except.bind_ok _ _ _ h
    obtain ⟨_, -, h⟩ := Except.bind_ok _ _ _ h
    obtain ⟨_, -, h⟩ := Except.bind_ok _ _ _ h
    simp only [pure, Except.pure, Except.ok.injEq] at h
    subst h
    exact ⟨rfl, rfl⟩
  · simp at h

theorem ExtractRoomData_building (rows : List Row) :
    ∀ (acc rooms : List Room) (e : Option Error), ExtractRoomData rows acc = (rooms, e) →
      (∀ r ∈ acc, r.Building.Name = "" ∧ r.Building.Shortname = "") →
      ∀ r ∈ rooms, r.Building.Name = "" ∧ r.Building.Shortname = "" := by
  induction rows with
  | nil =>
    intro acc rooms e h hacc
    simp only [ExtractRoomData, Prod.mk.injEq] at h
    rw [← h.1]; exact hacc
  | cons row rest ih =>
    intro acc rooms e h hacc
    unfold ExtractRoomData at h
    rcases hs : scanRoom row with e0 | room
    · rw [hs] at h
      simp only [Prod.mk.injEq] at h
      rw [← h.1]; exact hacc
    · rw [hs] at h
      refine ih _ _ _ h ?_
      intro r hr
      rcases List.mem_append.mp hr with hr | hr
      · exact hacc r hr
      · rw [List.mem_singleton.mp hr]
        exact scanRoom_building row room hs

theorem GetRoomByBuildingAndName_building {σ : Type} (db : Database σ) (s name : String)
    (c c' : Conn σ) (room : Room) (e : Option Error)
    (h : GetRoomByBuildingAndName db s name c = (.returned room e, c')) :
    room.Building.Name = "" ∧ room.Building.Shortname = "" := by
  unfold GetRoomByBuildingAndName at h
  generalize GetBuildingByShortname db s c = x at h
  rcases x with ⟨⟨b, _ | e1⟩, c1⟩
  swap
  · simp only [Prod.mk.injEq, Outcome.returned.injEq] at h
    rw [← h.1.1]; exact ⟨rfl, rfl⟩
  simp only at h
  generalize Query db (.selectRoomByBuildingAndName b.ID name) c1 = x at h
  rcases x with ⟨e2 | rows, c2⟩
  · simp only [Prod.mk.injEq, Outcome.returned.injEq] at h
    rw [← h.1.1]; exact ⟨rfl, rfl⟩
  simp only at h
  rcases hx : ExtractRoomData rows [] with ⟨rooms, _ | e3⟩
  swap
  · rw [hx] at h
    simp only [Prod.mk.injEq, Outcome.returned.injEq] at h
    rw [← h.1.1]; exact ⟨rfl, rfl⟩
  rw [hx] at h
  rcases rooms with _ | ⟨room0, rest⟩
  · simp at h
  have h0 := ExtractRoomData_building rows [] _ _ hx (by simp) room0 (List.mem_cons_self _ _)
  simp only at h
  generalize GetDevicesByBuildingAndRoom db s name c2 = x at h
  rcases x with ⟨⟨devices, _ | e4⟩, c3⟩
  swap
  · simp only [Prod.mk.injEq, Outcome.returned.injEq] at h
    rw [← h.1.1]; exact h0
  simp only at h
  generalize GetConfigurationByConfigurationID db room0.ConfigurationID c3 = x at h
  rcases x with ⟨⟨cfg, _ | e5⟩, c4⟩ <;>
  · simp only [Prod.mk.injEq, Outcome.returned.injEq] at h
    rw [← h.1.1]; exact h0

/-- C8, on the code: whatever the engine and the building, a room that
`MakeRoom` returns without error has an empty `Building.Shortname` and an empty
`Building.Name`, because the re-fetch overwrites the building it looked up with
the scanned row, which carries the building id only. -/
theorem MakeRoom_building_lost {σ : Type} (db : Database σ) (name s : String) (vlan : Int)
    (c c' : Conn σ) (room : Room) (h : MakeRoom db name s vlan c = (.returned room none, c')) :
    room.Building.Name = "" ∧ room.Building.Shortname = "" := by
  unfold MakeRoom at h
  generalize GetBuildingByShortname db s c = x at h
  rcases x with ⟨⟨b, _ | e1⟩, c1⟩
  swap
  · simp at h
  simp only at h
  generalize Exec db (.insertRoom name b.ID vlan) c1 = x at h
  rcases x with ⟨e2 | res, c2⟩
  · simp at h
  simp only at h
  rcases hx : GetRoomByBuildingAndName db b.Shortname name c2 with ⟨_ | _, c3⟩
  · rw [hx] at h
    rename_i room0 e0
    rcases e0 with _ | e0
    · simp only [Prod.mk.injEq, Outcome.returned.injEq, and_true] at h
      rw [← h.1]
      exact GetRoomByBuildingAndName_building db _ _ _ _ _ _ hx
    · simp at h
  · rw [hx] at h; simp at h

/-- Instance of `MakeRoom_building_lost` on the sample store. -/
theorem MakeRoom_building_lost_witness :
    ∃ room c', MakeRoom sqlEngine "101" "JKB" 210 ⟨buildingOnlyTables, []⟩ =
        (.returned room none, c') ∧
      room.Building.ID = 1 ∧ room.Devices = [] ∧
      room.Building.Name = "" ∧ room.Building.Shortname = "" :=
  ⟨_, _, rfl, rfl, rfl,
    MakeRoom_building_lost sqlEngine "101" "JKB" 210 ⟨buildingOnlyTables, []⟩ _ _ rfl⟩

/-! ## `AddDevice`: unknown role and power-state names -/

theorem lookupIdName_conn {σ : Type} (db : Database σ) (q : Stmt) (c : Conn σ) :
    (lookupIdName db q c).2 = (Query db q c).2 := by
  unfold lookupIdName
  generalize Query db q c = x
  rcases x with ⟨e | (_ | ⟨row, rows⟩), c1⟩
  · rfl
  · rfl
  · simp only
    rcases scanIdName row with e | b <;> rfl

theorem lookupIdName_empty {σ : Type} (db : Database σ) (q : Stmt) (c c1 : Conn σ)
    (h : Query db q c = (.ok [], c1)) : (lookupIdName db q c).1.2 = some ErrNoRows := by
  unfold lookupIdName
  rw [h]

theorem GetDeviceRoleDefByName_sql (T : Tables) (l : List Stmt) (name : String) :
    (GetDeviceRoleDefByName sqlEngine name ⟨T, l⟩).2 =
        ⟨T, l ++ [.selectDeviceRoleDefByName name]⟩ ∧
      ((∀ rd ∈ T.DeviceRoleDefinition, rd.name ≠ name) →
        (GetDeviceRoleDefByName sqlEngine name ⟨T, l⟩).1.2 = some ErrNoRows) := by
  have hq : Query sqlEngine (.selectDeviceRoleDefByName name) ⟨T, l⟩ =
      (.ok ((T.DeviceRoleDefinition.filter fun rd => rd.name = name).map fun rd =>
        [.int rd.deviceRoleDefinitionID, .str rd.name]),
        ⟨T, l ++ [.selectDeviceRoleDefByName name]⟩) := by
    simp only [Query, QueryRows, Except.map, sqlEngine, run]
  have h2 := lookupIdName_conn sqlEngine (.selectDeviceRoleDefByName name) ⟨T, l⟩
  rw [hq] at h2
  refine ⟨h2, fun h => ?_⟩
  have hf : (T.DeviceRoleDefinition.filter fun rd => rd.name = name) = [] := by
    rw [List.filter_eq_nil_iff]
    intro rd hrd
    simpa using h rd hrd
  rw [hf] at hq
  exact lookupIdName_empty _ _ _ _ hq

theorem GetPowerStateByName_sql (T : Tables) (l : List Stmt) (name : String) :
    (GetPowerStateByName sqlEngine name ⟨T, l⟩).2 =
        ⟨T, l ++ [.selectPowerStateByName name]⟩ ∧
      ((∀ ps ∈ T.PowerStates, ps.name ≠ name) →
        (GetPowerStateByName sqlEngine name ⟨T, l⟩).1.2 = some ErrNoRows) := by
  have hq : Query sqlEngine (.selectPowerStateByName name) ⟨T, l⟩ =
      (.ok ((T.PowerStates.filter fun ps => ps.name = name).map fun ps =>
        [.int ps.powerStateID, .str ps.name]),
        ⟨T, l ++ [.selectPowerStateByName name]⟩) := by
    simp only [Query, QueryRows, Except.map, sqlEngine, run]
  have h2 := lookupIdName_conn sqlEngine (.selectPowerStateByName name) ⟨T, l⟩
  rw [hq] at h2
  refine ⟨h2, fun h => ?_⟩
  have hf : (T.PowerStates.filter fun ps => ps.name = name) = [] := by
    rw [List.filter_eq_nil_iff]
    intro ps hps
    simpa using h ps hps
  rw [hf] at hq
  exact lookupIdName_empty _ _ _ _ hq

theorem resolveRoles_sql (T : Tables) (deviceID : Int) (roles : List String) :
    ∀ (acc : List DeviceRole) (l : List Stmt),
      (resolveRoles sqlEngine deviceID roles acc ⟨T, l⟩).2.store = T ∧
      ((∃ role ∈ roles, ∀ rd ∈ T.DeviceRoleDefinition, rd.name ≠ role) →
        (resolveRoles sqlEngine deviceID roles acc ⟨T, l⟩).1.2 ≠ none) := by
  induction roles with
  | nil => intro acc l; simp [resolveRoles]
  | cons role rest ih =>
    intro acc l
    obtain ⟨hc, herr⟩ := GetDeviceRoleDefByName_sql T l role
    unfold resolveRoles
    generalize GetDeviceRoleDefByName sqlEngine role ⟨T, l⟩ = x at hc herr
    rcases x with ⟨⟨r, _ | e⟩, c1⟩
    · simp only at hc herr ⊢
      subst hc
      refine ⟨(ih _ _).1, ?_⟩
      rintro ⟨role', hmem, hun⟩
      rcases List.mem_cons.mp hmem with rfl | hmem
      · simpa using herr hun
      · exact (ih _ _).2 ⟨role', hmem, hun⟩
    · simp only at hc ⊢
      subst hc
      exact ⟨rfl, fun _ => by simp⟩

theorem resolvePowerStates_sql (T : Tables) (deviceID : Int) (names : List String) :
    ∀ (acc : List DevicePowerState) (l : List Stmt),
      (resolvePowerStates sqlEngine deviceID names acc ⟨T, l⟩).2.store = T ∧
      ((∃ ps ∈ names, ∀ p ∈ T.PowerStates, p.name ≠ ps) →
        (resolvePowerStates sqlEngine deviceID names acc ⟨T, l⟩).1.2 ≠ none) := by
  induction names with
  | nil => intro acc l; simp [resolvePowerStates]
  | cons ps rest ih =>
    intro acc l
    obtain ⟨hc, herr⟩ := GetPowerStateByName_sql T l ps
    unfold resolvePowerStates
    generalize GetPowerStateByName sqlEngine ps ⟨T, l⟩ = x at hc herr
    rcases x with ⟨⟨r, _ | e⟩, c1⟩
    · simp only at hc herr ⊢
      subst hc
      refine ⟨(ih _ _).1, ?_⟩
      rintro ⟨ps', hmem, hun⟩
      rcases List.mem_cons.mp hmem with rfl | hmem
      · simpa using herr hun
      · exact (ih _ _).2 ⟨ps', hmem, hun⟩
    · simp only at hc ⊢
      subst hc
      exact ⟨rfl, fun _ => by simp⟩

/-- With an unknown role or power-state name, the part of `AddDevice` after the
device insert ends with an error before any link row is inserted. -/
theorem addDeviceLinks_unknown (T : Tables) (l : List Stmt) (d : Device)
    (h : (∃ role ∈ d.Roles, ∀ rd ∈ T.DeviceRoleDefinition, rd.name ≠ role) ∨
      (∃ ps ∈ d.PowerStates, ∀ p ∈ T.PowerStates, p.name ≠ ps)) :
    (addDeviceLinks sqlEngine d ⟨T, l⟩).1.2 ≠ none ∧
      (addDeviceLinks sqlEngine d ⟨T, l⟩).2.store = T := by
  unfold addDeviceLinks
  obtain ⟨hs1, he1⟩ := resolveRoles_sql T d.ID d.Roles [] l
  generalize resolveRoles sqlEngine d.ID d.Roles [] ⟨T, l⟩ = x at hs1 he1
  rcases x with ⟨⟨drs, _ | e⟩, ⟨T1, l1⟩⟩
  swap
  · exact ⟨by simp, hs1⟩
  simp only at hs1 he1 ⊢
  subst hs1
  obtain ⟨hs2, he2⟩ := resolvePowerStates_sql T1 d.ID d.PowerStates [] l1
  generalize resolvePowerStates sqlEngine d.ID d.PowerStates [] ⟨T1, l1⟩ = y at hs2 he2
  rcases y with ⟨⟨dps, _ | e⟩, ⟨T2, l2⟩⟩
  swap
  · exact ⟨by simp, hs2⟩
  simp only at hs2 he2
  rcases h with h | h
  · exact absurd rfl (he1 h)
  · exact absurd rfl (he2 h)

theorem GetDeviceTypeByName_sql (T : Tables) (l : List Stmt) (name : String) :
    (GetDeviceTypeByName sqlEngine name ⟨T, l⟩).2.store = T := by
  have h2 := lookupIdName_conn sqlEngine (.selectDeviceTypeByName name) ⟨T, l⟩
  exact congrArg Conn.store h2

theorem GetDeviceClassByName_sql (T : Tables) (l : List Stmt) (name : String) :
    (GetDeviceClassByName sqlEngine name ⟨T, l⟩).2.store = T := by
  have hq : (Query sqlEngine (.selectDeviceClassByName name) ⟨T, l⟩).2.store = T := rfl
  unfold GetDeviceClassByName
  generalize Query sqlEngine (.selectDeviceClassByName name) ⟨T, l⟩ = x at hq
  rcases x with ⟨e | (_ | ⟨row, rows⟩), c1⟩
  · exact hq
  · exact hq
  · simp only
    rcases scanDeviceClass row with e | b <;> exact hq

theorem GetDeviceByBuildingAndRoomAndName_sql (T : Tables) (l : List Stmt)
    (b r n : String) :
    (GetDeviceByBuildingAndRoomAndName sqlEngine b r n ⟨T, l⟩).2.store = T := by
  obtain ⟨l', h⟩ := GetDevicesByQuery_sql T l
    "WHERE Buildings.shortName = ? AND Rooms.name = ? AND Devices.name = ?"
    [.str b, .str r, .str n] _ rfl
  unfold GetDeviceByBuildingAndRoomAndName
  rw [h]
  split
  · rename_i heq; simp at heq
  · rename_i heq
    simp only [Prod.mk.injEq] at heq
    rw [← heq.2]
  · rename_i heq
    simp only [Prod.mk.injEq] at heq
    rw [← heq.2]

theorem foldl_max_ge (ids : List Int) : ∀ (m : Int), m ≤ ids.foldl max m ∧
    ∀ i ∈ ids, i ≤ ids.foldl max m := by
  induction ids with
  | nil => intro m; simp
  | cons a rest ih =>
    intro m
    simp only [List.foldl_cons, List.mem_cons]
    obtain ⟨h1, h2⟩ := ih (max m a)
    refine ⟨le_trans (le_max_left m a) h1, ?_⟩
    rintro i (rfl | hi)
    · exact le_trans (le_max_right m i) h1
    · exact h2 i hi

theorem lt_nextID (ids : List Int) (i : Int) (h : i ∈ ids) : i < nextID ids := by
  unfold nextID
  have := (foldl_max_ge ids 0).2 i h
  omega

/-- The tables `AddDevice` leaves when a role or power-state name is unknown:
the tables it found, or those with the one new device row appended. -/
theorem AddDevice_unknown_store (T : Tables) (l : List Stmt) (d : Device)
    (h : (∃ role ∈ d.Roles, ∀ rd ∈ T.DeviceRoleDefinition, rd.name ≠ role) ∨
      (∃ ps ∈ d.PowerStates, ∀ p ∈ T.PowerStates, p.name ≠ ps)) :
    (AddDevice sqlEngine d ⟨T, l⟩).1.2 ≠ none ∧
    ((AddDevice sqlEngine d ⟨T, l⟩).2.store = T ∨
      ∃ row : DeviceRow, row.deviceID = nextID (T.Devices.map fun d => d.deviceID) ∧
        (AddDevice sqlEngine d ⟨T, l⟩).2.store = { T with Devices := T.Devices ++ [row] }) := by
  unfold AddDevice
  have h1 := GetDeviceTypeByName_sql T l d.Type'
  generalize GetDeviceTypeByName sqlEngine d.Type' ⟨T, l⟩ = x1 at h1
  rcases x1 with ⟨⟨dt, _ | e⟩, ⟨T1, l1⟩⟩
  swap
  · simp only at h1; subst h1; exact ⟨by simp, Or.inl rfl⟩
  simp only at h1 ⊢
  subst h1
  have h2 := GetDeviceClassByName_sql T1 l1 d.Class
  generalize GetDeviceClassByName sqlEngine d.Class ⟨T1, l1⟩ = x2 at h2
  rcases x2 with ⟨⟨dc, _ | e⟩, ⟨T2, l2⟩⟩
  swap
  · simp only at h2; subst h2; exact ⟨by simp, Or.inl rfl⟩
  simp only at h2 ⊢
  subst h2
  have h3 := GetDeviceByBuildingAndRoomAndName_sql T2 l2 d.Building.Shortname d.Room.Name
    d.Name
  generalize GetDeviceByBuildingAndRoomAndName sqlEngine d.Building.Shortname d.Room.Name
    d.Name ⟨T2, l2⟩ = x3 at h3
  rcases x3 with ⟨⟨ex, err⟩, ⟨T3, l3⟩⟩
  simp only at h3 ⊢
  subst h3
  split
  · exact ⟨by simp, Or.inl rfl⟩
  · have hq : Exec sqlEngine (.insertDevice d.Name d.Address d.Input d.Output d.Building.ID
        d.Room.ID dt.ID dc.ID dc.DisplayName) ⟨T3, l3⟩ =
        (.ok (Result.inserted (nextID (T3.Devices.map fun d => d.deviceID))),
          ⟨{ T3 with
              Devices := T3.Devices ++
                [⟨nextID (T3.Devices.map fun d => d.deviceID), d.Name, d.Address, d.Input,
                  d.Output, d.Building.ID, d.Room.ID, dt.ID, dc.ID, dc.DisplayName⟩] },
            l3 ++ [.insertDevice d.Name d.Address d.Input d.Output d.Building.ID d.Room.ID
              dt.ID dc.ID dc.DisplayName]⟩) := by
      simp only [Exec, sqlEngine, run]
    rw [hq]
    simp only [Result.inserted]
    have hl := addDeviceLinks_unknown
      { T3 with
        Devices := T3.Devices ++
          [⟨nextID (T3.Devices.map fun d => d.deviceID), d.Name, d.Address, d.Input,
            d.Output, d.Building.ID, d.Room.ID, dt.ID, dc.ID, dc.DisplayName⟩] }
      (l3 ++ [.insertDevice d.Name d.Address d.Input d.Output d.Building.ID d.Room.ID
        dt.ID dc.ID dc.DisplayName])
      { d with ID := nextID (T3.Devices.map fun d => d.deviceID) } h
    exact ⟨hl.1, Or.inr ⟨_, rfl, hl.2⟩⟩

/-- C10, on the relational engine, with the lookups by name modelled as
read-only queries of the definition tables. When a role name of the device has
no row in `DeviceRoleDefinition`, or a power-state name of the device has no row
in `PowerStates`, `AddDevice` returns an error, and the tables `DeviceRole`,
`DevicePowerStates`, `DeviceRoleDefinition` and `PowerStates` are afterwards what
they were: no link row is added and no definition is created. When moreover
every stored link row refers to a stored device, no link row refers to a device
row that `AddDevice` added. -/
theorem AddDevice_unknown_name (T : Tables) (l : List Stmt) (d : Device)
    (h : (∃ role ∈ d.Roles, ∀ rd ∈ T.DeviceRoleDefinition, rd.name ≠ role) ∨
      (∃ ps ∈ d.PowerStates, ∀ p ∈ T.PowerStates, p.name ≠ ps)) :
    (AddDevice sqlEngine d ⟨T, l⟩).1.2 ≠ none ∧
    (AddDevice sqlEngine d ⟨T, l⟩).2.store.DeviceRole = T.DeviceRole ∧
    (AddDevice sqlEngine d ⟨T, l⟩).2.store.DevicePowerStates = T.DevicePowerStates ∧
    (AddDevice sqlEngine d ⟨T, l⟩).2.store.DeviceRoleDefinition = T.DeviceRoleDefinition ∧
    (AddDevice sqlEngine d ⟨T, l⟩).2.store.PowerStates = T.PowerStates ∧
    ((∀ dr ∈ T.DeviceRole, ∃ dev ∈ T.Devices, dev.deviceID = dr.deviceID) →
      (∀ dps ∈ T.DevicePowerStates, ∃ dev ∈ T.Devices, dev.deviceID = dps.deviceID) →
      ∀ row ∈ (AddDevice sqlEngine d ⟨T, l⟩).2.store.Devices, row ∉ T.Devices →
        (∀ dr ∈ (AddDevice sqlEngine d ⟨T, l⟩).2.store.DeviceRole,
          dr.deviceID ≠ row.deviceID) ∧
        (∀ dps ∈ (AddDevice sqlEngine d ⟨T, l⟩).2.store.DevicePowerStates,
          dps.deviceID ≠ row.deviceID)) := by
  obtain ⟨herr, hstore⟩ := AddDevice_unknown_store T l d h
  generalize AddDevice sqlEngine d ⟨T, l⟩ = x at herr hstore
  rcases hstore with hs | ⟨new, hid, hs⟩
  · rw [hs]
    exact ⟨herr, rfl, rfl, rfl, rfl, fun _ _ row hrow hnot => absurd hrow hnot⟩
  · rw [hs]
    refine ⟨herr, rfl, rfl, rfl, rfl, fun href1 href2 row hrow hnot => ?_⟩
    simp only [List.mem_append, List.mem_singleton] at hrow
    rcases hrow with hrow | rfl
    · exact absurd hrow hnot
    · constructor
      · intro dr hdr heq
        obtain ⟨dev, hdev, hd⟩ := href1 dr hdr
        have := lt_nextID (T.Devices.map fun d => d.deviceID) dev.deviceID
          (List.mem_map.mpr ⟨dev, hdev, rfl⟩)
        omega
      · intro dps hdps heq
        obtain ⟨dev, hdev, hd⟩ := href2 dps hdps
        have := lt_nextID (T.Devices.map fun d => d.deviceID) dev.deviceID
          (List.mem_map.mpr ⟨dev, hdev, rfl⟩)
        omega

/-- Instance of `AddDevice_unknown_name` on the sample store. -/
theorem AddDevice_unknown_name_witness :
    (AddDevice sqlEngine { Device.zero with
        Name := "D9", Building := ⟨1, "Knight Building", "JKB", ""⟩,
        Room := { Room.zero with ID := 1, Name := "101" },
        Type' := "flatpanel", Class := "tv", Roles := ["Telepathy"] } sampleConn).1.2 ≠ none ∧
    (AddDevice sqlEngine { Device.zero with
        Name := "D9", Building := ⟨1, "Knight Building", "JKB", ""⟩,
        Room := { Room.zero with ID := 1, Name := "101" },
        Type' := "flatpanel", Class := "tv", Roles := ["Telepathy"] }
      sampleConn).2.store.DeviceRole = sampleTables.DeviceRole :=
  ⟨(AddDevice_unknown_name sampleTables [] _ (Or.inl ⟨"Telepathy", by decide, by decide⟩)).1,
   (AddDevice_unknown_name sampleTables [] _
     (Or.inl ⟨"Telepathy", by decide, by decide⟩)).2.1⟩

/-! ## `AddDevice`: the existence check -/

/-- C11, on the code. In the sample store the device row D2 of room 101 of
building JKB has no role link. For a device of that name, room and building,
whose type and class names resolve, `AddDevice` returns no error, inserts a
second device row named D2 for the same building and room, and inserts a role
link and a power-state link for it. -/
theorem AddDevice_hidden_duplicate :
    (⟨2, "D2", "10.0.0.2", true, false, 1, 1, 1, 1, "Display 2"⟩ : DeviceRow) ∈
      sampleTables.Devices ∧
    (GetDeviceTypeByName sqlEngine secondD2.Type' sampleConn).1.2 = none ∧
    (GetDeviceClassByName sqlEngine secondD2.Class sampleConn).1.2 = none ∧
    (AddDevice sqlEngine secondD2 sampleConn).1.2 = none ∧
    (AddDevice sqlEngine secondD2 sampleConn).2.store.Devices =
      sampleTables.Devices ++ [⟨3, "D2", "10.0.0.22", true, false, 1, 1, 1, 1, "TV"⟩] ∧
    (AddDevice sqlEngine secondD2 sampleConn).2.store.DeviceRole =
      sampleTables.DeviceRole ++ [⟨2, 3, 1⟩] ∧
    (AddDevice sqlEngine secondD2 sampleConn).2.store.DevicePowerStates =
      sampleTables.DevicePowerStates ++ [⟨2, 3, 1⟩] := by
  refine ⟨by decide, rfl, rfl, rfl, rfl, rfl, rfl⟩

/-- C12, on the code. In the sample store no two device rows share building,
room and name; after `AddDevice` of a device named D2 for room 101 of building
JKB, where the stored D2 has no role link, two device rows share building 1,
room 1 and the name D2. -/
theorem AddDevice_breaks_uniqueness :
    (sampleTables.Devices.map fun r => (r.buildingID, r.roomID, r.name)).Nodup ∧
    (AddDevice sqlEngine secondD2 sampleConn).1.2 = none ∧
    ¬ ((AddDevice sqlEngine secondD2 sampleConn).2.store.Devices.map fun r =>
      (r.buildingID, r.roomID, r.name)).Nodup := by
  refine ⟨by decide, rfl, by decide⟩

/-! ## `AddDevice`: the inserted row and the returned device -/

theorem lookupIdName_issued {σ : Type} (db : Database σ) (q : Stmt) (c : Conn σ) :
    (lookupIdName db q c).2.issued = c.issued ++ [q] := by
  rw [lookupIdName_conn]; rfl

theorem GetDeviceRoleDefByName_issued {σ : Type} (db : Database σ) (name : String)
    (c : Conn σ) :
    (GetDeviceRoleDefByName db name c).2.issued =
      c.issued ++ [.selectDeviceRoleDefByName name] :=
  lookupIdName_issued db _ c

theorem GetPowerStateByName_issued {σ : Type} (db : Database σ) (name : String) (c : Conn σ) :
    (GetPowerStateByName db name c).2.issued = c.issued ++ [.selectPowerStateByName name] :=
  lookupIdName_issued db _ c

theorem AddDeviceRole_issued {σ : Type} (db : Database σ) (dr : DeviceRole) (c : Conn σ) :
    (AddDeviceRole db dr c).2.issued =
      c.issued ++ [.insertDeviceRole dr.DeviceID dr.DeviceRoleDefinitionID] := by
  have h := Exec_issued db (.insertDeviceRole dr.DeviceID dr.DeviceRoleDefinitionID) c
  unfold AddDeviceRole
  generalize Exec db (.insertDeviceRole dr.DeviceID dr.DeviceRoleDefinitionID) c = x at h ⊢
  rcases x with ⟨_ | _, c1⟩ <;> exact h

theorem AddDevicePowerState_issued {σ : Type} (db : Database σ) (dps : DevicePowerState)
    (c : Conn σ) :
    (AddDevicePowerState db dps c).2.issued =
      c.issued ++ [.insertDevicePowerState dps.ID dps.DeviceID dps.PowerStateID] := by
  have h := Exec_issued db (.insertDevicePowerState dps.ID dps.DeviceID dps.PowerStateID) c
  unfold AddDevicePowerState
  generalize Exec db (.insertDevicePowerState dps.ID dps.DeviceID dps.PowerStateID) c = x
    at h ⊢
  rcases x with ⟨_ | _, c1⟩ <;> exact h

theorem resolveRoles_issued {σ : Type} (db : Database σ) (deviceID : Int)
    (roles : List String) :
    ∀ (acc : List DeviceRole) (c : Conn σ),
      ∃ rest, (resolveRoles db deviceID roles acc c).2.issued = c.issued ++ rest := by
  induction roles with
  | nil => intro acc c; exact ⟨[], by simp [resolveRoles]⟩
  | cons role rest ih =>
    intro acc c
    have h := GetDeviceRoleDefByName_issued db role c
    unfold resolveRoles
    generalize GetDeviceRoleDefByName db role c = x at h ⊢
    rcases x with ⟨⟨r, _ | e⟩, c1⟩
    · obtain ⟨r2, h2⟩ := ih (acc ++ [⟨0, deviceID, r.ID⟩]) c1
      exact ⟨_, by simp only at h h2 ⊢; rw [h2, h, List.append_assoc]⟩
    · exact ⟨_, h⟩

theorem resolvePowerStates_issued {σ : Type} (db : Database σ) (deviceID : Int)
    (names : List String) :
    ∀ (acc : List DevicePowerState) (c : Conn σ),
      ∃ rest, (resolvePowerStates db deviceID names acc c).2.issued = c.issued ++ rest := by
  induction names with
  | nil => intro acc c; exact ⟨[], by simp [resolvePowerStates]⟩
  | cons ps rest ih =>
    intro acc c
    have h := GetPowerStateByName_issued db ps c
    unfold resolvePowerStates
    generalize GetPowerStateByName db ps c = x at h ⊢
    rcases x with ⟨⟨r, _ | e⟩, c1⟩
    · obtain ⟨r2, h2⟩ := ih (acc ++ [⟨0, deviceID, r.ID⟩]) c1
      exact ⟨_, by simp only at h h2 ⊢; rw [h2, h, List.append_assoc]⟩
    · exact ⟨_, h⟩

theorem insertDeviceRoles_issued {σ : Type} (db : Database σ) (drs : List DeviceRole) :
    ∀ c : Conn σ, ∃ rest, (insertDeviceRoles db drs c).2.issued = c.issued ++ rest := by
  induction drs with
  | nil => intro c; exact ⟨[], by simp [insertDeviceRoles]⟩
  | cons dr rest ih =>
    intro c
    have h := AddDeviceRole_issued db dr c
    unfold insertDeviceRoles
    generalize AddDeviceRole db dr c = x at h ⊢
    rcases x with ⟨⟨r, _ | e⟩, c1⟩
    · obtain ⟨r2, h2⟩ := ih c1
      exact ⟨_, by simp only at h h2 ⊢; rw [h2, h, List.append_assoc]⟩
    · exact ⟨_, h⟩

theorem insertDevicePowerStates_issued {σ : Type} (db : Database σ)
    (dpss : List DevicePowerState) :
    ∀ c : Conn σ, ∃ rest, (insertDevicePowerStates db dpss c).2.issued = c.issued ++ rest := by
  induction dpss with
  | nil => intro c; exact ⟨[], by simp [insertDevicePowerStates]⟩
  | cons dps rest ih =>
    intro c
    have h := AddDevicePowerState_issued db dps c
    unfold insertDevicePowerStates
    generalize AddDevicePowerState db dps c = x at h ⊢
    rcases x with ⟨⟨r, _ | e⟩, c1⟩
    · obtain ⟨r2, h2⟩ := ih c1
      exact ⟨_, by simp only at h h2 ⊢; rw [h2, h, List.append_assoc]⟩
    · exact ⟨_, h⟩

theorem addDeviceLinks_issued {σ : Type} (db : Database σ) (d : Device) (c : Conn σ) :
    ∃ rest, (addDeviceLinks db d c).2.issued = c.issued ++ rest := by
  unfold addDeviceLinks
  obtain ⟨r1, h1⟩ := resolveRoles_issued db d.ID d.Roles [] c
  generalize resolveRoles db d.ID d.Roles [] c = x1 at h1 ⊢
  rcases x1 with ⟨⟨drs, _ | e⟩, c1⟩
  swap
  · exact ⟨_, h1⟩
  dsimp only
  obtain ⟨r2, h2⟩ := resolvePowerStates_issued db d.ID d.PowerStates [] c1
  generalize resolvePowerStates db d.ID d.PowerStates [] c1 = x2 at h2 ⊢
  rcases x2 with ⟨⟨dpss, _ | e⟩, c2⟩
  swap
  · exact ⟨_, by simp only at h1 h2 ⊢; rw [h2, h1, List.append_assoc]⟩
  dsimp only
  obtain ⟨r3, h3⟩ := insertDeviceRoles_issued db drs c2
  generalize insertDeviceRoles db drs c2 = x3 at h3 ⊢
  rcases x3 with ⟨_ | e, c3⟩
  swap
  · exact ⟨_, by simp only at h1 h2 h3 ⊢; rw [h3, h2, h1, List.append_assoc, List.append_assoc]⟩
  dsimp only
  obtain ⟨r4, h4⟩ := insertDevicePowerStates_issued db dpss c3
  generalize insertDevicePowerStates db dpss c3 = x4 at h4 ⊢
  rcases x4 with ⟨_ | e, c4⟩ <;>
    exact ⟨_, by
      simp only at h1 h2 h3 h4 ⊢
      rw [h4, h3, h2, h1, List.append_assoc, List.append_assoc, List.append_assoc]⟩

/-- The device the link part of `AddDevice` returns without error is its input
with the device list of the room and the evaluators of its configuration
cleared. -/
theorem addDeviceLinks_ok {σ : Type} (db : Database σ) (d r : Device) (c c' : Conn σ)
    (h : addDeviceLinks db d c = ((r, none), c')) :
    r = { d with
      Room := { d.Room with
        Devices := [],
        Configuration := { d.Room.Configuration with Evaluators := [] } } } := by
  unfold addDeviceLinks at h
  generalize resolveRoles db d.ID d.Roles [] c = x1 at h
  rcases x1 with ⟨⟨drs, _ | e⟩, c1⟩
  swap
  · simp at h
  dsimp only at h
  generalize resolvePowerStates db d.ID d.PowerStates [] c1 = x2 at h
  rcases x2 with ⟨⟨dpss, _ | e⟩, c2⟩
  swap
  · simp at h
  dsimp only at h
  generalize insertDeviceRoles db drs c2 = x3 at h
  rcases x3 with ⟨_ | e, c3⟩
  swap
  · simp at h
  dsimp only at h
  generalize insertDevicePowerStates db dpss c3 = x4 at h
  rcases x4 with ⟨_ | e, c4⟩
  · simp only [Prod.mk.injEq, and_true] at h
    exact h.1.symm
  · simp at h

/-- A successful `AddDevice`, step by step: both names resolve, the existence
check comes back empty, the insert executes and reports an id, and the link part
returns the device. -/
theorem AddDevice_ok {σ : Type} (db : Database σ) (d r : Device) (c c' : Conn σ)
    (h : AddDevice db d c = ((r, none), c')) :
    ∃ dt dc ex c1 c2 c3 c4 res,
      GetDeviceTypeByName db d.Type' c = ((dt, none), c1) ∧
      GetDeviceClassByName db d.Class c1 = ((dc, none), c2) ∧
      GetDeviceByBuildingAndRoomAndName db d.Building.Shortname d.Room.Name d.Name c2 =
        ((ex, none), c3) ∧
      ex.ID = 0 ∧
      Exec db (.insertDevice d.Name d.Address d.Input d.Output d.Building.ID d.Room.ID
        dt.ID dc.ID dc.DisplayName) c3 = (.ok res, c4) ∧
      res.LastInsertId.2 = none ∧
      addDeviceLinks db { d with ID := res.LastInsertId.1 } c4 = ((r, none), c') := by
  unfold AddDevice at h
  rcases h1 : GetDeviceTypeByName db d.Type' c with ⟨⟨dt, _ | e⟩, c1⟩
  swap
  · rw [h1] at h; simp at h
  rw [h1] at h
  dsimp only at h
  rcases h2 : GetDeviceClassByName db d.Class c1 with ⟨⟨dc, _ | e⟩, c2⟩
  swap
  · rw [h2] at h; simp at h
  rw [h2] at h
  dsimp only at h
  rcases h3 : GetDeviceByBuildingAndRoomAndName db d.Building.Shortname d.Room.Name d.Name c2
    with ⟨⟨ex, err⟩, c3⟩
  rw [h3] at h
  dsimp only at h
  split at h
  · simp at h
  · rename_i hcheck
    rw [not_or, not_not, not_not] at hcheck
    obtain ⟨herr, hid⟩ := hcheck
    subst herr
    rcases h4 : Exec db (.insertDevice d.Name d.Address d.Input d.Output d.Building.ID
      d.Room.ID dt.ID dc.ID dc.DisplayName) c3 with ⟨e | res, c4⟩
    · rw [h4] at h; simp at h
    · rw [h4] at h
      dsimp only at h
      rcases h5 : res.LastInsertId with ⟨id, _ | e⟩
      · rw [h5] at h
        dsimp only at h
        refine ⟨dt, dc, ex, c1, c2, c3, c4, res, rfl, h2, h3, hid, h4, by rw [h5], ?_⟩
        rw [h5]
        exact h
      · rw [h5] at h; simp at h

/-- When `AddDevice` reaches the insert, the insert is the next statement sent. -/
theorem AddDevice_insert_issued {σ : Type} (db : Database σ) (d : Device) (c c1 c2 c3 : Conn σ)
    (dt : DeviceType) (dc : DeviceClass) (ex : Device)
    (h1 : GetDeviceTypeByName db d.Type' c = ((dt, none), c1))
    (h2 : GetDeviceClassByName db d.Class c1 = ((dc, none), c2))
    (h3 : GetDeviceByBuildingAndRoomAndName db d.Building.Shortname d.Room.Name d.Name c2 =
      ((ex, none), c3))
    (h4 : ex.ID = 0) :
    ∃ rest, (AddDevice db d c).2.issued =
      c3.issued ++ .insertDevice d.Name d.Address d.Input d.Output d.Building.ID d.Room.ID
        dt.ID dc.ID dc.DisplayName :: rest := by
  unfold AddDevice
  rw [h1]
  dsimp only
  rw [h2]
  dsimp only
  rw [h3]
  dsimp only
  rw [if_neg (by simp [h4])]
  have he := Exec_issued db (.insertDevice d.Name d.Address d.Input d.Output d.Building.ID
    d.Room.ID dt.ID dc.ID dc.DisplayName) c3
  generalize Exec db (.insertDevice d.Name d.Address d.Input d.Output d.Building.ID
    d.Room.ID dt.ID dc.ID dc.DisplayName) c3 = x at he ⊢
  rcases x with ⟨e | res, c4⟩
  · exact ⟨[], he⟩
  · dsimp only
    rcases res.LastInsertId with ⟨id, _ | e⟩
    · dsimp only
      obtain ⟨rest, hr⟩ := addDeviceLinks_issued db { d with ID := id } c4
      exact ⟨rest, by simp only at he; rw [hr, he, List.append_assoc]; rfl⟩
    · exact ⟨[], he⟩

theorem AddDeviceRole_sql_devices (T : Tables) (l : List Stmt) (dr : DeviceRole) :
    (AddDeviceRole sqlEngine dr ⟨T, l⟩).2.store.Devices = T.Devices := by
  have hq : Exec sqlEngine (.insertDeviceRole dr.DeviceID dr.DeviceRoleDefinitionID) ⟨T, l⟩ =
      (.ok (Result.inserted (nextID (T.DeviceRole.map fun r => r.deviceRoleID))),
        ⟨{ T with
            DeviceRole := T.DeviceRole ++
              [⟨nextID (T.DeviceRole.map fun r => r.deviceRoleID), dr.DeviceID,
                dr.DeviceRoleDefinitionID⟩] },
          l ++ [.insertDeviceRole dr.DeviceID dr.DeviceRoleDefinitionID]⟩) := by
    simp only [Exec, sqlEngine, run]
  unfold AddDeviceRole
  rw [hq]

theorem AddDevicePowerState_sql_devices (T : Tables) (l : List Stmt) (dps : DevicePowerState) :
    (AddDevicePowerState sqlEngine dps ⟨T, l⟩).2.store.Devices = T.Devices := by
  have hq : (Exec sqlEngine (.insertDevicePowerState dps.ID dps.DeviceID dps.PowerStateID)
      ⟨T, l⟩).2.store.Devices = T.Devices := by
    simp only [Exec, sqlEngine, run]
  unfold AddDevicePowerState
  generalize Exec sqlEngine (.insertDevicePowerState dps.ID dps.DeviceID dps.PowerStateID)
    ⟨T, l⟩ = x at hq ⊢
  rcases x with ⟨e | res, c1⟩
  · exact hq
  · exact hq

theorem insertDeviceRoles_sql_devices (drs : List DeviceRole) :
    ∀ (T : Tables) (l : List Stmt),
      (insertDeviceRoles sqlEngine drs ⟨T, l⟩).2.store.Devices = T.Devices := by
  induction drs with
  | nil => intro T l; rfl
  | cons dr rest ih =>
    intro T l
    have h := AddDeviceRole_sql_devices T l dr
    unfold insertDeviceRoles
    generalize AddDeviceRole sqlEngine dr ⟨T, l⟩ = x at h ⊢
    rcases x with ⟨⟨r, _ | e⟩, ⟨T1, l1⟩⟩
    · dsimp only at h ⊢
      rw [ih T1 l1, h]
    · exact h

theorem insertDevicePowerStates_sql_devices (dpss : List DevicePowerState) :
    ∀ (T : Tables) (l : List Stmt),
      (insertDevicePowerStates sqlEngine dpss ⟨T, l⟩).2.store.Devices = T.Devices := by
  induction dpss with
  | nil => intro T l; rfl
  | cons dps rest ih =>
    intro T l
    have h := AddDevicePowerState_sql_devices T l dps
    unfold insertDevicePowerStates
    generalize AddDevicePowerState sqlEngine dps ⟨T, l⟩ = x at h ⊢
    rcases x with ⟨⟨r, _ | e⟩, ⟨T1, l1⟩⟩
    · dsimp only at h ⊢
      rw [ih T1 l1, h]
    · exact h

/-- On the relational engine the link part of `AddDevice` leaves the device rows
as they are. -/
theorem addDeviceLinks_sql_devices (T : Tables) (l : List Stmt) (d : Device) :
    (addDeviceLinks sqlEngine d ⟨T, l⟩).2.store.Devices = T.Devices := by
  unfold addDeviceLinks
  have h1 := (resolveRoles_sql T d.ID d.Roles [] l).1
  generalize resolveRoles sqlEngine d.ID d.Roles [] ⟨T, l⟩ = x1 at h1 ⊢
  rcases x1 with ⟨⟨drs, _ | e⟩, ⟨T1, l1⟩⟩
  swap
  · exact congrArg Tables.Devices h1
  dsimp only at h1 ⊢
  subst h1
  have h2 := (resolvePowerStates_sql T1 d.ID d.PowerStates [] l1).1
  generalize resolvePowerStates sqlEngine d.ID d.PowerStates [] ⟨T1, l1⟩ = x2 at h2 ⊢
  rcases x2 with ⟨⟨dpss, _ | e⟩, ⟨T2, l2⟩⟩
  swap
  · exact congrArg Tables.Devices h2
  dsimp only at h2 ⊢
  subst h2
  have h3 := insertDeviceRoles_sql_devices drs T2 l2
  generalize insertDeviceRoles sqlEngine drs ⟨T2, l2⟩ = x3 at h3 ⊢
  rcases x3 with ⟨_ | e, ⟨T3, l3⟩⟩
  swap
  · exact h3
  dsimp only at h3 ⊢
  have h4 := insertDevicePowerStates_sql_devices dpss T3 l3
  generalize insertDevicePowerStates sqlEngine dpss ⟨T3, l3⟩ = x4 at h4 ⊢
  rcases x4 with ⟨_ | e, ⟨T4, l4⟩⟩ <;>
  · dsimp only at h4 ⊢
    rw [h4, h3]

/-- On the relational engine, when `AddDevice` reaches the insert, the device
rows afterwards are the rows before and the new row: a fresh id, the name,
address, flags, building id and room id of the device, the id of the resolved
type as `classID`, the id of the resolved class as `typeID`, and the display
name of the class. -/
theorem AddDevice_sql_devices (T : Tables) (l : List Stmt) (d : Device) (c1 c2 c3 : Conn Tables)
    (dt : DeviceType) (dc : DeviceClass) (ex : Device)
    (h1 : GetDeviceTypeByName sqlEngine d.Type' ⟨T, l⟩ = ((dt, none), c1))
    (h2 : GetDeviceClassByName sqlEngine d.Class c1 = ((dc, none), c2))
    (h3 : GetDeviceByBuildingAndRoomAndName sqlEngine d.Building.Shortname d.Room.Name d.Name
      c2 = ((ex, none), c3))
    (h4 : ex.ID = 0) :
    (AddDevice sqlEngine d ⟨T, l⟩).2.store.Devices =
      T.Devices ++ [⟨nextID (T.Devices.map fun r => r.deviceID), d.Name, d.Address, d.Input,
        d.Output, d.Building.ID, d.Room.ID, dt.ID, dc.ID, dc.DisplayName⟩] ∧
    ((AddDevice sqlEngine d ⟨T, l⟩).1.2 = none →
      (AddDevice sqlEngine d ⟨T, l⟩).1.1.ID = nextID (T.Devices.map fun r => r.deviceID)) := by
  have s1 := GetDeviceTypeByName_sql T l d.Type'
  rw [h1] at s1
  rcases c1 with ⟨T1, l1⟩
  dsimp only at s1
  subst s1
  have s2 := GetDeviceClassByName_sql T1 l1 d.Class
  rw [h2] at s2
  rcases c2 with ⟨T2, l2⟩
  dsimp only at s2
  subst s2
  have s3 := GetDeviceByBuildingAndRoomAndName_sql T2 l2 d.Building.Shortname d.Room.Name
    d.Name
  rw [h3] at s3
  rcases c3 with ⟨T3, l3⟩
  dsimp only at s3
  subst s3
  have hq : Exec sqlEngine (.insertDevice d.Name d.Address d.Input d.Output d.Building.ID
      d.Room.ID dt.ID dc.ID dc.DisplayName) ⟨T3, l3⟩ =
      (.ok (Result.inserted (nextID (T3.Devices.map fun d => d.deviceID))),
        ⟨{ T3 with
            Devices := T3.Devices ++
              [⟨nextID (T3.Devices.map fun d => d.deviceID), d.Name, d.Address, d.Input,
                d.Output, d.Building.ID, d.Room.ID, dt.ID, dc.ID, dc.DisplayName⟩] },
          l3 ++ [.insertDevice d.Name d.Address d.Input d.Output d.Building.ID d.Room.ID
            dt.ID dc.ID dc.DisplayName]⟩) := by
    simp only [Exec, sqlEngine, run]
  unfold AddDevice
  rw [h1]
  dsimp only
  rw [h2]
  dsimp only
  rw [h3]
  dsimp only
  rw [if_neg (by simp [h4]), hq]
  simp only [Result.inserted]
  refine ⟨by rw [addDeviceLinks_sql_devices], fun hok => ?_⟩
  generalize hx : addDeviceLinks sqlEngine
    { d with ID := nextID (T3.Devices.map fun d => d.deviceID) } _ = x at hok ⊢
  rcases x with ⟨⟨r, err⟩, c'⟩
  dsimp only at hok ⊢
  subst hok
  rw [addDeviceLinks_ok _ _ _ _ _ hx]

/-- C13, on the code. The insert of `AddDevice` binds `dt.ID`, the id resolved
from `d.Type`, to the column `classID` and `dc.ID`, the id resolved from
`d.Class`, to the column `typeID`. In a store with the classes (1, projector),
(2, tv) and the types (1, flatpanel), (2, sony), adding a device of type
"flatpanel" and class "tv" succeeds and stores `classID = 1` and `typeID = 2`:
the class reference is not the id 2 resolved from `d.Class`, and the type
reference is not the id 1 resolved from `d.Type`. Read back through
`GetDeviceByBuildingAndRoomAndName`, which joins `DeviceClasses` on `classID`
and `DeviceTypes` on `typeID`, the device shows "projector" and "sony", names
the caller never gave. -/
theorem AddDevice_class_type_swapped :
    (GetDeviceTypeByName sqlEngine deviceD9.Type' ⟨twoClassTables, []⟩).1 =
      (⟨1, "flatpanel"⟩, none) ∧
    (GetDeviceClassByName sqlEngine deviceD9.Class ⟨twoClassTables, []⟩).1 =
      (⟨2, "tv", "TV"⟩, none) ∧
    (AddDevice sqlEngine deviceD9 ⟨twoClassTables, []⟩).1.2 = none ∧
    (AddDevice sqlEngine deviceD9 ⟨twoClassTables, []⟩).2.store.Devices =
      [⟨1, "D9", "10.0.0.9", true, false, 1, 1, 1, 2, "TV"⟩] ∧
    (¬ ∀ row ∈ (AddDevice sqlEngine deviceD9 ⟨twoClassTables, []⟩).2.store.Devices,
      row.classID =
        (GetDeviceClassByName sqlEngine deviceD9.Class ⟨twoClassTables, []⟩).1.1.ID ∧
      row.typeID =
        (GetDeviceTypeByName sqlEngine deviceD9.Type' ⟨twoClassTables, []⟩).1.1.ID) ∧
    (GetDeviceByBuildingAndRoomAndName sqlEngine "JKB" "101" "D9"
      (AddDevice sqlEngine deviceD9 ⟨twoClassTables, []⟩).2).1.2 = none ∧
    (GetDeviceByBuildingAndRoomAndName sqlEngine "JKB" "101" "D9"
      (AddDevice sqlEngine deviceD9 ⟨twoClassTables, []⟩).2).1.1.ID = 1 ∧
    (GetDeviceByBuildingAndRoomAndName sqlEngine "JKB" "101" "D9"
      (AddDevice sqlEngine deviceD9 ⟨twoClassTables, []⟩).2).1.1.Type' = "projector" ∧
    (GetDeviceByBuildingAndRoomAndName sqlEngine "JKB" "101" "D9"
      (AddDevice sqlEngine deviceD9 ⟨twoClassTables, []⟩).2).1.1.Class = "sony" := by
  refine ⟨rfl, rfl, rfl, rfl, by decide, rfl, rfl, rfl, rfl⟩

/-- What the insert of `AddDevice` stores. When `AddDevice` reaches the insert
(the type name resolves to `dt`, the class name resolves to `dc`, and the
existence check returns no error and a device with id 0), the statement it
issues right after the check is the insert with the arguments `d.Name,
d.Address, d.Input, d.Output, d.Building.ID, d.Room.ID, dt.ID, dc.ID,
dc.DisplayName` in the column order `name, address, input, output, buildingID,
roomID, classID, typeID, displayName`; and on the relational engine the device
rows afterwards are the rows before and one new row with `classID = dt.ID` and
`typeID = dc.ID`. -/
theorem AddDevice_inserted_row (T : Tables) (l : List Stmt) (d : Device)
    (c1 c2 c3 : Conn Tables) (dt : DeviceType) (dc : DeviceClass) (ex : Device)
    (h1 : GetDeviceTypeByName sqlEngine d.Type' ⟨T, l⟩ = ((dt, none), c1))
    (h2 : GetDeviceClassByName sqlEngine d.Class c1 = ((dc, none), c2))
    (h3 : GetDeviceByBuildingAndRoomAndName sqlEngine d.Building.Shortname d.Room.Name d.Name
      c2 = ((ex, none), c3))
    (h4 : ex.ID = 0) :
    (∃ rest, (AddDevice sqlEngine d ⟨T, l⟩).2.issued =
      c3.issued ++ Stmt.insertDevice d.Name d.Address d.Input d.Output d.Building.ID
        d.Room.ID dt.ID dc.ID dc.DisplayName :: rest) ∧
    ∃ row : DeviceRow,
      (AddDevice sqlEngine d ⟨T, l⟩).2.store.Devices = T.Devices ++ [row] ∧
      row.classID = dt.ID ∧ row.typeID = dc.ID ∧ row.displayName = dc.DisplayName ∧
      row.name = d.Name ∧ row.address = d.Address ∧ row.input = d.Input ∧
      row.output = d.Output ∧ row.buildingID = d.Building.ID ∧ row.roomID = d.Room.ID := by
  refine ⟨AddDevice_insert_issued sqlEngine d ⟨T, l⟩ c1 c2 c3 dt dc ex h1 h2 h3 h4, _,
    (AddDevice_sql_devices T l d c1 c2 c3 dt dc ex h1 h2 h3 h4).1,
    rfl, rfl, rfl, rfl, rfl, rfl, rfl, rfl, rfl⟩

/-- C14. When `AddDevice` succeeds, the returned device is the input with `ID` set
to the id storage reported for the insert into `Devices` (`LastInsertId` of that
statement), `Room.Devices` empty and `Room.Configuration.Evaluators` empty, every
other field being that of the input; on the relational engine that id is the
`deviceID` of the one row added to `Devices`. -/
theorem AddDevice_returns_cleaned (T : Tables) (l : List Stmt) (d r : Device)
    (c : Conn Tables) (h : AddDevice sqlEngine d ⟨T, l⟩ = ((r, none), c)) :
    r.Room.Devices = [] ∧ r.Room.Configuration.Evaluators = [] ∧
    (∃ (dt : DeviceType) (dc : DeviceClass) (c3 c4 : Conn Tables) (res : Result),
      Exec sqlEngine (.insertDevice d.Name d.Address d.Input d.Output d.Building.ID
        d.Room.ID dt.ID dc.ID dc.DisplayName) c3 = (.ok res, c4) ∧
      res.LastInsertId = (r.ID, none)) ∧
    (∃ row : DeviceRow, c.store.Devices = T.Devices ++ [row] ∧ row.deviceID = r.ID) ∧
    r = { d with
          ID := r.ID,
          Room := { d.Room with
            Devices := [],
            Configuration := { d.Room.Configuration with Evaluators := [] } } } := by
  obtain ⟨dt, dc, ex, c1, c2, c3, c4, res, h1, h2, h3, hid, h4, h5, h6⟩ :=
    AddDevice_ok sqlEngine d r ⟨T, l⟩ c h
  have hr := addDeviceLinks_ok _ _ _ _ _ h6
  have hs := AddDevice_sql_devices T l d c1 c2 c3 dt dc ex h1 h2 h3 hid
  rw [h] at hs
  have hrid : r.ID = res.LastInsertId.1 := by rw [hr]
  refine ⟨by rw [hr], by rw [hr], ⟨dt, dc, c3, c4, res, h4, ?_⟩, ⟨_, hs.1, ?_⟩, ?_⟩
  · rw [hrid]
    exact Prod.ext rfl h5
  · exact (hs.2 rfl).symm
  · rw [hrid]
    exact hr

theorem AddDevice_returns_cleaned_witness :
    deviceD9InRoom.Room.Devices.length = 1 ∧
    deviceD9InRoom.Room.Configuration.Evaluators = ["DefaultEvaluator"] ∧
    (AddDevice sqlEngine deviceD9InRoom sampleConn).1.2 = none ∧
    (AddDevice sqlEngine deviceD9InRoom sampleConn).1.1.ID = 3 ∧
    (AddDevice sqlEngine deviceD9InRoom sampleConn).1.1.Room.Devices = [] ∧
    (AddDevice sqlEngine deviceD9InRoom sampleConn).1.1.Room.Configuration.Evaluators = [] ∧
    (AddDevice sqlEngine deviceD9InRoom sampleConn).1.1 =
      { deviceD9InRoom with
        ID := (AddDevice sqlEngine deviceD9InRoom sampleConn).1.1.ID,
        Room := { deviceD9InRoom.Room with
          Devices := [],
          Configuration := { deviceD9InRoom.Room.Configuration with Evaluators := [] } } } :=
  ⟨rfl, rfl, rfl, rfl,
    (AddDevice_returns_cleaned sampleTables [] deviceD9InRoom _ _ rfl).1,
    (AddDevice_returns_cleaned sampleTables [] deviceD9InRoom _ _ rfl).2.1,
    (AddDevice_returns_cleaned sampleTables [] deviceD9InRoom _ _ rfl).2.2.2.2⟩

/-- C15. The path id is a string and the body id an integer; the handler compares
the path id with the decimal text `Itoa n` of the body id, and that is the
equality meant here. For every request whose body binds to `pc`: when the path id
equals `Itoa pc.ID` the handler makes the accessor call, its state afterwards is
the state the call leaves, and it answers 200 with the stored configuration or
500 with the error text; when the path id differs, it answers 400 with
"Endpoint parameter and json id must match!" and leaves the state as it was,
whatever the accessors are. Over accessors that record each stored configuration,
the configuration is recorded exactly when the path id equals `Itoa pc.ID`. -/
theorem AddPortConfiguration_id_check {σ : Type} (A : Accessors σ)
    (context : Context PortConfiguration) (pc : PortConfiguration) (s : σ)
    (recorded : List PortConfiguration) (hbind : context.Bind = .ok pc) :
    (context.Param "id" = Itoa pc.ID →
      (handlers.AddPortConfiguration A context s).2 = (A.AddPortConfiguration pc s).2 ∧
      (handlers.AddPortConfiguration A context s).1 =
        match (A.AddPortConfiguration pc s).1 with
        | (_, some err) => .jsonText StatusInternalServerError err
        | (response, none) => .json StatusOK response) ∧
    (context.Param "id" ≠ Itoa pc.ID →
      handlers.AddPortConfiguration A context s =
        (.jsonText StatusBadRequest "Endpoint parameter and json id must match!", s) ∧
      (handlers.AddPortConfiguration A context s).1.status = some 400) ∧
    ((handlers.AddPortConfiguration sampleAccessors context recorded).2 = recorded ++ [pc] ↔
      context.Param "id" = Itoa pc.ID) ∧
    ((handlers.AddPortConfiguration sampleAccessors context recorded).2 = recorded ↔
      context.Param "id" ≠ Itoa pc.ID) := by
  refine ⟨fun h => ?_, fun h => ?_, ?_, ?_⟩
  · unfold handlers.AddPortConfiguration
    rw [hbind]
    dsimp only
    rw [if_neg (not_not.mpr h)]
    generalize A.AddPortConfiguration pc s = x
    rcases x with ⟨⟨r, _ | e⟩, s1⟩ <;> exact ⟨rfl, rfl⟩
  · unfold handlers.AddPortConfiguration
    rw [hbind]
    dsimp only
    rw [if_pos h]
    exact ⟨rfl, rfl⟩
  · unfold handlers.AddPortConfiguration
    rw [hbind]
    dsimp only
    by_cases h : context.Param "id" = Itoa pc.ID
    · rw [if_neg (not_not.mpr h)]
      simp [sampleAccessors, h]
    · rw [if_pos h]
      simp [h]
  · unfold handlers.AddPortConfiguration
    rw [hbind]
    dsimp only
    by_cases h : context.Param "id" = Itoa pc.ID
    · rw [if_neg (not_not.mpr h)]
      simp [sampleAccessors, h]
    · rw [if_pos h]
      simp [h]

theorem AddPortConfiguration_id_check_witness :
    ((handlers.AddPortConfiguration sampleAccessors
        ⟨fun _ => "7", .ok ⟨7, 1, 2, 3, 4⟩⟩ []).2 = [] ++ [⟨7, 1, 2, 3, 4⟩] ↔
      "7" = Itoa 7) ∧
    "007" ≠ Itoa 7 ∧
    handlers.AddPortConfiguration sampleAccessors ⟨fun _ => "007", .ok ⟨7, 1, 2, 3, 4⟩⟩ [] =
      (.jsonText StatusBadRequest "Endpoint parameter and json id must match!", []) :=
  ⟨(AddPortConfiguration_id_check sampleAccessors ⟨fun _ => "7", .ok ⟨7, 1, 2, 3, 4⟩⟩
      ⟨7, 1, 2, 3, 4⟩ [] [] rfl).2.2.1,
    by decide,
    ((AddPortConfiguration_id_check sampleAccessors ⟨fun _ => "007", .ok ⟨7, 1, 2, 3, 4⟩⟩
      ⟨7, 1, 2, 3, 4⟩ [] [] rfl).2.1 (by decide)).1⟩

/-- C16, on the code. The handlers do not map errors in one way. When the accessor
call fails with `e`, the room handlers `GetAllRooms`, `GetRoomByID`,
`GetRoomByName`, `GetRoomsByBuilding` and `MakeRoom` answer with status 400 and
the error text, not 500 (`AddPortConfiguration`, `GetDevicesByRoom` and
`GetDeviceByID` answer 500 with the error text); when the id of `GetRoomByID` or
`GetRoomsByBuilding` is not a number, or the body of `MakeRoom` does not bind, the
handler returns the error and writes no response, so no 400; and
`GetDevicesByBuildingAndRoomAndRole` answers a missing parameter with status 500
and a failed call with the error value, not its text, as body. -/
theorem handlers_error_mapping {σ τ : Type} (A : Accessors σ) (couch : Couch τ) (s s1 : σ)
    (t t1 : τ) (e : Error) :
    (∀ (context : Context Unit) rooms, A.GetAllRooms s = ((rooms, some e), s1) →
      handlers.GetAllRooms A context s = (.string 400 e, s1)) ∧
    (∀ (context : Context Unit) id room, Atoi (context.Param "id") = .ok id →
      A.GetRoomByID id s = ((room, some e), s1) →
      handlers.GetRoomByID A context s = (.string 400 e, s1)) ∧
    (∀ (context : Context Unit) room,
      A.GetRoomByName (context.Param "name") s = ((room, some e), s1) →
      handlers.GetRoomByName A context s = (.string 400 e, s1)) ∧
    (∀ (context : Context Unit) id rooms, Atoi (context.Param "room") = .ok id →
      A.GetRoomsByBuilding id s = ((rooms, some e), s1) →
      handlers.GetRoomsByBuilding A context s = (.string 400 e, s1)) ∧
    (∀ (context : Context RoomBody) body room, context.Bind = .ok body →
      A.MakeRoom body.Name body.Building body.VLAN s = ((room, some e), s1) →
      handlers.MakeRoom A context s = (.string 400 e, s1)) ∧
    (∀ (context : Context Unit), Atoi (context.Param "id") = .error e →
      handlers.GetRoomByID A context s = (.returned e, s) ∧
      (handlers.GetRoomByID A context s).1.status = none) ∧
    (∀ (context : Context Unit), Atoi (context.Param "room") = .error e →
      handlers.GetRoomsByBuilding A context s = (.returned e, s) ∧
      (handlers.GetRoomsByBuilding A context s).1.status = none) ∧
    (∀ (context : Context RoomBody), context.Bind = .error e →
      handlers.MakeRoom A context s = (.returned e, s) ∧
      (handlers.MakeRoom A context s).1.status = none) ∧
    (∀ (context : Context Unit),
      len (context.Param "room") < 2 ∨ len (context.Param "building") < 2 ∨
        len (context.Param "role") < 2 →
      handlers.GetDevicesByBuildingAndRoomAndRole couch context t =
        (.jsonText 500 "Invalid parameters. Must include a valid buliding, room and role",
          t)) ∧
    (∀ (context : Context Unit) devs,
      ¬ (len (context.Param "room") < 2 ∨ len (context.Param "building") < 2 ∨
        len (context.Param "role") < 2) →
      couch.GetDevicesByRoomAndRole (context.Param "building" ++ "-" ++ context.Param "room")
        (context.Param "role") t = ((devs, some e), t1) →
      handlers.GetDevicesByBuildingAndRoomAndRole couch context t = (.jsonError 500 e, t1)) ∧
    (∀ (context : Context PortConfiguration) pc response, context.Bind = .ok pc →
      context.Param "id" = Itoa pc.ID →
      A.AddPortConfiguration pc s = ((response, some e), s1) →
      handlers.AddPortConfiguration A context s = (.jsonText 500 e, s1)) ∧
    (∀ (context : Context Unit) devs,
      ¬ (len (context.Param "roomid") < 1 ∨ len (context.Param "buildingid") < 1) →
      couch.GetDevicesByRoom (context.Param "buildingid" ++ "-" ++ context.Param "roomid") t =
        ((devs, some e), t1) →
      handlers.GetDevicesByRoom couch context t = (.jsonText 500 e, t1)) ∧
    (∀ (context : Context Unit) dev,
      ¬ (len (context.Param "roomid") < 1 ∨ len (context.Param "buildingid") < 1 ∨
        len (context.Param "deviceid") < 1) →
      couch.GetDeviceByID (context.Param "buildingid" ++ "-" ++ context.Param "roomid" ++
        "-" ++ context.Param "deviceid") t = ((dev, some e), t1) →
      handlers.GetDeviceByID couch context t = (.jsonText 500 e, t1)) := by
  refine ⟨?_, ?_, ?_, ?_, ?_, ?_, ?_, ?_, ?_, ?_, ?_, ?_, ?_⟩
  · intro context rooms h
    unfold handlers.GetAllRooms
    rw [h]
    rfl
  · intro context id room ha h
    unfold handlers.GetRoomByID
    rw [ha]
    dsimp only
    rw [h]
    rfl
  · intro context room h
    unfold handlers.GetRoomByName
    rw [h]
    rfl
  · intro context id rooms ha h
    unfold handlers.GetRoomsByBuilding
    rw [ha]
    dsimp only
    rw [h]
    rfl
  · intro context body room hb h
    unfold handlers.MakeRoom
    rw [hb]
    dsimp only
    rw [h]
    rfl
  · intro context ha
    unfold handlers.GetRoomByID
    rw [ha]
    exact ⟨rfl, rfl⟩
  · intro context ha
    unfold handlers.GetRoomsByBuilding
    rw [ha]
    exact ⟨rfl, rfl⟩
  · intro context hb
    unfold handlers.MakeRoom
    rw [hb]
    exact ⟨rfl, rfl⟩
  · intro context h
    unfold handlers.GetDevicesByBuildingAndRoomAndRole
    rw [if_pos h]
    rfl
  · intro context devs hp h
    unfold handlers.GetDevicesByBuildingAndRoomAndRole
    rw [if_neg hp, h]
    rfl
  · intro context pc response hb hid h
    unfold handlers.AddPortConfiguration
    rw [hb]
    dsimp only
    rw [if_neg (not_not.mpr hid), h]
    rfl
  · intro context devs hp h
    unfold handlers.GetDevicesByRoom
    rw [if_neg hp, h]
    rfl
  · intro context dev hp h
    unfold handlers.GetDeviceByID
    rw [if_neg hp, h]
    rfl

theorem handlers_error_mapping_witness :
    handlers.GetAllRooms sampleAccessors ⟨fun _ => "", .ok ()⟩ [] =
      (.string 400 "sql: database is closed", []) ∧
    (handlers.GetRoomByID sampleAccessors ⟨fun _ => "abc", .ok ()⟩ []).1.status = none ∧
    handlers.GetDevicesByBuildingAndRoomAndRole sampleCouch ⟨fun _ => "", .ok ()⟩ () =
      (.jsonText 500 "Invalid parameters. Must include a valid buliding, room and role",
        ()) ∧
    handlers.GetDevicesByBuildingAndRoomAndRole sampleCouch ⟨fun _ => "JKB", .ok ()⟩ () =
      (.jsonError 500 "couch: connection refused", ()) :=
  ⟨(handlers_error_mapping sampleAccessors sampleCouch [] [] () ()
      "sql: database is closed").1 ⟨fun _ => "", .ok ()⟩ [] rfl,
    ((handlers_error_mapping sampleAccessors sampleCouch [] [] () ()
      (atoiSyntaxError "abc")).2.2.2.2.2.1 ⟨fun _ => "abc", .ok ()⟩ rfl).2,
    (handlers_error_mapping sampleAccessors sampleCouch [] [] () ()
      "couch: connection refused").2.2.2.2.2.2.2.2.1 ⟨fun _ => "", .ok ()⟩ (by decide),
    (handlers_error_mapping sampleAccessors sampleCouch [] [] () ()
      "couch: connection refused").2.2.2.2.2.2.2.2.2.1 ⟨fun _ => "JKB", .ok ()⟩ []
      (by decide) rfl⟩

/-- C17, on the code. When the building lookup succeeds and no room row has the id
of that building and the name asked for, `GetRoomByBuildingAndName` does not
return at all: `ExtractRoomData` yields the empty list without error and the
unguarded `rooms[0]` panics with "index out of range [0] with length 0". -/
theorem GetRoomByBuildingAndName_missing_room_panics (T : Tables) (l : List Stmt)
    (buildingShortname name : String) (building : Building) (c1 : Conn Tables)
    (hb : GetBuildingByShortname sqlEngine buildingShortname ⟨T, l⟩ = ((building, none), c1))
    (hno : ∀ r ∈ T.Rooms, ¬ (r.buildingID = building.ID ∧ r.name = name)) :
    ExtractRoomData ((T.Rooms.filter fun r => r.buildingID = building.ID ∧ r.name = name).map
      fun r => [.int r.roomID, .str r.name, .int r.buildingID, .str r.description,
        .int r.currentVideoOutput, .int r.currentAudioOutput, .int r.currentVideoInput,
        .int r.currentAudioInput, .int r.configurationID]) [] = ([], none) ∧
    (GetRoomByBuildingAndName sqlEngine buildingShortname name ⟨T, l⟩).1 =
      .panicked "runtime error: index out of range [0] with length 0" ∧
    ∀ room e, (GetRoomByBuildingAndName sqlEngine buildingShortname name ⟨T, l⟩).1 ≠
      .returned room e := by
  have hf : (T.Rooms.filter fun r => r.buildingID = building.ID ∧ r.name = name) = [] := by
    rw [List.filter_eq_nil_iff]
    intro r hr
    simpa using hno r hr
  have hs := GetBuildingByShortname_issued sqlEngine buildingShortname ⟨T, l⟩
  rw [hb] at hs
  have hc1 : c1 = ⟨T, l ++ [.selectBuildingByShortname buildingShortname]⟩ := by
    rw [show c1 = (Query sqlEngine (.selectBuildingByShortname buildingShortname) ⟨T, l⟩).2
      from hs]
    simp only [Query, QueryRows, Except.map, sqlEngine, run]
  subst hc1
  have hq : Query sqlEngine (.selectRoomByBuildingAndName building.ID name)
      ⟨T, l ++ [.selectBuildingByShortname buildingShortname]⟩ =
      (.ok [], ⟨T, l ++ [.selectBuildingByShortname buildingShortname] ++
        [.selectRoomByBuildingAndName building.ID name]⟩) := by
    simp only [Query, QueryRows, Except.map, sqlEngine, run, hf, List.map_nil]
  have hp : (GetRoomByBuildingAndName sqlEngine buildingShortname name ⟨T, l⟩).1 =
      .panicked "runtime error: index out of range [0] with length 0" := by
    unfold GetRoomByBuildingAndName
    rw [hb]
    dsimp only
    rw [hq]
    rfl
  refine ⟨by rw [hf]; rfl, hp, fun room e h => ?_⟩
  rw [hp] at h
  cases h

theorem GetRoomByBuildingAndName_missing_room_panics_witness :
    (GetBuildingByShortname sqlEngine "JKB" sampleConn).1 =
      (⟨1, "Knight Building", "JKB", ""⟩, none) ∧
    (GetRoomByBuildingAndName sqlEngine "JKB" "999" sampleConn).1 =
      .panicked "runtime error: index out of range [0] with length 0" :=
  ⟨rfl, (GetRoomByBuildingAndName_missing_room_panics sampleTables [] "JKB" "999"
    ⟨1, "Knight Building", "JKB", ""⟩ _ rfl (by decide)).2.1⟩

end ConfigDB
